import Mathlib

/-! # Project-T: the fixed-tick platformer core of `src/main.cpp`

A shallow embedding of the fixed-timestep update block of `main` (the body of the
`while (timeSinceLastFixedUpdate >= TIME_PER_FIXED_UPDATE)` loop) and of
`setupLevelAssets`, followed by theorems about it.

Conventions of the embedding:

* `float` values are rationals (exact arithmetic); `sf::Time` values are integer
  microseconds, as in SFML (`sf::seconds(1.f/60.f)` is 16666 us).
* `std::vector` is `List`; `std::map<unsigned, _>` is a partial function on keys.
* The player's `groundPlatform` pointer points into `bodies`; it is the index of the
  pointed-at element (`none` is `nullptr`; an index past the end is a pointer that is not
  an element of `bodies`).
* Sound, music and tile fill colours are presentation only and are left out.
* Code of the repository that is not in `main.cpp` (`Tile`, `CollisionSystem`,
  `math::easing`, `LevelManager`) is taken as a parameter: `Env` and `TickInput`. The
  collision resolver reads the bodies and works on the player body only.
-/

namespace ProjectT

/-! ## Data model -/

/-- The `GameState` enum of `main.cpp`. -/
inductive GameState where
  | MENU | SETTINGS | CREDITS | PLAYING | TRANSITIONING
  | GAME_OVER_WIN | GAME_OVER_LOSE_FALL | GAME_OVER_LOSE_DEATH
deriving DecidableEq, Repr

/-- The closed set `phys::bodyType` (its use in `getTileColorForBodyType` lists the members). -/
inductive bodyType where
  | none | solid | platform | conveyorBelt | moving | falling | vanishing
  | spring | trap | goal | interactible | portal
deriving DecidableEq, Repr

/-- The vector type `sf::Vector2f`. -/
structure Vector2f where
  x : ℚ
  y : ℚ
deriving DecidableEq

instance : Add Vector2f := ⟨fun a b => ⟨a.x + b.x, a.y + b.y⟩⟩
instance : Sub Vector2f := ⟨fun a b => ⟨a.x - b.x, a.y - b.y⟩⟩

/-- Scaling `v * s` of `sf::Vector2f`. -/
def Vector2f.scale (v : Vector2f) (s : ℚ) : Vector2f := ⟨v.x * s, v.y * s⟩

/-- The rectangle type `sf::FloatRect`. -/
structure FloatRect where
  left : ℚ
  top : ℚ
  width : ℚ
  height : ℚ
deriving DecidableEq

/-- SFML's `Rect::intersects`: the intersection has positive, non-zero area. -/
def FloatRect.intersects (a b : FloatRect) : Bool :=
  let r1MinX := min a.left (a.left + a.width)
  let r1MaxX := max a.left (a.left + a.width)
  let r1MinY := min a.top (a.top + a.height)
  let r1MaxY := max a.top (a.top + a.height)
  let r2MinX := min b.left (b.left + b.width)
  let r2MaxX := max b.left (b.left + b.width)
  let r2MinY := min b.top (b.top + b.height)
  let r2MaxY := max b.top (b.top + b.height)
  let interLeft := max r1MinX r2MinX
  let interTop := max r1MinY r2MinY
  let interRight := min r1MaxX r2MaxX
  let interBottom := min r1MaxY r2MaxY
  decide (interLeft < interRight) && decide (interTop < interBottom)

/-- The platform body `phys::PlatformBody`, one field per accessor used by `main.cpp`. -/
structure PlatformBody where
  id : Nat
  type : bodyType
  position : Vector2f
  width : ℚ
  height : ℚ
  falling : Bool
  surfaceVelocity : Vector2f
  portalID : Nat
  teleportOffset : Vector2f
deriving DecidableEq

/-- Modelled from the spec: `PlatformBody::getAABB` (PlatformBody.hpp is not part of the
sources); the box is derived from the body's position and its fixed width and height. -/
def PlatformBody.getAABB (b : PlatformBody) : FloatRect :=
  ⟨b.position.x, b.position.y, b.width, b.height⟩

/-- The player body `phys::DynamicBody`, one field per accessor used by `main.cpp`. -/
structure DynamicBody where
  position : Vector2f
  velocity : Vector2f
  lastPosition : Vector2f
  width : ℚ
  height : ℚ
  onGround : Bool
  groundPlatform : Option Nat
  tryingToDrop : Bool
  groundPlatformTemporarilyIgnored : Bool
deriving DecidableEq

/-- Modelled from the spec: `DynamicBody::getAABB` (Player.hpp is not part of the
sources); the box is derived from the body's position and its fixed width and height. -/
def DynamicBody.getAABB (p : DynamicBody) : FloatRect :=
  ⟨p.position.x, p.position.y, p.width, p.height⟩

/-- The record `ActiveMovingPlatform`. -/
structure ActiveMovingPlatform where
  id : Nat
  movementAnchorPosition : Vector2f
  axis : Char
  distance : ℚ
  cycleTime : ℚ
  cycleDuration : ℚ
  initialDirection : Int
  lastFrameActualPosition : Vector2f
deriving DecidableEq

/-- The record `ActiveInteractiblePlatform` (the tile colour fields are left out). -/
structure ActiveInteractiblePlatform where
  id : Nat
  interactionType : String
  targetBodyTypeEnum : bodyType
  oneTime : Bool
  cooldown : ℚ
  hasBeenInteractedThisSession : Bool
  currentCooldownTimer : ℚ
  linkedID : Nat
deriving DecidableEq

/-- A moving-platform detail record of `LevelData::movingPlatformDetails`. -/
structure MovingPlatformDetail where
  id : Nat
  startPosition : Vector2f
  axis : Char
  distance : ℚ
  cycleDuration : ℚ
  initialDirection : Int
deriving DecidableEq

/-- An interaction detail record of `LevelData::interactiblePlatformDetails`; the target
type is stored already converted by `LevelManager::stringToBodyType`. -/
structure InteractiblePlatformDetail where
  id : Nat
  interactionType : String
  targetBodyType : bodyType
  oneTime : Bool
  cooldown : ℚ
  linkedID : Nat
deriving DecidableEq

/-- The fields of `LevelData` that the simulation reads. -/
structure LevelData where
  playerStartPosition : Vector2f
  platforms : List PlatformBody
  movingPlatformDetails : List MovingPlatformDetail
  interactiblePlatformDetails : List InteractiblePlatformDetail

/-- The interface of `Tile` used by `main.cpp` (Tile.hpp is not part of the sources). -/
structure TileOps (Tile : Type) where
  isFalling : Tile → Bool
  hasFallen : Tile → Bool
  startFalling : Int → Tile → Tile
  update : Int → Tile → Tile
  getPosition : Tile → Vector2f
  setPosition : Vector2f → Tile → Tile
  create : Vector2f → Tile

/-- The result `phys::CollisionResolutionInfo`; `main.cpp` reads `hitCeiling` only. -/
structure CollisionResolutionInfo where
  hitCeiling : Bool

/-- The collaborators of the tick that live outside `main.cpp`. -/
structure Env (Tile : Type) where
  tile : TileOps Tile
  sineEaseInOut : ℚ → ℚ → ℚ → ℚ → ℚ
  resolveCollisions : DynamicBody → List PlatformBody → ℚ → DynamicBody × CollisionResolutionInfo

/-- What one fixed tick reads from the keyboard, the event loop and the level manager. -/
structure TickInput where
  shiftHeld : Bool
  leftHeld : Bool
  rightHeld : Bool
  jumpIntentThisFrame : Bool
  dropIntentThisFrame : Bool
  interactKeyPressedThisFrame : Bool
  hasNextLevel : Bool
  requestLoadNextLevel : LevelData → Bool × LevelData

/-- The mutable state the fixed tick works on: the globals of `main.cpp` and the locals of
`main` that live across ticks. -/
structure World (Tile : Type) where
  currentState : GameState
  currentLevelData : LevelData
  playerBody : DynamicBody
  bodies : List PlatformBody
  tiles : List Tile
  activeMovingPlatforms : List ActiveMovingPlatform
  activeInteractibles : Nat → Option ActiveInteractiblePlatform
  vanishingPlatformCycleTimer : Int
  oddEvenVanishing : Int
  currentJumpHoldDuration : Int
  turboMultiplier : Int

/-! ## Constants of `main` -/

/-- The constant `TIME_PER_FIXED_UPDATE = sf::seconds(1.f / 60.f)`, in microseconds. -/
def TIME_PER_FIXED_UPDATE : Int := 16666

/-- The value `TIME_PER_FIXED_UPDATE.asSeconds()`. -/
def fixed_dt_seconds : ℚ := 16666 / 1000000

def PLAYER_MOVE_SPEED : ℚ := 200
def JUMP_INITIAL_VELOCITY : ℚ := -450
def GRAVITY_ACCELERATION : ℚ := 1200
def MAX_FALL_SPEED : ℚ := 700
/-- The constant `MAX_JUMP_HOLD_TIME = sf::seconds(0.18f)`, in microseconds. -/
def MAX_JUMP_HOLD_TIME : Int := 180000
def PLAYER_DEATH_Y_LIMIT : ℚ := 2000
def SPRING_BOUNCE_VELOCITY : ℚ := 2 * JUMP_INITIAL_VELOCITY

/-- The off-stage point `{-9999.f, -9999.f}`. -/
def offStage : Vector2f := ⟨-9999, -9999⟩

/-- The off-stage point `{-10000.f, -10000.f}` used by the interaction effects. -/
def offStageInteract : Vector2f := ⟨-10000, -10000⟩

/-! ## Small helpers for the loops over `bodies` and `tiles` -/

/-- In-place update of element `i` of a vector (no effect when `i` is out of range). -/
def updateAt {α : Type} (l : List α) (i : Nat) (f : α → α) : List α :=
  match l[i]? with
  | some a => l.set i (f a)
  | none => l

/-- Index of the first element satisfying `p` (the `for ... if (...) { ...; break; }` scans). -/
def firstIdx {α : Type} (p : α → Bool) : List α → Option Nat
  | [] => none
  | a :: rest => if p a = true then some 0 else (firstIdx p rest).map Nat.succ

/-- Index of the first body with the given id. -/
def findBodyIdx (id : Nat) (bodies : List PlatformBody) : Option Nat :=
  firstIdx (fun b => decide (b.id = id)) bodies

/-- Index of the first body with the given id and live type `moving`. -/
def findMovingBodyIdx (id : Nat) (bodies : List PlatformBody) : Option Nat :=
  firstIdx (fun b => decide (b.id = id) && decide (b.type = bodyType.moving)) bodies

/-- The function `std::fmod` on exact values: `x` minus `y` times the quotient truncated
towards zero. -/
def fmod (x y : ℚ) : ℚ :=
  x - y * (if 0 ≤ x / y then (⌊x / y⌋ : ℚ) else (⌈x / y⌉ : ℚ))

/-- The scan `for (const auto& templ : currentLevelData.platforms) if (templ.getID() == id)`:
the first authored template with the given id. -/
def findTemplate (data : LevelData) (id : Nat) : Option PlatformBody :=
  data.platforms.find? (fun templ => decide (templ.id = id))

/-- The recurring block
`if (playerBody.getGroundPlatform() == &body) { setOnGround(false); setGroundPlatform(nullptr); }`
for the body at index `i`. -/
def clearGroundIf (p : DynamicBody) (i : Nat) : DynamicBody :=
  if p.groundPlatform = some i then { p with onGround := false, groundPlatform := none } else p


/-! ## The front of the tick: input, platform behaviour, player velocity -/

variable {Tile : Type}

/-- The local `newJumpPressThisFrame`, read at the start of the tick. -/
def newJumpPressThisFrame (inp : TickInput) (w : World Tile) : Bool :=
  inp.jumpIntentThisFrame && w.playerBody.onGround && decide (w.currentJumpHoldDuration = 0)

/-- Start of the tick: remember the last position, read turbo, raise the drop request. -/
def beginTick (inp : TickInput) (w : World Tile) : World Tile :=
  { w with
    playerBody :=
      { w.playerBody with
        lastPosition := w.playerBody.position
        tryingToDrop := inp.dropIntentThisFrame && w.playerBody.onGround }
    turboMultiplier := if inp.shiftHeld = true then 2 else 1 }

/-- The offset of a moving platform for the wrapped cycle time and the effective duration. -/
def movingOffset (env : Env Tile) (activePlat : ActiveMovingPlatform)
    (cycleTime effectiveCycleDur : ℚ) : ℚ :=
  let singleMovePhaseDur := effectiveCycleDur / 2
  if singleMovePhaseDur > 1 / 100000 then
    let currentPhaseTime := cycleTime
    if currentPhaseTime < singleMovePhaseDur then
      env.sineEaseInOut currentPhaseTime 0
        ((activePlat.initialDirection : ℚ) * activePlat.distance) singleMovePhaseDur
    else
      env.sineEaseInOut (currentPhaseTime - singleMovePhaseDur)
        ((activePlat.initialDirection : ℚ) * activePlat.distance)
        (-((activePlat.initialDirection : ℚ) * activePlat.distance)) singleMovePhaseDur
  else 0

/-- One iteration of the "Update Moving Platforms" loop for one record. -/
def updateMovingPlatform (env : Env Tile) (activePlat : ActiveMovingPlatform)
    (bodies : List PlatformBody) (tiles : List Tile) :
    ActiveMovingPlatform × List PlatformBody × List Tile :=
  match findMovingBodyIdx activePlat.id bodies with
  | none => (activePlat, bodies, tiles)
  | some tileIdx =>
    match bodies[tileIdx]? with
    | none => (activePlat, bodies, tiles)
    | some movingBody =>
      let effectiveCycleDur : ℚ :=
        if activePlat.cycleDuration > 1 / 100000 then activePlat.cycleDuration else 1
      let cycleTime := fmod (activePlat.cycleTime + fixed_dt_seconds) effectiveCycleDur
      let offset := movingOffset env activePlat cycleTime effectiveCycleDur
      let anchor := activePlat.movementAnchorPosition
      let newPos : Vector2f :=
        if activePlat.axis = 'x' then ⟨anchor.x + offset, anchor.y⟩
        else if activePlat.axis = 'y' then ⟨anchor.x, anchor.y + offset⟩
        else anchor
      ({ activePlat with
          lastFrameActualPosition := movingBody.position
          cycleTime := cycleTime },
       bodies.set tileIdx { movingBody with position := newPos },
       updateAt tiles tileIdx (env.tile.setPosition newPos))

/-- The "Update Moving Platforms" loop over the records, in order. -/
def updateMovingPlatformsLoop (env : Env Tile) :
    List ActiveMovingPlatform → List PlatformBody → List Tile →
    List ActiveMovingPlatform × List PlatformBody × List Tile
  | [], bodies, tiles => ([], bodies, tiles)
  | activePlat :: rest, bodies, tiles =>
    let r := updateMovingPlatform env activePlat bodies tiles
    let r' := updateMovingPlatformsLoop env rest r.2.1 r.2.2
    (r.1 :: r'.1, r'.2.1, r'.2.2)

/-- The "Update Moving Platforms" block. -/
def updateMovingPlatforms (env : Env Tile) (w : World Tile) : World Tile :=
  let r := updateMovingPlatformsLoop env w.activeMovingPlatforms w.bodies w.tiles
  { w with activeMovingPlatforms := r.1, bodies := r.2.1, tiles := r.2.2 }

/-- The body of the "Update Interactible Cooldowns" loop for one record. -/
def updateCooldown (interactible : ActiveInteractiblePlatform) : ActiveInteractiblePlatform :=
  if interactible.currentCooldownTimer > 0 then
    let t := interactible.currentCooldownTimer - fixed_dt_seconds
    { interactible with currentCooldownTimer := if t < 0 then 0 else t }
  else interactible

/-- The "Update Interactible Cooldowns" loop: every record of the map is updated. -/
def updateInteractibleCooldowns (w : World Tile) : World Tile :=
  { w with activeInteractibles := fun key => (w.activeInteractibles key).map updateCooldown }

/-- The tile of a falling platform after this tick's `startFalling` (when the player has
just come to stand on the platform) and `update`. -/
def fallingTile (env : Env Tile) (i : Nat) (current_body : PlatformBody) (current_tile : Tile)
    (w : World Tile) : Tile :=
  let playerOnThis := w.playerBody.onGround && decide (w.playerBody.groundPlatform = some i)
  let tile1 : Tile :=
    if current_body.falling = false then
      if playerOnThis = true ∧ env.tile.isFalling current_tile = false ∧
          env.tile.hasFallen current_tile = false
      then env.tile.startFalling 500000 current_tile
      else current_tile
    else current_tile
  env.tile.update TIME_PER_FIXED_UPDATE tile1

/-- The falling branch of the platform-state loop for the body and tile at index `i`. -/
def fallingStep (env : Env Tile) (i : Nat) (current_body : PlatformBody) (current_tile : Tile)
    (w : World Tile) : World Tile :=
  let tile2 := fallingTile env i current_body current_tile w
  let body1 : PlatformBody :=
    if env.tile.isFalling tile2 = true ∧ current_body.falling = false
    then { current_body with falling := true } else current_body
  let body2 : PlatformBody :=
    if env.tile.isFalling tile2 = true ∧ body1.falling = true
    then { body1 with position := env.tile.getPosition tile2 } else body1
  if env.tile.hasFallen tile2 = true ∧ body2.type ≠ bodyType.none then
    { w with
      playerBody := clearGroundIf w.playerBody i
      bodies := w.bodies.set i { body2 with position := offStage, type := bodyType.none }
      tiles := w.tiles.set i tile2 }
  else
    { w with bodies := w.bodies.set i body2, tiles := w.tiles.set i tile2 }

/-- The local `should_be_fading_out_now` of the vanishing branch. -/
def should_be_fading_out_now (oddEvenVanishing : Int) (id : Nat) : Bool :=
  let is_even_id := decide (id % 2 = 0)
  (decide (oddEvenVanishing = 1) && is_even_id) ||
    (decide (oddEvenVanishing = -1) && !is_even_id)

/-- The local `alpha_val` of the vanishing branch after clamping to `[0, 255]`: the
computed opacity of the platform with the given id. -/
def vanishingAlpha (env : Env Tile) (w : World Tile) (id : Nat) : ℚ :=
  let phaseTime := fmod ((w.vanishingPlatformCycleTimer : ℚ) / 1000000) 1
  let alpha_val :=
    if should_be_fading_out_now w.oddEvenVanishing id = true then
      env.sineEaseInOut phaseTime 255 (-255) 1
    else env.sineEaseInOut phaseTime 0 255 1
  max 0 (min 255 alpha_val)

/-- The vanishing branch of the platform-state loop for the body at index `i`. -/
def vanishingStep (env : Env Tile) (i : Nat) (current_body : PlatformBody)
    (originalPos : Vector2f) (w : World Tile) : World Tile :=
  let alpha_val := vanishingAlpha env w current_body.id
  if alpha_val ≤ 10 then
    if current_body.type ≠ bodyType.none then
      { w with
        playerBody := clearGroundIf w.playerBody i
        bodies := w.bodies.set i { current_body with type := bodyType.none, position := offStage }
        tiles := updateAt w.tiles i (env.tile.setPosition offStage) }
    else
      { w with
        bodies := w.bodies.set i { current_body with position := offStage }
        tiles := updateAt w.tiles i (env.tile.setPosition offStage) }
  else
    let body1 : PlatformBody :=
      if current_body.type = bodyType.none then { current_body with type := bodyType.vanishing }
      else current_body
    if originalPos.x > -9998 then
      { w with
        bodies := w.bodies.set i { body1 with position := originalPos }
        tiles := updateAt w.tiles i (env.tile.setPosition originalPos) }
    else
      { w with
        bodies := w.bodies.set i { body1 with type := bodyType.none, position := offStage }
        tiles := updateAt w.tiles i (env.tile.setPosition offStage) }

/-- One iteration of the "Update Platform States" loop, for index `i_body`. -/
def updatePlatformState (env : Env Tile) (w : World Tile) (i_body : Nat) : World Tile :=
  match w.bodies[i_body]?, w.tiles[i_body]? with
  | some current_body, some current_tile =>
    match findTemplate w.currentLevelData current_body.id with
    | none => w
    | some templ =>
      if templ.type = bodyType.falling then fallingStep env i_body current_body current_tile w
      else if templ.type = bodyType.vanishing then
        vanishingStep env i_body current_body templ.position w
      else w
  | _, _ => w

/-- The "Update Platform States (Falling, Vanishing)" loop over all body indices. -/
def updatePlatformStates (env : Env Tile) (w : World Tile) : World Tile :=
  (List.range w.bodies.length).foldl (updatePlatformState env) w

/-- The vanishing clock: advance by one tick; on reaching 1.0 s wrap and flip the parity. -/
def advanceVanishingClock (w : World Tile) : World Tile :=
  let t := w.vanishingPlatformCycleTimer + TIME_PER_FIXED_UPDATE
  if t ≥ 1000000 then
    { w with vanishingPlatformCycleTimer := t - 1000000,
             oddEvenVanishing := w.oddEvenVanishing * -1 }
  else { w with vanishingPlatformCycleTimer := t }

/-- The check `safeToAccess...`: the ground pointer is an element of `bodies`; gives it. -/
def groundBody (w : World Tile) : Option PlatformBody :=
  match w.playerBody.groundPlatform with
  | none => none
  | some i => w.bodies[i]?

/-- The "Player Velocity Update" block, including the jump and jump-hold branches. -/
def velocityUpdate (inp : TickInput) (newJump : Bool) (w : World Tile) : World Tile :=
  let horizontalInput : ℚ :=
    if inp.leftHeld = true then -1 else if inp.rightHeld = true then 1 else 0
  let pVelx := horizontalInput * PLAYER_MOVE_SPEED * (w.turboMultiplier : ℚ)
  let pVely :=
    if w.playerBody.onGround = false then
      min (w.playerBody.velocity.y + GRAVITY_ACCELERATION * fixed_dt_seconds) MAX_FALL_SPEED
    else w.playerBody.velocity.y
  if newJump = true then
    { w with
      playerBody := { w.playerBody with velocity := ⟨pVelx, JUMP_INITIAL_VELOCITY⟩ }
      currentJumpHoldDuration := 1 }
  else if inp.jumpIntentThisFrame = true ∧ w.currentJumpHoldDuration > 0 ∧
      w.currentJumpHoldDuration < MAX_JUMP_HOLD_TIME then
    let groundIsSpring : Bool :=
      match groundBody w with
      | some g => decide (g.type = bodyType.spring)
      | none => false
    let pVely' :=
      if w.playerBody.velocity.y < 0 ∧ groundIsSpring = false then JUMP_INITIAL_VELOCITY
      else pVely
    { w with
      playerBody := { w.playerBody with velocity := ⟨pVelx, pVely'⟩ }
      currentJumpHoldDuration := w.currentJumpHoldDuration + TIME_PER_FIXED_UPDATE }
  else
    { w with
      playerBody := { w.playerBody with velocity := ⟨pVelx, pVely⟩ }
      currentJumpHoldDuration := 0 }

/-- The "Collision Resolution" call; the resolver works on the player body. -/
def collisionStep (env : Env Tile) (w : World Tile) : World Tile × CollisionResolutionInfo :=
  let r := env.resolveCollisions w.playerBody w.bodies fixed_dt_seconds
  ({ w with playerBody := r.1 }, r.2)

/-- The carry of the "moving" branch: the displacement of the platform in this tick. -/
def movingCarry (w : World Tile) (pf : PlatformBody) : Vector2f :=
  match w.activeMovingPlatforms.find? (fun activePlat => decide (activePlat.id = pf.id)) with
  | none => ⟨0, 0⟩
  | some activePlat =>
    match findMovingBodyIdx activePlat.id w.bodies with
    | none => ⟨0, 0⟩
    | some idx =>
      match w.bodies[idx]? with
      | none => ⟨0, 0⟩
      | some movingPhysBody => movingPhysBody.position - activePlat.lastFrameActualPosition

/-- The "Post-Collision Player Logic" block and the ceiling-hit block after it. -/
def postCollision (hitCeiling : Bool) (w : World Tile) : World Tile :=
  let pVel := w.playerBody.velocity
  let w1 : World Tile × ℚ :=
    if w.playerBody.onGround = true then
      let w0 : World Tile := { w with currentJumpHoldDuration := 0 }
      match w.playerBody.groundPlatform with
      | none => (w0, pVel.y)
      | some _ =>
        match groundBody w with
        | some pf =>
          if pf.type = bodyType.conveyorBelt then
            ({ w0 with playerBody := { w.playerBody with
                position := w.playerBody.position + pf.surfaceVelocity.scale fixed_dt_seconds } },
             pVel.y)
          else if pf.type = bodyType.moving then
            ({ w0 with playerBody := { w.playerBody with
                position := w.playerBody.position + movingCarry w pf } }, pVel.y)
          else if pf.type = bodyType.spring then
            ({ w0 with playerBody := { w.playerBody with
                onGround := false, groundPlatform := none } }, SPRING_BOUNCE_VELOCITY)
          else (w0, pVel.y)
        | none =>
          ({ w0 with playerBody := { w.playerBody with
              onGround := false, groundPlatform := none } }, pVel.y)
    else (w, pVel.y)
  let w2 := w1.1
  let y := w1.2
  if hitCeiling = true ∧ y < 0 then
    { w2 with
      playerBody := { w2.playerBody with velocity := ⟨pVel.x, 0⟩ }
      currentJumpHoldDuration := MAX_JUMP_HOLD_TIME }
  else
    { w2 with playerBody := { w2.playerBody with velocity := ⟨pVel.x, y⟩ } }

/-! ## Trap check and interaction dispatch (end of the tick) -/

/-- The trap check: some body of live type `trap` intersects the player. -/
def trapHit (w : World Tile) : Bool :=
  w.bodies.any (fun body_check_trap =>
    decide (body_check_trap.type = bodyType.trap) &&
      body_check_trap.getAABB.intersects w.playerBody.getAABB)

/-- The condition of the goal loop: some body of live type `goal` intersects the player. -/
def goalOverlap (w : World Tile) : Bool :=
  w.bodies.any (fun b =>
    decide (b.type = bodyType.goal) && w.playerBody.getAABB.intersects b.getAABB)

/-- The body of the goal loop: ask the level manager for the next level. -/
def goalReached (inp : TickInput) (w : World Tile) : World Tile :=
  if inp.hasNextLevel then
    let r := inp.requestLoadNextLevel w.currentLevelData
    if r.1 then { w with currentState := GameState.TRANSITIONING, currentLevelData := r.2 }
    else { w with currentState := GameState.MENU, currentLevelData := r.2 }
  else { w with currentState := GameState.GAME_OVER_WIN }

/-- The inner scan of the portal loop: the first body of live type `portal` with the
source's link id and another id. -/
def findTargetPortal (bodies : List PlatformBody) (portal_link_id source_body_id : Nat) :
    Option PlatformBody :=
  bodies.find? (fun potential_target_body =>
    decide (potential_target_body.type = bodyType.portal) &&
    decide (potential_target_body.portalID = portal_link_id) &&
    decide (potential_target_body.id ≠ source_body_id))

/-- The outer portal loop over the remaining candidates: the first overlapped portal with
a non-zero link id for which a target is found, with its target. -/
def portalScan (p : DynamicBody) (bodies : List PlatformBody) :
    List PlatformBody → Option (PlatformBody × PlatformBody)
  | [] => none
  | current_portal_body :: rest =>
    if current_portal_body.type = bodyType.portal ∧
        p.getAABB.intersects current_portal_body.getAABB = true then
      if current_portal_body.portalID = 0 then portalScan p bodies rest
      else
        match findTargetPortal bodies current_portal_body.portalID current_portal_body.id with
        | some target => some (current_portal_body, target)
        | none => portalScan p bodies rest
    else portalScan p bodies rest

/-- The teleport block: position from the target and the source's exit offset, centred on
the target; velocity zeroed; last position reset. -/
def teleportPlayer (p : DynamicBody) (source target : PlatformBody) : DynamicBody :=
  let target_portal_position := target.position
  let new_player_position := target_portal_position + source.teleportOffset
  let new_player_position : Vector2f :=
    ⟨new_player_position.x + (target.width / 2 - p.width / 2),
     new_player_position.y + (target.height / 2 - p.height / 2)⟩
  { p with position := new_player_position, velocity := ⟨0, 0⟩,
           lastPosition := new_player_position }

/-- The local `originalLinkedPos` of the cascade: the authored position of the first
template with the id, or the initial value `{-9999.f, -9999.f}` when there is none. -/
def originalLinkedPos (data : LevelData) (id : Nat) : Vector2f :=
  ((findTemplate data id).map (fun templ => templ.position)).getD offStage

/-- The local `originalLinkedType` of the cascade: the authored type of the first template
with the id, or the initial value `solid` when there is none. -/
def originalLinkedType (data : LevelData) (id : Nat) : bodyType :=
  ((findTemplate data id).map (fun templ => templ.type)).getD bodyType.solid

/-- The three-way toggle of the cascade on the linked body found at `linked_idx`. -/
def cascadeOn (env : Env Tile) (st : ActiveInteractiblePlatform) (linked_idx : Nat)
    (linked : PlatformBody) (w : World Tile) : World Tile :=
  if linked.type = bodyType.solid ∨ linked.type = bodyType.platform then
    { w with
      playerBody := clearGroundIf w.playerBody linked_idx
      bodies := w.bodies.set linked_idx
        { linked with type := bodyType.none, position := offStageInteract }
      tiles := updateAt w.tiles linked_idx (env.tile.setPosition offStageInteract) }
  else if linked.type = bodyType.none then
    if (originalLinkedPos w.currentLevelData linked.id).x > -9998 then
      { w with
        bodies := w.bodies.set linked_idx
          { linked with position := originalLinkedPos w.currentLevelData linked.id,
                        type := originalLinkedType w.currentLevelData linked.id }
        tiles := updateAt w.tiles linked_idx
          (env.tile.setPosition (originalLinkedPos w.currentLevelData linked.id)) }
    else w
  else if linked.type ≠ bodyType.portal ∧ st.targetBodyTypeEnum = bodyType.portal ∧
      linked.id = st.linkedID then
    if (originalLinkedPos w.currentLevelData linked.id).x > -9998 then
      { w with
        bodies := w.bodies.set linked_idx
          { linked with position := originalLinkedPos w.currentLevelData linked.id,
                        type := bodyType.portal }
        tiles := updateAt w.tiles linked_idx
          (env.tile.setPosition (originalLinkedPos w.currentLevelData linked.id)) }
    else w
  else w

/-- The linked-platform cascade of `changeSelf` (the block under `linkedID != 0`): the
first body with the linked id is toggled. -/
def cascadeLinked (env : Env Tile) (st : ActiveInteractiblePlatform) (w : World Tile) :
    World Tile :=
  if st.linkedID ≠ 0 then
    match findBodyIdx st.linkedID w.bodies with
    | none => w
    | some linked_idx =>
      match w.bodies[linked_idx]? with
      | none => w
      | some linked => cascadeOn env st linked_idx linked w
  else w

/-- The activation guard of the interactible loop at index `k`: the body is a live
interactible overlapping the player, it has a record, the record is neither cooling down
nor a spent one-time effect, and its kind is "changeSelf". Returns the record. -/
def activatable (w : World Tile) (k : Nat) : Option ActiveInteractiblePlatform :=
  match w.bodies[k]? with
  | none => none
  | some interact_body =>
    if interact_body.type ≠ bodyType.goal ∧ interact_body.type ≠ bodyType.portal ∧
        interact_body.type = bodyType.interactible ∧
        w.playerBody.getAABB.intersects interact_body.getAABB = true then
      match w.activeInteractibles interact_body.id with
      | none => none
      | some interactState =>
        if interactState.currentCooldownTimer > 0 ∨
            (interactState.oneTime = true ∧ interactState.hasBeenInteractedThisSession = true)
        then none
        else if interactState.interactionType = "changeSelf" then some interactState
        else none
    else none

/-- The "changeSelf" effect on the body at index `k` with record `st` stored under `key`:
retype, hide when the target is `none`, cascade, then mark spent or start the cooldown. -/
def changeSelf (env : Env Tile) (k key : Nat) (st : ActiveInteractiblePlatform)
    (w : World Tile) : World Tile :=
  let w1 : World Tile :=
    { w with bodies := updateAt w.bodies k (fun b => { b with type := st.targetBodyTypeEnum }) }
  let w2 : World Tile :=
    if st.targetBodyTypeEnum = bodyType.none then
      { w1 with
        playerBody := clearGroundIf w1.playerBody k
        bodies := updateAt w1.bodies k (fun b => { b with position := offStageInteract }) }
    else w1
  let w3 := cascadeLinked env st w2
  let st' : ActiveInteractiblePlatform :=
    if st.oneTime = true then { st with hasBeenInteractedThisSession := true }
    else { st with currentCooldownTimer := st.cooldown }
  { w3 with activeInteractibles := Function.update w3.activeInteractibles key (some st') }

/-- The interactible loop: the first index whose guard passes is activated, and the loop
is left; indices whose guard fails are skipped without any effect. -/
def interactibleDispatch (env : Env Tile) (w : World Tile) : World Tile :=
  match (List.range w.bodies.length).find? (fun k => (activatable w k).isSome) with
  | none => w
  | some k =>
    match activatable w k, w.bodies[k]? with
    | some st, some b => changeSelf env k b.id st w
    | _, _ => w

/-- The block `if (interactKeyPressedThisFrame) { goal; portal; interactibles }` up to the
label `end_fixed_update_for_interaction`. -/
def interactionDispatch (env : Env Tile) (inp : TickInput) (w : World Tile) : World Tile :=
  if inp.interactKeyPressedThisFrame = true then
    if goalOverlap w = true then goalReached inp w
    else
      match portalScan w.playerBody w.bodies w.bodies with
      | some (source, target) =>
        { w with playerBody := teleportPlayer w.playerBody source target }
      | none => interactibleDispatch env w
  else w

/-- The "Death by Falling" block; the flag tells that the tick loop is left by `break`. -/
def fallDeath (w : World Tile) : World Tile × Bool :=
  if w.playerBody.position.y > PLAYER_DEATH_Y_LIMIT then
    ({ w with currentState := GameState.GAME_OVER_LOSE_FALL }, true)
  else (w, false)

/-- The tail of the tick from the trap check on: trap death leaves the loop at once;
otherwise the interaction dispatch runs, then the fall-death check. -/
def tickTail (env : Env Tile) (inp : TickInput) (w : World Tile) : World Tile × Bool :=
  if trapHit w = true then
    ({ w with currentState := GameState.GAME_OVER_LOSE_DEATH }, true)
  else fallDeath (interactionDispatch env inp w)

/-! ## The whole tick and level setup -/

/-- The part of the tick before the trap check. -/
def tickFront (env : Env Tile) (inp : TickInput) (w : World Tile) : World Tile :=
  let newJump := newJumpPressThisFrame inp w
  let w1 := beginTick inp w
  let w2 := updateMovingPlatforms env w1
  let w3 := updateInteractibleCooldowns w2
  let w4 := updatePlatformStates env w3
  let w5 := advanceVanishingClock w4
  let w6 := velocityUpdate inp newJump w5
  let r := collisionStep env w6
  postCollision r.2.hitCeiling r.1

/-- One pass of the body of `while (timeSinceLastFixedUpdate >= TIME_PER_FIXED_UPDATE)`;
the flag tells that the loop is left by `break`. -/
def tick (env : Env Tile) (inp : TickInput) (w : World Tile) : World Tile × Bool :=
  tickTail env inp (tickFront env inp w)

/-- The per-template step of the first loop of `setupLevelAssets`: push the body, then
create its movement or interaction record when its detail is found. -/
def setupBody (env : Env Tile) (data : LevelData)
    (acc : List PlatformBody × List ActiveMovingPlatform ×
      (Nat → Option ActiveInteractiblePlatform)) (p_body_template : PlatformBody) :
    List PlatformBody × List ActiveMovingPlatform ×
      (Nat → Option ActiveInteractiblePlatform) :=
  let new_body := p_body_template
  if new_body.type = bodyType.moving then
    match data.movingPlatformDetails.find? (fun detail => decide (detail.id = new_body.id)) with
    | some detail =>
      let movementAnchor := detail.startPosition
      let t0_offset : ℚ :=
        if detail.cycleDuration > 0 ∧ detail.cycleDuration / 2 > 1 / 100000 then
          env.sineEaseInOut 0 0 ((detail.initialDirection : ℚ) * detail.distance)
            (detail.cycleDuration / 2)
        else 0
      let calculatedInitialPos : Vector2f :=
        if detail.axis = 'x' then ⟨movementAnchor.x + t0_offset, movementAnchor.y⟩
        else if detail.axis = 'y' then ⟨movementAnchor.x, movementAnchor.y + t0_offset⟩
        else movementAnchor
      let new_body' : PlatformBody :=
        if |new_body.position.x - calculatedInitialPos.x| > 1 / 10 ∨
            |new_body.position.y - calculatedInitialPos.y| > 1 / 10
        then { new_body with position := calculatedInitialPos } else new_body
      (acc.1 ++ [new_body'],
       acc.2.1 ++ [{ id := detail.id, movementAnchorPosition := movementAnchor,
                     axis := detail.axis, distance := detail.distance, cycleTime := 0,
                     cycleDuration := detail.cycleDuration,
                     initialDirection := detail.initialDirection,
                     lastFrameActualPosition := new_body'.position }],
       acc.2.2)
    | none => (acc.1 ++ [new_body], acc.2.1, acc.2.2)
  else if new_body.type = bodyType.interactible then
    match data.interactiblePlatformDetails.find?
        (fun detail => decide (detail.id = new_body.id)) with
    | some detail =>
      (acc.1 ++ [new_body], acc.2.1,
       Function.update acc.2.2 detail.id
        (some { id := detail.id, interactionType := detail.interactionType,
                targetBodyTypeEnum := detail.targetBodyType, oneTime := detail.oneTime,
                cooldown := detail.cooldown, hasBeenInteractedThisSession := false,
                currentCooldownTimer := 0, linkedID := detail.linkedID }))
    | none => (acc.1 ++ [new_body], acc.2.1, acc.2.2)
  else (acc.1 ++ [new_body], acc.2.1, acc.2.2)

/-- The function `setupLevelAssets(data, window)`. -/
def setupLevelAssets (env : Env Tile) (data : LevelData) (w : World Tile) : World Tile :=
  let r := data.platforms.foldl (setupBody env data)
    (([] : List PlatformBody), ([] : List ActiveMovingPlatform),
      (fun _ => (none : Option ActiveInteractiblePlatform)))
  { w with
    playerBody :=
      { w.playerBody with
        position := data.playerStartPosition, velocity := ⟨0, 0⟩, onGround := false,
        groundPlatform := none, lastPosition := data.playerStartPosition }
    bodies := r.1
    tiles := r.1.map (fun body => env.tile.setPosition body.position
      (env.tile.create ⟨body.width, body.height⟩))
    activeMovingPlatforms := r.2.1
    activeInteractibles := r.2.2
    vanishingPlatformCycleTimer := 0
    oddEvenVanishing := 1 }

/-- The branch `TRANSITIONING` of the frame once the transition has ended: the level is set
up from `currentLevelData` and play starts. -/
def startLevel (env : Env Tile) (w : World Tile) : World Tile :=
  { setupLevelAssets env w.currentLevelData w with currentState := GameState.PLAYING }

/-! ## Sample collaborators and sample levels, for evaluating the definitions -/

/-- A sample tile: position, remaining delay before the fall starts (`none`: not started),
and the time fallen so far. It falls for one second at 100 units per second. -/
structure SampleTile where
  position : Vector2f
  delay : Option Int
  fallen : Int
deriving DecidableEq

/-- Operations of the sample tile. -/
def sampleTileOps : TileOps SampleTile where
  isFalling t := decide (t.delay = some 0) && decide (t.fallen < 1000000)
  hasFallen t := decide (t.fallen ≥ 1000000)
  startFalling d t := { t with delay := some d }
  update dt t :=
    match t.delay with
    | none => t
    | some d =>
      if d > 0 then { t with delay := some (max 0 (d - dt)) }
      else if t.fallen < 1000000 then
        { t with fallen := t.fallen + dt
                 position := ⟨t.position.x, t.position.y + 100 * ((dt : ℚ) / 1000000)⟩ }
      else t
  getPosition t := t.position
  setPosition p t := { t with position := p }
  create _ := ⟨⟨0, 0⟩, none, 0⟩

/-- A sample environment: linear easing and a resolver that leaves the player as it is. -/
def sampleEnv : Env SampleTile where
  tile := sampleTileOps
  sineEaseInOut t b c d := b + c * (t / d)
  resolveCollisions p _ _ := (p, ⟨false⟩)

/-- A body of the given id and type, 32 x 32, at the given position. -/
def mkBody (id : Nat) (ty : bodyType) (x y : ℚ) : PlatformBody :=
  { id := id, type := ty, position := ⟨x, y⟩, width := 32, height := 32, falling := false,
    surfaceVelocity := ⟨0, 0⟩, portalID := 0, teleportOffset := ⟨0, 0⟩ }

/-- A 32 x 32 player at the given position, at rest and airborne. -/
def mkPlayer (x y : ℚ) : DynamicBody :=
  { position := ⟨x, y⟩, velocity := ⟨0, 0⟩, lastPosition := ⟨x, y⟩, width := 32, height := 32,
    onGround := false, groundPlatform := none, tryingToDrop := false,
    groundPlatformTemporarilyIgnored := false }

/-- A tick input with no key held; `e` is the interact press. -/
def mkInput (e : Bool) : TickInput :=
  { shiftHeld := false, leftHeld := false, rightHeld := false, jumpIntentThisFrame := false,
    dropIntentThisFrame := false, interactKeyPressedThisFrame := e, hasNextLevel := false,
    requestLoadNextLevel := fun d => (false, d) }

/-- A world in play on the given level with the given player, set up by `setupLevelAssets`
and with the player put at its place afterwards. -/
def mkWorld (data : LevelData) (p : DynamicBody) : World SampleTile :=
  let w0 : World SampleTile :=
    { currentState := GameState.PLAYING, currentLevelData := data, playerBody := p,
      bodies := [], tiles := [], activeMovingPlatforms := [],
      activeInteractibles := fun _ => none, vanishingPlatformCycleTimer := 0,
      oddEvenVanishing := 1, currentJumpHoldDuration := 0, turboMultiplier := 1 }
  { setupLevelAssets sampleEnv data w0 with playerBody := p }

/-- A level with a trap and a goal at the same place. -/
def trapGoalLevel : LevelData :=
  { playerStartPosition := ⟨0, 0⟩
    platforms := [mkBody 1 bodyType.goal 0 0, mkBody 2 bodyType.trap 0 0]
    movingPlatformDetails := [], interactiblePlatformDetails := [] }

/-- A level with a goal, two linked portals and a repeatable interactible, all at the
player's place. -/
def crowdedLevel : LevelData :=
  { playerStartPosition := ⟨0, 0⟩
    platforms :=
      [mkBody 1 bodyType.goal 0 0,
       { mkBody 2 bodyType.portal 0 0 with portalID := 7 },
       { mkBody 3 bodyType.portal 300 0 with portalID := 7 },
       mkBody 4 bodyType.interactible 0 0]
    movingPlatformDetails := []
    interactiblePlatformDetails :=
      [{ id := 4, interactionType := "changeSelf", targetBodyType := bodyType.solid,
         oneTime := false, cooldown := 1, linkedID := 0 }] }

/-- A level with one vanishing platform of even id, authored on stage. -/
def vanishingLevel : LevelData :=
  { playerStartPosition := ⟨0, 0⟩
    platforms := [mkBody 2 bodyType.vanishing 100 200]
    movingPlatformDetails := [], interactiblePlatformDetails := [] }

/-- A level with one vanishing platform of even id authored at x = -9999, a position the
vanishing branch does not take as usable. -/
def retiredVanishingLevel : LevelData :=
  { playerStartPosition := ⟨0, 0⟩
    platforms := [mkBody 2 bodyType.vanishing (-9999) 100]
    movingPlatformDetails := [], interactiblePlatformDetails := [] }

/-- A 32 x 32 player at rest on the platform at index `i`. -/
def mkGroundedPlayer (x y : ℚ) (i : Nat) : DynamicBody :=
  { mkPlayer x y with onGround := true, groundPlatform := some i }

/-- A level with one interactible at the origin whose record is given; its target type is
`interactible`, so that the platform stays an interactible after an activation. -/
def interactibleLevel (oneTime : Bool) (cooldown : ℚ) : LevelData :=
  { playerStartPosition := ⟨0, 0⟩
    platforms := [mkBody 4 bodyType.interactible 0 0]
    movingPlatformDetails := []
    interactiblePlatformDetails :=
      [{ id := 4, interactionType := "changeSelf", targetBodyType := bodyType.interactible,
         oneTime := oneTime, cooldown := cooldown, linkedID := 0 }] }

/-- The record that `setupLevelAssets` creates for `interactibleLevel`. -/
def interactibleRecord (oneTime : Bool) (cooldown : ℚ) : ActiveInteractiblePlatform :=
  { id := 4, interactionType := "changeSelf", targetBodyTypeEnum := bodyType.interactible,
    oneTime := oneTime, cooldown := cooldown, hasBeenInteractedThisSession := false,
    currentCooldownTimer := 0, linkedID := 0 }

/-- The portal `A` of the sample portal level: id 2, link id 7, at the origin. -/
def portalA : PlatformBody := { mkBody 2 bodyType.portal 0 0 with portalID := 7 }

/-- The portal `B` of the sample portal level: id 3, link id 7, at (300, 0). -/
def portalB : PlatformBody := { mkBody 3 bodyType.portal 300 0 with portalID := 7 }

/-- A level with the two linked portals `portalA` and `portalB`, exit offsets zero. -/
def portalLevel : LevelData :=
  { playerStartPosition := ⟨0, 0⟩
    platforms := [portalA, portalB]
    movingPlatformDetails := [], interactiblePlatformDetails := [] }

/-- The portal `B` with exit offset (5, 0). -/
def portalBOffset : PlatformBody := { portalB with teleportOffset := ⟨5, 0⟩ }

/-- A level with the two linked portals `portalA` and `portalBOffset`. -/
def portalOffsetLevel : LevelData :=
  { playerStartPosition := ⟨0, 0⟩
    platforms := [portalA, portalBOffset]
    movingPlatformDetails := [], interactiblePlatformDetails := [] }

/-- A level with one falling platform (id 1) and an interactible (id 4, linked to it) at
the player's place. -/
def fallingLevel : LevelData :=
  { playerStartPosition := ⟨0, 0⟩
    platforms := [mkBody 1 bodyType.falling 0 32, mkBody 4 bodyType.interactible 0 0]
    movingPlatformDetails := []
    interactiblePlatformDetails :=
      [{ id := 4, interactionType := "changeSelf", targetBodyType := bodyType.none,
         oneTime := false, cooldown := 0, linkedID := 1 }] }

/-- The sample environment with another collision resolver. -/
def resolverEnv
    (r : DynamicBody → List PlatformBody → ℚ → DynamicBody × CollisionResolutionInfo) :
    Env SampleTile :=
  { sampleEnv with resolveCollisions := r }

/-- A resolver that leaves the player as it is and reports a ceiling hit. -/
def ceilingResolver (p : DynamicBody) (_ : List PlatformBody) (_ : ℚ) :
    DynamicBody × CollisionResolutionInfo :=
  (p, ⟨true⟩)

/-- A resolver that puts the player on the ground on the body at index 0 and reports the
given ceiling flag. -/
def landingResolver (hitCeiling : Bool) (p : DynamicBody) (_ : List PlatformBody) (_ : ℚ) :
    DynamicBody × CollisionResolutionInfo :=
  ({ p with onGround := true, groundPlatform := some 0 }, ⟨hitCeiling⟩)

/-- A resolver that takes the player off the ground when it moves upward. -/
def liftOffResolver (p : DynamicBody) (_ : List PlatformBody) (_ : ℚ) :
    DynamicBody × CollisionResolutionInfo :=
  (if p.velocity.y < 0 then { p with onGround := false, groundPlatform := none } else p,
   ⟨false⟩)

/-- A tick input with the given jump and interact keys and nothing else. -/
def mkKeys (jump interact : Bool) : TickInput :=
  { mkInput interact with jumpIntentThisFrame := jump }

/-- A 32 x 32 airborne player moving upward at the jump velocity. -/
def mkRisingPlayer (x y : ℚ) : DynamicBody :=
  { mkPlayer x y with velocity := ⟨0, -450⟩ }

/-- A level with a ground body of the given type (id 1) under the origin and the two linked
portals `portalA` and `portalB`. -/
def groundPortalLevel (ground : bodyType) : LevelData :=
  { playerStartPosition := ⟨0, 0⟩
    platforms := [mkBody 1 ground 0 32, portalA, portalB]
    movingPlatformDetails := [], interactiblePlatformDetails := [] }

/-- The world of `fallingLevel` with the player standing on the falling platform (index 0)
whose sample tile has fallen for 0.99 s of its one second. -/
def fallingAlmostDone : World SampleTile :=
  { mkWorld fallingLevel (mkGroundedPlayer 0 0 0) with
    tiles := [⟨⟨0, 131⟩, some 0, 990000⟩, ⟨⟨0, 0⟩, none, 0⟩] }

/-- A level with a solid platform (id 1) and an interactible (id 4) at the player's place
that is linked to it; the interactible's target type is given, its cooldown is 1/100 s. -/
def linkedLevel (target : bodyType) : LevelData :=
  { playerStartPosition := ⟨0, 0⟩
    platforms := [mkBody 1 bodyType.solid 0 32, mkBody 4 bodyType.interactible 0 0]
    movingPlatformDetails := []
    interactiblePlatformDetails :=
      [{ id := 4, interactionType := "changeSelf", targetBodyType := target,
         oneTime := false, cooldown := 1 / 100, linkedID := 1 }] }

/-- The record that `setupLevelAssets` creates for `linkedLevel`. -/
def linkedRecord (target : bodyType) : ActiveInteractiblePlatform :=
  { id := 4, interactionType := "changeSelf", targetBodyTypeEnum := target,
    oneTime := false, cooldown := 1 / 100, hasBeenInteractedThisSession := false,
    currentCooldownTimer := 0, linkedID := 1 }

/-- A level with one moving platform (id 3): anchor (100,100), axis 'x', distance 50, cycle
duration 2 s, direction +1. -/
def movingLevel : LevelData :=
  { playerStartPosition := ⟨100, 68⟩
    platforms := [mkBody 3 bodyType.moving 100 100]
    movingPlatformDetails :=
      [{ id := 3, startPosition := ⟨100, 100⟩, axis := 'x', distance := 50,
         cycleDuration := 2, initialDirection := 1 }]
    interactiblePlatformDetails := [] }

/-- The movement record of `movingLevel` with the given cycle time and last position. -/
def movingRecord (cycleTime : ℚ) (last : Vector2f) : ActiveMovingPlatform :=
  { id := 3, movementAnchorPosition := ⟨100, 100⟩, axis := 'x', distance := 50,
    cycleTime := cycleTime, cycleDuration := 2, initialDirection := 1,
    lastFrameActualPosition := last }

/-- A level with two portals at the player's place that have no partner (one with link id 0,
one with a link id no other portal has) and a repeatable interactible (id 4). -/
def deadPortalLevel : LevelData :=
  { playerStartPosition := ⟨0, 0⟩
    platforms :=
      [mkBody 2 bodyType.portal 0 0,
       { mkBody 3 bodyType.portal 0 0 with portalID := 9 },
       mkBody 4 bodyType.interactible 0 0]
    movingPlatformDetails := []
    interactiblePlatformDetails :=
      [{ id := 4, interactionType := "changeSelf", targetBodyType := bodyType.interactible,
         oneTime := false, cooldown := 1, linkedID := 0 }] }

/-- A level with a portal without partner (id 5, link id 9) at the player's place, followed
by the two linked portals `portalA` and `portalB`. -/
def deadThenLiveLevel : LevelData :=
  { playerStartPosition := ⟨0, 0⟩
    platforms := [{ mkBody 5 bodyType.portal 0 0 with portalID := 9 }, portalA, portalB]
    movingPlatformDetails := [], interactiblePlatformDetails := [] }

/-- A level with a goal at the player's place. -/
def goalLevel : LevelData :=
  { playerStartPosition := ⟨0, 0⟩
    platforms := [mkBody 1 bodyType.goal 0 0]
    movingPlatformDetails := [], interactiblePlatformDetails := [] }

/-- A level with a goal below the fall-death limit, at (0, 1990). -/
def lowGoalLevel : LevelData :=
  { playerStartPosition := ⟨0, 2001⟩
    platforms := [mkBody 1 bodyType.goal 0 1990]
    movingPlatformDetails := [], interactiblePlatformDetails := [] }

/-- A tick input with interact pressed and a level manager that has a next level and
loads it; each load moves the x coordinate of the level's start position on by one, so
that the loads can be counted. -/
def mkGoalInput : TickInput :=
  { mkInput true with
    hasNextLevel := true
    requestLoadNextLevel := fun d =>
      (true, { d with playerStartPosition :=
                ⟨d.playerStartPosition.x + 1, d.playerStartPosition.y⟩ }) }

/-- A level with a moving platform (id 3) and an interactible (id 4) for which the level
holds no detail record. -/
def noDetailLevel : LevelData :=
  { playerStartPosition := ⟨100, 68⟩
    platforms := [mkBody 3 bodyType.moving 100 100, mkBody 4 bodyType.interactible 0 0]
    movingPlatformDetails := [], interactiblePlatformDetails := [] }

/-- Two worlds agree on everything but the player body, the bodies and the tiles, and
their `bodies` and `tiles` vectors have the same sizes. -/
def SameStatics (v w : World Tile) : Prop :=
  v.currentState = w.currentState ∧ v.currentLevelData = w.currentLevelData ∧
  v.activeMovingPlatforms = w.activeMovingPlatforms ∧
  v.activeInteractibles = w.activeInteractibles ∧
  v.vanishingPlatformCycleTimer = w.vanishingPlatformCycleTimer ∧
  v.oddEvenVanishing = w.oddEvenVanishing ∧
  v.currentJumpHoldDuration = w.currentJumpHoldDuration ∧
  v.turboMultiplier = w.turboMultiplier ∧
  v.bodies.length = w.bodies.length ∧ v.tiles.length = w.tiles.length

/-- The state of the platform-state loop after the indices below `n` have been handled. -/
def platformLoopUpTo (env : Env Tile) (w : World Tile) (n : Nat) : World Tile :=
  (List.range n).foldl (updatePlatformState env) w

/-- Two worlds hold the same platforms, records, level data and vanishing clock; they may
differ in the player body, the jump-hold timer, the turbo factor and the game state. -/
def SameStage (v w : World Tile) : Prop :=
  v.currentLevelData = w.currentLevelData ∧ v.bodies = w.bodies ∧ v.tiles = w.tiles ∧
  v.activeMovingPlatforms = w.activeMovingPlatforms ∧
  v.activeInteractibles = w.activeInteractibles ∧
  v.vanishingPlatformCycleTimer = w.vanishingPlatformCycleTimer ∧
  v.oddEvenVanishing = w.oddEvenVanishing

/-- The worlds in which a tick can start: play starts with `startLevel` (the only place
that sets the state to `PLAYING`), and then ticks run. -/
inductive Reachable (env : Env Tile) : World Tile → Prop
  | setup (w : World Tile) : Reachable env (startLevel env w)
  | tick (inp : TickInput) (w : World Tile) :
      Reachable env w → Reachable env (tick env inp w).1

/-- The world of the tick after the three platform blocks (moving platforms, interactible
cooldowns, platform states) and before the vanishing clock advances. -/
def afterPlatformBlocks (env : Env Tile) (inp : TickInput) (w : World Tile) : World Tile :=
  updatePlatformStates env (updateInteractibleCooldowns (updateMovingPlatforms env
    (beginTick inp w)))

/-- The key of the interaction record with which the interactible loop reaches the
"changeSelf" block when run on `v`, if it does. -/
def activatedByLoop (v : World Tile) : Option Nat :=
  match (List.range v.bodies.length).find? (fun k => (activatable v k).isSome) with
  | none => none
  | some k => (v.bodies[k]?).map (fun b => b.id)

/-- The key of the interaction record the tick activates, if it activates one: the tick
reaches the dispatch (no trap hit), interact is pressed, there is no goal overlap and no
teleport, and the interactible loop finds an index whose guard passes. -/
def activatedKey (env : Env Tile) (inp : TickInput) (w : World Tile) : Option Nat :=
  if trapHit (tickFront env inp w) = true then none
  else if inp.interactKeyPressedThisFrame = true then
    if goalOverlap (tickFront env inp w) = true then none
    else
      match portalScan (tickFront env inp w).playerBody (tickFront env inp w).bodies
          (tickFront env inp w).bodies with
      | some _ => none
      | none => activatedByLoop (tickFront env inp w)
  else none

/-- The record after the block "mark spent / start cooldown". -/
def markActivated (st : ActiveInteractiblePlatform) : ActiveInteractiblePlatform :=
  if st.oneTime = true then { st with hasBeenInteractedThisSession := true }
  else { st with currentCooldownTimer := st.cooldown }

/-- Ticks run one after the other on the given inputs. -/
def runTicks (env : Env Tile) : List TickInput → World Tile → World Tile
  | [], w => w
  | inp :: rest, w => runTicks env rest (tick env inp w).1

/-- An external reset of the two cooldown fields of the record under `key`. -/
def resetCooldownFields (key : Nat) (c t : ℚ) (w : World Tile) : World Tile :=
  { w with
    activeInteractibles := fun k =>
      if k = key then
        (w.activeInteractibles key).map
          (fun st => { st with cooldown := c, currentCooldownTimer := t })
      else w.activeInteractibles k }

/-- Ticks run one after the other, each preceded by an external reset of the cooldown
fields of the record under `key` to the given values. -/
def runWithResets (env : Env Tile) (key : Nat) :
    List (ℚ × ℚ × TickInput) → World Tile → World Tile
  | [], w => w
  | (c, t, inp) :: rest, w =>
    runWithResets env key rest (tick env inp (resetCooldownFields key c t w)).1

/-- The record under `key` is a one-time record that has been used. -/
def Spent (w : World Tile) (key : Nat) : Prop :=
  ∃ st, w.activeInteractibles key = some st ∧ st.oneTime = true ∧
    st.hasBeenInteractedThisSession = true

/-- The record under `key` has configured cooldown `c` and a remaining cooldown that is not
negative. -/
def CooldownOk (w : World Tile) (key : Nat) (c : ℚ) : Prop :=
  ∃ st, w.activeInteractibles key = some st ∧ st.cooldown = c ∧ 0 ≤ st.currentCooldownTimer

/-- The place the teleport block gives the player when it leaves through `source` and
arrives at `target`: the target's position plus the source's exit offset, centred. -/
def arrival (p : DynamicBody) (source target : PlatformBody) : Vector2f :=
  ⟨target.position.x + source.teleportOffset.x + (target.width / 2 - p.width / 2),
   target.position.y + source.teleportOffset.y + (target.height / 2 - p.height / 2)⟩

/-- The world of the tick at the "Player Velocity Update" block: the platform blocks have
run and the vanishing clock has advanced. -/
def atVelocityUpdate (env : Env Tile) (inp : TickInput) (w : World Tile) : World Tile :=
  advanceVanishingClock (afterPlatformBlocks env inp w)

/-- The world of the tick right after the "Player Velocity Update" block. -/
def afterVelocityUpdate (env : Env Tile) (inp : TickInput) (w : World Tile) : World Tile :=
  velocityUpdate inp (newJumpPressThisFrame inp w) (atVelocityUpdate env inp w)

/-- The world of the tick right after the "Collision Resolution" call, with its report. -/
def afterCollision (env : Env Tile) (inp : TickInput) (w : World Tile) :
    World Tile × CollisionResolutionInfo :=
  collisionStep env (afterVelocityUpdate env inp w)

/-- The player body `q` is `p` or `p` with its ground contact cleared. -/
def GroundKeptOrCleared (p q : DynamicBody) : Prop :=
  q = p ∨ q = { p with onGround := false, groundPlatform := none }

/-- The "Post-Collision Player Logic" block alone (before the ceiling-hit block): the world
it leaves and the local `pVel.y` it leaves. -/
def groundEffects (w : World Tile) : World Tile × ℚ :=
  let pVel := w.playerBody.velocity
  if w.playerBody.onGround = true then
    let w0 : World Tile := { w with currentJumpHoldDuration := 0 }
    match w.playerBody.groundPlatform with
    | none => (w0, pVel.y)
    | some _ =>
      match groundBody w with
      | some pf =>
        if pf.type = bodyType.conveyorBelt then
          ({ w0 with playerBody := { w.playerBody with
              position := w.playerBody.position + pf.surfaceVelocity.scale fixed_dt_seconds } },
           pVel.y)
        else if pf.type = bodyType.moving then
          ({ w0 with playerBody := { w.playerBody with
              position := w.playerBody.position + movingCarry w pf } }, pVel.y)
        else if pf.type = bodyType.spring then
          ({ w0 with playerBody := { w.playerBody with
              onGround := false, groundPlatform := none } }, SPRING_BOUNCE_VELOCITY)
        else (w0, pVel.y)
      | none =>
        ({ w0 with playerBody := { w.playerBody with
            onGround := false, groundPlatform := none } }, pVel.y)
  else (w, pVel.y)

/-- Two interaction records agree on the fields that `setupLevelAssets` takes from the
level's detail: id, kind, target type, one-time flag, configured cooldown, linked id. -/
def SameConfig (a b : ActiveInteractiblePlatform) : Prop :=
  b.id = a.id ∧ b.interactionType = a.interactionType ∧
  b.targetBodyTypeEnum = a.targetBodyTypeEnum ∧ b.oneTime = a.oneTime ∧
  b.cooldown = a.cooldown ∧ b.linkedID = a.linkedID

/-- The two-phase offset in the specification's words, for wrapped cycle time `t` and phase
duration `P`: `ease(t, 0, direction*distance, P)` when `t < P`, and
`ease(t - P, direction*distance, -direction*distance, P)` otherwise. -/
def phaseOffset (env : Env Tile) (a : ActiveMovingPlatform) (t P : ℚ) : ℚ :=
  if t < P then env.sineEaseInOut t 0 ((a.initialDirection : ℚ) * a.distance) P
  else env.sineEaseInOut (t - P) ((a.initialDirection : ℚ) * a.distance)
    (-((a.initialDirection : ℚ) * a.distance)) P

/-- The point at offset `off` from the anchor along the axis ('x' or 'y'; the anchor itself
for any other axis letter). -/
def axisPosition (axis : Char) (anchor : Vector2f) (off : ℚ) : Vector2f :=
  if axis = 'x' then ⟨anchor.x + off, anchor.y⟩
  else if axis = 'y' then ⟨anchor.x, anchor.y + off⟩
  else anchor

/-- The world holds the sample moving level after `k` ticks: its one body is the moving
platform, at `(100 + ease(k*dt, 0, 50, 1), 100)` once a tick has run, and its one movement
record has cycle time `k*dt`. -/
def OnMovingLevel (env : Env Tile) (k : Nat) (v : World Tile) : Prop :=
  v.currentLevelData = movingLevel ∧
  (∃ x y, v.bodies = [mkBody 3 bodyType.moving x y] ∧
    (1 ≤ k → x = 100 + env.sineEaseInOut ((k : ℚ) * fixed_dt_seconds) 0 50 1 ∧ y = 100)) ∧
  ∃ last, v.activeMovingPlatforms = [movingRecord ((k : ℚ) * fixed_dt_seconds) last]

/-- The tick that starts in `w` takes the jump-hold extension branch of the velocity update:
it is not a new-jump tick, jump input is held, and the hold timer is inside the window. -/
def extensionTaken (inp : TickInput) (w : World Tile) : Bool :=
  !newJumpPressThisFrame inp w && inp.jumpIntentThisFrame &&
    decide (w.currentJumpHoldDuration > 0) &&
    decide (w.currentJumpHoldDuration < MAX_JUMP_HOLD_TIME)

/-- Every one of the consecutive ticks on the given inputs, run from `w`, takes the
jump-hold extension branch. -/
def allExtension (env : Env Tile) : List TickInput → World Tile → Bool
  | [], _ => true
  | inp :: rest, w => extensionTaken inp w && allExtension env rest (tick env inp w).1

/-- A portal that cannot teleport: its link id is zero, or no body of live type portal with
another id has its link id. -/
def DeadPortal (bodies : List PlatformBody) (cur : PlatformBody) : Prop :=
  cur.portalID = 0 ∨
  ∀ b ∈ bodies, b.type = bodyType.portal → b.portalID = cur.portalID → b.id = cur.id

instance (bodies : List PlatformBody) (cur : PlatformBody) :
    Decidable (DeadPortal bodies cur) := by
  unfold DeadPortal; infer_instance

/-- One frame's drain of fixed ticks, the loop
`while (timeSinceLastFixedUpdate >= TIME_PER_FIXED_UPDATE)`: one input per tick that the
accumulated time allows. The loop condition reads the accumulated time only; the loop is
left early by `break` only. -/
def drainFrame (env : Env Tile) : List TickInput → World Tile → World Tile
  | [], w => w
  | inp :: rest, w =>
    if (tick env inp w).2 = true then (tick env inp w).1
    else drainFrame env rest (tick env inp w).1

/-- What the linked-platform cascade can have done to a body `bm` to give `b`: nothing; or
`bm` was a solid or one-way platform and is now `none` and off-stage; or `bm` was `none`,
its authored position is usable, and it is back at its authored position with its authored
type; or `bm` was of another type but portal, its authored position is usable, and it is a
portal at its authored position. -/
def CascadeEffect (data : LevelData) (bm b : PlatformBody) : Prop :=
  b = bm ∨
  ((bm.type = bodyType.solid ∨ bm.type = bodyType.platform) ∧
    b = { bm with type := bodyType.none, position := offStageInteract }) ∨
  (bm.type = bodyType.none ∧ (originalLinkedPos data bm.id).x > -9998 ∧
    b = { bm with position := originalLinkedPos data bm.id,
                  type := originalLinkedType data bm.id }) ∨
  (bm.type ≠ bodyType.none ∧ bm.type ≠ bodyType.solid ∧ bm.type ≠ bodyType.platform ∧
    bm.type ≠ bodyType.portal ∧ (originalLinkedPos data bm.id).x > -9998 ∧
    b = { bm with position := originalLinkedPos data bm.id, type := bodyType.portal })

/-- The tick that starts in `w` reaches the goal: it reaches the dispatch (no trap hit)
with interact pressed and a goal overlapped. -/
def goalTick (env : Env Tile) (inp : TickInput) (w : World Tile) : Bool :=
  !trapHit (tickFront env inp w) && inp.interactKeyPressedThisFrame &&
    goalOverlap (tickFront env inp w)

/-- None of the consecutive ticks on the given inputs, run from `w`, reaches the goal: the
ticks belong to the level `w` is in. -/
def noGoalTick (env : Env Tile) : List TickInput → World Tile → Bool
  | [], _ => true
  | inp :: rest, w => !goalTick env inp w && noGoalTick env rest (tick env inp w).1

/-- The local `effectiveCycleDur` of the moving-platform update, the modulus of the wrap. -/
def effectiveDuration (a : ActiveMovingPlatform) : ℚ :=
  if a.cycleDuration > 1 / 100000 then a.cycleDuration else 1

/-- The environment with another easing function. -/
def withEasing (env : Env Tile) (ease : ℚ → ℚ → ℚ → ℚ → ℚ) : Env Tile :=
  { env with sineEaseInOut := ease }

/-! ## Theorems -/

section Frames

variable (env : Env Tile) (inp : TickInput) (w : World Tile)

theorem fallDeath_playerBody : (fallDeath w).1.playerBody = w.playerBody := by
  unfold fallDeath; split <;> rfl

theorem fallDeath_bodies : (fallDeath w).1.bodies = w.bodies := by
  unfold fallDeath; split <;> rfl

theorem fallDeath_tiles : (fallDeath w).1.tiles = w.tiles := by
  unfold fallDeath; split <;> rfl

theorem fallDeath_activeInteractibles :
    (fallDeath w).1.activeInteractibles = w.activeInteractibles := by
  unfold fallDeath; split <;> rfl

theorem fallDeath_currentLevelData :
    (fallDeath w).1.currentLevelData = w.currentLevelData := by
  unfold fallDeath; split <;> rfl

theorem goalReached_frame :
    (goalReached inp w).playerBody = w.playerBody ∧ (goalReached inp w).bodies = w.bodies ∧
    (goalReached inp w).tiles = w.tiles ∧
    (goalReached inp w).activeInteractibles = w.activeInteractibles := by
  simp only [goalReached]
  split_ifs <;> exact ⟨rfl, rfl, rfl, rfl⟩

theorem clearGroundIf_kinematics (p : DynamicBody) (i : Nat) :
    (clearGroundIf p i).position = p.position ∧ (clearGroundIf p i).velocity = p.velocity ∧
    (clearGroundIf p i).lastPosition = p.lastPosition ∧
    (clearGroundIf p i).width = p.width ∧ (clearGroundIf p i).height = p.height := by
  unfold clearGroundIf
  split <;> exact ⟨rfl, rfl, rfl, rfl, rfl⟩

theorem cascadeOn_frame (st : ActiveInteractiblePlatform) (i : Nat) (b : PlatformBody) :
    (cascadeOn env st i b w).currentLevelData = w.currentLevelData ∧
    (cascadeOn env st i b w).currentState = w.currentState ∧
    (cascadeOn env st i b w).activeInteractibles = w.activeInteractibles ∧
    (cascadeOn env st i b w).playerBody.position = w.playerBody.position ∧
    (cascadeOn env st i b w).playerBody.velocity = w.playerBody.velocity ∧
    (cascadeOn env st i b w).playerBody.lastPosition = w.playerBody.lastPosition := by
  unfold cascadeOn
  split_ifs
  · exact ⟨rfl, rfl, rfl, (clearGroundIf_kinematics _ _).1, (clearGroundIf_kinematics _ _).2.1,
      (clearGroundIf_kinematics _ _).2.2.1⟩
  all_goals exact ⟨rfl, rfl, rfl, rfl, rfl, rfl⟩

theorem cascadeLinked_frame (st : ActiveInteractiblePlatform) :
    (cascadeLinked env st w).currentLevelData = w.currentLevelData ∧
    (cascadeLinked env st w).currentState = w.currentState ∧
    (cascadeLinked env st w).activeInteractibles = w.activeInteractibles ∧
    (cascadeLinked env st w).playerBody.position = w.playerBody.position ∧
    (cascadeLinked env st w).playerBody.velocity = w.playerBody.velocity ∧
    (cascadeLinked env st w).playerBody.lastPosition = w.playerBody.lastPosition := by
  unfold cascadeLinked
  split
  · split
    · exact ⟨rfl, rfl, rfl, rfl, rfl, rfl⟩
    · split
      · exact ⟨rfl, rfl, rfl, rfl, rfl, rfl⟩
      · exact cascadeOn_frame env w st _ _
  · exact ⟨rfl, rfl, rfl, rfl, rfl, rfl⟩

theorem changeSelf_kinematics (k key : Nat) (st : ActiveInteractiblePlatform) :
    (changeSelf env k key st w).playerBody.position = w.playerBody.position ∧
    (changeSelf env k key st w).playerBody.velocity = w.playerBody.velocity ∧
    (changeSelf env k key st w).playerBody.lastPosition = w.playerBody.lastPosition ∧
    (changeSelf env k key st w).currentLevelData = w.currentLevelData ∧
    (changeSelf env k key st w).currentState = w.currentState := by
  unfold changeSelf
  simp only
  refine ⟨?_, ?_, ?_, ?_, ?_⟩
  · rw [(cascadeLinked_frame env _ st).2.2.2.1]; split
    · exact (clearGroundIf_kinematics _ _).1
    · rfl
  · rw [(cascadeLinked_frame env _ st).2.2.2.2.1]; split
    · exact (clearGroundIf_kinematics _ _).2.1
    · rfl
  · rw [(cascadeLinked_frame env _ st).2.2.2.2.2]; split
    · exact (clearGroundIf_kinematics _ _).2.2.1
    · rfl
  · rw [(cascadeLinked_frame env _ st).1]; split <;> rfl
  · rw [(cascadeLinked_frame env _ st).2.1]; split <;> rfl

theorem interactibleDispatch_kinematics :
    (interactibleDispatch env w).playerBody.position = w.playerBody.position ∧
    (interactibleDispatch env w).playerBody.velocity = w.playerBody.velocity ∧
    (interactibleDispatch env w).playerBody.lastPosition = w.playerBody.lastPosition ∧
    (interactibleDispatch env w).currentLevelData = w.currentLevelData ∧
    (interactibleDispatch env w).currentState = w.currentState := by
  unfold interactibleDispatch
  split
  · exact ⟨rfl, rfl, rfl, rfl, rfl⟩
  · split
    · exact changeSelf_kinematics env w _ _ _
    · exact ⟨rfl, rfl, rfl, rfl, rfl⟩

end Frames

section Stage

variable (env : Env Tile) (inp : TickInput) (w : World Tile)

theorem sameStage_refl : SameStage w w := ⟨rfl, rfl, rfl, rfl, rfl, rfl, rfl⟩

theorem sameStage_trans {u v w : World Tile} (h1 : SameStage u v) (h2 : SameStage v w) :
    SameStage u w := by
  obtain ⟨a1, a2, a3, a4, a5, a6, a7⟩ := h1
  obtain ⟨b1, b2, b3, b4, b5, b6, b7⟩ := h2
  exact ⟨a1.trans b1, a2.trans b2, a3.trans b3, a4.trans b4, a5.trans b5, a6.trans b6,
    a7.trans b7⟩

theorem beginTick_stage : SameStage (beginTick inp w) w := ⟨rfl, rfl, rfl, rfl, rfl, rfl, rfl⟩

theorem velocityUpdate_stage (newJump : Bool) : SameStage (velocityUpdate inp newJump w) w := by
  simp only [velocityUpdate]
  split_ifs <;> exact ⟨rfl, rfl, rfl, rfl, rfl, rfl, rfl⟩

theorem collisionStep_stage : SameStage (collisionStep env w).1 w :=
  ⟨rfl, rfl, rfl, rfl, rfl, rfl, rfl⟩

theorem postCollision_stage (hitCeiling : Bool) : SameStage (postCollision hitCeiling w) w := by
  simp only [postCollision]
  repeat' split
  all_goals exact ⟨rfl, rfl, rfl, rfl, rfl, rfl, rfl⟩

end Stage

section PlatformLoop

variable (env : Env Tile) (w : World Tile)

theorem updateAt_length {α : Type} (l : List α) (i : Nat) (f : α → α) :
    (updateAt l i f).length = l.length := by
  unfold updateAt; split <;> simp

theorem updateAt_getElem?_ne {α : Type} (l : List α) (i j : Nat) (f : α → α) (h : i ≠ j) :
    (updateAt l i f)[j]? = l[j]? := by
  unfold updateAt; split
  · exact List.getElem?_set_ne h
  · rfl

theorem updateAt_getElem?_self {α : Type} (l : List α) (i : Nat) (f : α → α) :
    (updateAt l i f)[i]? = l[i]?.map f := by
  unfold updateAt; split
  · rename_i a h
    rw [List.getElem?_set_self (List.getElem?_eq_some.mp h).1, h]; rfl
  · rename_i h; rw [h]; rfl

theorem sameStatics_refl : SameStatics w w :=
  ⟨rfl, rfl, rfl, rfl, rfl, rfl, rfl, rfl, rfl, rfl⟩

theorem sameStatics_trans {u v w : World Tile} (h1 : SameStatics u v) (h2 : SameStatics v w) :
    SameStatics u w := by
  obtain ⟨a1, a2, a3, a4, a5, a6, a7, a8, a9, a10⟩ := h1
  obtain ⟨b1, b2, b3, b4, b5, b6, b7, b8, b9, b10⟩ := h2
  exact ⟨a1.trans b1, a2.trans b2, a3.trans b3, a4.trans b4, a5.trans b5, a6.trans b6,
    a7.trans b7, a8.trans b8, a9.trans b9, a10.trans b10⟩

theorem fallingStep_statics (i : Nat) (b : PlatformBody) (t : Tile) :
    SameStatics (fallingStep env i b t w) w := by
  simp only [fallingStep]
  split_ifs <;> simp [SameStatics]

theorem vanishingStep_statics (i : Nat) (b : PlatformBody) (pos : Vector2f) :
    SameStatics (vanishingStep env i b pos w) w := by
  simp only [vanishingStep]
  split_ifs <;> simp [SameStatics, updateAt_length]

theorem updatePlatformState_statics (i : Nat) :
    SameStatics (updatePlatformState env w i) w := by
  unfold updatePlatformState
  split
  · split
    · exact sameStatics_refl w
    · split_ifs
      · exact fallingStep_statics env w _ _ _
      · exact vanishingStep_statics env w _ _ _
      · exact sameStatics_refl w
  · exact sameStatics_refl w

theorem fallingStep_other (i j : Nat) (b : PlatformBody) (t : Tile) (h : i ≠ j) :
    (fallingStep env i b t w).bodies[j]? = w.bodies[j]? ∧
    (fallingStep env i b t w).tiles[j]? = w.tiles[j]? := by
  simp only [fallingStep]
  split_ifs <;> simp [List.getElem?_set_ne h]

theorem vanishingStep_other (i j : Nat) (b : PlatformBody) (pos : Vector2f) (h : i ≠ j) :
    (vanishingStep env i b pos w).bodies[j]? = w.bodies[j]? ∧
    (vanishingStep env i b pos w).tiles[j]? = w.tiles[j]? := by
  simp only [vanishingStep]
  split_ifs <;> simp [List.getElem?_set_ne h, updateAt_getElem?_ne _ _ _ _ h]

theorem updatePlatformState_other (i j : Nat) (h : i ≠ j) :
    (updatePlatformState env w i).bodies[j]? = w.bodies[j]? ∧
    (updatePlatformState env w i).tiles[j]? = w.tiles[j]? := by
  unfold updatePlatformState
  split
  · split
    · exact ⟨rfl, rfl⟩
    · split_ifs
      · exact fallingStep_other env w _ _ _ _ h
      · exact vanishingStep_other env w _ _ _ _ h
      · exact ⟨rfl, rfl⟩
  · exact ⟨rfl, rfl⟩

theorem platformLoopUpTo_succ (n : Nat) :
    platformLoopUpTo env w (n + 1) = updatePlatformState env (platformLoopUpTo env w n) n := by
  simp [platformLoopUpTo, List.range_succ, List.foldl_append]

theorem platformLoopUpTo_statics (n : Nat) : SameStatics (platformLoopUpTo env w n) w := by
  induction n with
  | zero => exact sameStatics_refl w
  | succ n ih =>
    rw [platformLoopUpTo_succ]
    exact sameStatics_trans (updatePlatformState_statics env _ n) ih

/-- Indices not yet reached by the loop hold what they held before the loop. -/
theorem platformLoopUpTo_ahead (n j : Nat) (h : n ≤ j) :
    (platformLoopUpTo env w n).bodies[j]? = w.bodies[j]? ∧
    (platformLoopUpTo env w n).tiles[j]? = w.tiles[j]? := by
  induction n with
  | zero => exact ⟨rfl, rfl⟩
  | succ n ih =>
    rw [platformLoopUpTo_succ]
    have hne : n ≠ j := by omega
    have h1 := updatePlatformState_other env (platformLoopUpTo env w n) n j hne
    have h2 := ih (by omega)
    exact ⟨h1.1.trans h2.1, h1.2.trans h2.2⟩

/-- An index the loop has passed holds what its own iteration left there. -/
theorem platformLoopUpTo_behind (n i : Nat) (h : i < n) :
    (platformLoopUpTo env w n).bodies[i]? = (platformLoopUpTo env w (i + 1)).bodies[i]? ∧
    (platformLoopUpTo env w n).tiles[i]? = (platformLoopUpTo env w (i + 1)).tiles[i]? := by
  induction n with
  | zero => omega
  | succ n ih =>
    by_cases hn : i = n
    · subst hn; exact ⟨rfl, rfl⟩
    · rw [platformLoopUpTo_succ]
      have hne : n ≠ i := fun e => hn e.symm
      have h1 := updatePlatformState_other env (platformLoopUpTo env w n) n i hne
      have h2 := ih (by omega)
      exact ⟨h1.1.trans h2.1, h1.2.trans h2.2⟩

theorem vanishingAlpha_congr {v w : World Tile} (h : SameStatics v w) (id : Nat) :
    vanishingAlpha env v id = vanishingAlpha env w id := by
  obtain ⟨_, _, _, _, h5, h6, _⟩ := h
  simp only [vanishingAlpha, h5, h6]

/-- The iteration of index `i` starts from a world that still holds the body and the tile
the loop started with at `i`, and the loop's result at `i` is what this iteration leaves. -/
theorem updatePlatformStates_at (i : Nat) (b : PlatformBody) (hb : w.bodies[i]? = some b) :
    SameStatics (platformLoopUpTo env w i) w ∧
    (platformLoopUpTo env w i).bodies[i]? = some b ∧
    (platformLoopUpTo env w i).tiles[i]? = w.tiles[i]? ∧
    (updatePlatformStates env w).bodies[i]?
      = (updatePlatformState env (platformLoopUpTo env w i) i).bodies[i]? ∧
    (updatePlatformStates env w).tiles[i]?
      = (updatePlatformState env (platformLoopUpTo env w i) i).tiles[i]? := by
  have hi : i < w.bodies.length := (List.getElem?_eq_some.mp hb).1
  have ha := platformLoopUpTo_ahead env w i i (le_refl i)
  have hbh := platformLoopUpTo_behind env w w.bodies.length i hi
  rw [platformLoopUpTo_succ] at hbh
  exact ⟨platformLoopUpTo_statics env w i, ha.1.trans hb, ha.2, hbh.1, hbh.2⟩

theorem updatePlatformStates_eq :
    updatePlatformStates env w = platformLoopUpTo env w w.bodies.length := rfl

end PlatformLoop

section MovingBlock

variable (env : Env Tile)

/-- One moving-platform iteration changes positions only. -/
theorem updateMovingPlatform_body (a : ActiveMovingPlatform) (bodies : List PlatformBody)
    (tiles : List Tile) (i : Nat) (b : PlatformBody) (h : bodies[i]? = some b) :
    (∃ b', (updateMovingPlatform env a bodies tiles).2.1[i]? = some b' ∧ b'.id = b.id ∧
      b'.type = b.type ∧ b'.falling = b.falling) ∧
    (updateMovingPlatform env a bodies tiles).2.2.length = tiles.length := by
  have hi : i < bodies.length := (List.getElem?_eq_some.mp h).1
  unfold updateMovingPlatform
  split
  · exact ⟨⟨b, h, rfl, rfl, rfl⟩, rfl⟩
  · rename_i idx _
    split
    · exact ⟨⟨b, h, rfl, rfl, rfl⟩, rfl⟩
    · rename_i mb hmb
      simp only [updateAt_length, and_true]
      by_cases hidx : idx = i
      · subst hidx
        have e : mb = b := Option.some.inj (hmb.symm.trans h)
        subst e
        exact ⟨_, List.getElem?_set_self hi, rfl, rfl, rfl⟩
      · exact ⟨b, (List.getElem?_set_ne hidx).trans h, rfl, rfl, rfl⟩

theorem updateMovingPlatformsLoop_body (recs : List ActiveMovingPlatform) :
    ∀ (bodies : List PlatformBody) (tiles : List Tile) (i : Nat) (b : PlatformBody),
      bodies[i]? = some b →
      (∃ b', (updateMovingPlatformsLoop env recs bodies tiles).2.1[i]? = some b' ∧
        b'.id = b.id ∧ b'.type = b.type ∧ b'.falling = b.falling) ∧
      (updateMovingPlatformsLoop env recs bodies tiles).2.2.length = tiles.length := by
  induction recs with
  | nil => intro bodies tiles i b h; exact ⟨⟨b, h, rfl, rfl, rfl⟩, rfl⟩
  | cons a rest ih =>
    intro bodies tiles i b h
    obtain ⟨⟨b1, h1, e1, e2, e3⟩, l1⟩ := updateMovingPlatform_body env a bodies tiles i b h
    obtain ⟨⟨b2, h2, f1, f2, f3⟩, l2⟩ := ih (updateMovingPlatform env a bodies tiles).2.1
      (updateMovingPlatform env a bodies tiles).2.2 i b1 h1
    exact ⟨⟨b2, h2, f1.trans e1, f2.trans e2, f3.trans e3⟩, l2.trans l1⟩

/-- The moving-platform block keeps the id, the live type and the falling flag of every
body, and the number of tiles. -/
theorem updateMovingPlatforms_body (w : World Tile) (i : Nat) (b : PlatformBody)
    (h : w.bodies[i]? = some b) :
    (∃ b', (updateMovingPlatforms env w).bodies[i]? = some b' ∧ b'.id = b.id ∧
      b'.type = b.type ∧ b'.falling = b.falling) ∧
    (updateMovingPlatforms env w).tiles.length = w.tiles.length :=
  updateMovingPlatformsLoop_body env w.activeMovingPlatforms w.bodies w.tiles i b h

end MovingBlock

section TickFrames

variable (env : Env Tile) (inp : TickInput) (w : World Tile)

/-- After the vanishing clock has advanced, the rest of the tick's front part works on the
player only. -/
theorem tickFront_stage :
    SameStage (tickFront env inp w) (advanceVanishingClock (afterPlatformBlocks env inp w)) := by
  unfold tickFront
  simp only
  exact sameStage_trans (postCollision_stage _ _)
    (sameStage_trans (collisionStep_stage env _) (velocityUpdate_stage inp _ _))

theorem afterPlatformBlocks_clock :
    (afterPlatformBlocks env inp w).vanishingPlatformCycleTimer
      = w.vanishingPlatformCycleTimer ∧
    (afterPlatformBlocks env inp w).oddEvenVanishing = w.oddEvenVanishing ∧
    (afterPlatformBlocks env inp w).currentLevelData = w.currentLevelData ∧
    (afterPlatformBlocks env inp w).activeInteractibles
      = fun key => (w.activeInteractibles key).map updateCooldown := by
  have h := platformLoopUpTo_statics env
    (updateInteractibleCooldowns (updateMovingPlatforms env (beginTick inp w)))
    (updateInteractibleCooldowns (updateMovingPlatforms env (beginTick inp w))).bodies.length
  obtain ⟨_, h2, _, h4, h5, h6, _⟩ := h
  exact ⟨h5, h6, h2, h4⟩

theorem tickFront_clock :
    (tickFront env inp w).vanishingPlatformCycleTimer
      = (advanceVanishingClock w).vanishingPlatformCycleTimer ∧
    (tickFront env inp w).oddEvenVanishing = (advanceVanishingClock w).oddEvenVanishing := by
  obtain ⟨_, _, _, _, _, h6, h7⟩ := tickFront_stage env inp w
  obtain ⟨c1, c2, _, _⟩ := afterPlatformBlocks_clock env inp w
  rw [h6, h7]
  simp only [advanceVanishingClock, c1, c2]
  split_ifs <;> exact ⟨rfl, rfl⟩

theorem tickFront_currentLevelData :
    (tickFront env inp w).currentLevelData = w.currentLevelData := by
  obtain ⟨h1, _⟩ := tickFront_stage env inp w
  rw [h1]
  simp only [advanceVanishingClock]
  split_ifs <;> exact (afterPlatformBlocks_clock env inp w).2.2.1

theorem tickFront_activeInteractibles :
    (tickFront env inp w).activeInteractibles
      = fun key => (w.activeInteractibles key).map updateCooldown := by
  obtain ⟨_, _, _, _, h5, _⟩ := tickFront_stage env inp w
  rw [h5]
  simp only [advanceVanishingClock]
  split_ifs <;> exact (afterPlatformBlocks_clock env inp w).2.2.2

theorem cascadeLinked_clock (st : ActiveInteractiblePlatform) :
    (cascadeLinked env st w).vanishingPlatformCycleTimer = w.vanishingPlatformCycleTimer ∧
    (cascadeLinked env st w).oddEvenVanishing = w.oddEvenVanishing := by
  unfold cascadeLinked
  split
  · split
    · exact ⟨rfl, rfl⟩
    · split
      · exact ⟨rfl, rfl⟩
      · unfold cascadeOn
        split_ifs <;> exact ⟨rfl, rfl⟩
  · exact ⟨rfl, rfl⟩

theorem interactionDispatch_clock :
    (interactionDispatch env inp w).vanishingPlatformCycleTimer
      = w.vanishingPlatformCycleTimer ∧
    (interactionDispatch env inp w).oddEvenVanishing = w.oddEvenVanishing := by
  unfold interactionDispatch
  split_ifs
  · simp only [goalReached]
    split_ifs <;> exact ⟨rfl, rfl⟩
  · split
    · exact ⟨rfl, rfl⟩
    · unfold interactibleDispatch
      split
      · exact ⟨rfl, rfl⟩
      · split
        · unfold changeSelf
          simp only
          have h := cascadeLinked_clock env
          constructor
          · rw [(h _ _).1]; split <;> rfl
          · rw [(h _ _).2]; split <;> rfl
        · exact ⟨rfl, rfl⟩
  · exact ⟨rfl, rfl⟩

theorem tickTail_clock :
    (tickTail env inp w).1.vanishingPlatformCycleTimer = w.vanishingPlatformCycleTimer ∧
    (tickTail env inp w).1.oddEvenVanishing = w.oddEvenVanishing := by
  unfold tickTail
  split_ifs
  · exact ⟨rfl, rfl⟩
  · unfold fallDeath
    split_ifs <;> exact interactionDispatch_clock env inp w

/-- The tick changes the vanishing clock and the parity only by its clock block. -/
theorem tick_clock :
    (tick env inp w).1.vanishingPlatformCycleTimer
      = (advanceVanishingClock w).vanishingPlatformCycleTimer ∧
    (tick env inp w).1.oddEvenVanishing = (advanceVanishingClock w).oddEvenVanishing := by
  unfold tick
  rw [(tickTail_clock env inp _).1, (tickTail_clock env inp _).2]
  exact tickFront_clock env inp w

end TickFrames

section GroundReference

variable (env : Env Tile) (w : World Tile)

theorem clearGroundIf_hit (p : DynamicBody) (i : Nat) (h : p.groundPlatform = some i) :
    (clearGroundIf p i).onGround = false ∧ (clearGroundIf p i).groundPlatform = none := by
  simp [clearGroundIf, h]

theorem clearGroundIf_keeps_cleared (p : DynamicBody) (i : Nat)
    (h : p.onGround = false ∧ p.groundPlatform = none) :
    (clearGroundIf p i).onGround = false ∧ (clearGroundIf p i).groundPlatform = none := by
  simp [clearGroundIf, h.1, h.2]

theorem cascadeLinked_keeps_cleared (st : ActiveInteractiblePlatform)
    (h : w.playerBody.onGround = false ∧ w.playerBody.groundPlatform = none) :
    (cascadeLinked env st w).playerBody.onGround = false ∧
    (cascadeLinked env st w).playerBody.groundPlatform = none := by
  unfold cascadeLinked
  split
  · split
    · exact h
    · split
      · exact h
      · unfold cascadeOn
        split_ifs
        · exact clearGroundIf_keeps_cleared _ _ h
        all_goals exact h
  · exact h

/-- Fall completion, vanishing fade-out, "changeSelf" to `none` and the collapse of a
linked platform each clear the ground contact when the ground reference is the platform
they hide. -/
theorem hiding_steps_clear_ground (i : Nat) (b : PlatformBody) (t : Tile)
    (hg : w.playerBody.groundPlatform = some i) :
    (b.type ≠ bodyType.none → env.tile.hasFallen (fallingTile env i b t w) = true →
      (fallingStep env i b t w).playerBody.onGround = false ∧
      (fallingStep env i b t w).playerBody.groundPlatform = none) ∧
    (∀ pos, b.type ≠ bodyType.none → vanishingAlpha env w b.id ≤ 10 →
      (vanishingStep env i b pos w).playerBody.onGround = false ∧
      (vanishingStep env i b pos w).playerBody.groundPlatform = none) ∧
    (∀ key st, st.targetBodyTypeEnum = bodyType.none →
      (changeSelf env i key st w).playerBody.onGround = false ∧
      (changeSelf env i key st w).playerBody.groundPlatform = none) ∧
    (∀ st, b.type = bodyType.solid ∨ b.type = bodyType.platform →
      (cascadeOn env st i b w).playerBody.onGround = false ∧
      (cascadeOn env st i b w).playerBody.groundPlatform = none) := by
  refine ⟨?_, ?_, ?_, ?_⟩
  · intro hb hf
    simp only [fallingStep, hf, true_and]
    split_ifs <;> exact clearGroundIf_hit _ _ hg
  · intro pos hb hα
    simp only [vanishingStep, hα, hb, if_true, ne_eq, not_false_eq_true]
    exact clearGroundIf_hit _ _ hg
  · intro key st hst
    unfold changeSelf
    simp only [hst, if_true]
    exact cascadeLinked_keeps_cleared env _ st (clearGroundIf_hit _ _ hg)
  · intro st hb
    simp only [cascadeOn, hb, if_true]
    exact clearGroundIf_hit _ _ hg

/-- The retirement path of the vanishing branch (opacity above 10, authored position not
usable) sets the live type to `none` at the off-stage point and leaves the player body,
ground contact included, as it was. -/
theorem vanishingStep_retire (i : Nat) (b : PlatformBody) (pos : Vector2f)
    (hi : i < w.bodies.length) (hα : vanishingAlpha env w b.id > 10) (hx : ¬ pos.x > -9998) :
    (vanishingStep env i b pos w).playerBody = w.playerBody ∧
    ∃ b', (vanishingStep env i b pos w).bodies[i]? = some b' ∧
      b'.type = bodyType.none ∧ b'.position = offStage := by
  have hα' : ¬ vanishingAlpha env w b.id ≤ 10 := not_le.mpr hα
  simp only [vanishingStep, hα', hx, if_false]
  exact ⟨trivial, _, List.getElem?_set_self hi, rfl, rfl⟩

end GroundReference

section Activation

variable (env : Env Tile) (inp : TickInput) (w : World Tile)

/-- What a passing guard of the interactible loop says about the body and its record. -/
theorem activatable_some (k : Nat) (st : ActiveInteractiblePlatform)
    (h : activatable w k = some st) :
    ∃ b, w.bodies[k]? = some b ∧ b.type = bodyType.interactible ∧
      w.playerBody.getAABB.intersects b.getAABB = true ∧
      w.activeInteractibles b.id = some st ∧ ¬ st.currentCooldownTimer > 0 ∧
      ¬ (st.oneTime = true ∧ st.hasBeenInteractedThisSession = true) ∧
      st.interactionType = "changeSelf" := by
  unfold activatable at h
  split at h
  · exact absurd h (by simp)
  · rename_i b hb
    split_ifs at h with h1
    split at h
    · exact absurd h (by simp)
    · rename_i st0 hst
      split_ifs at h with h2 h3
      have e : st0 = st := Option.some.inj h
      subst e
      exact ⟨b, hb, h1.2.2.1, h1.2.2.2, hst, fun hc => h2 (Or.inl hc),
        fun hc => h2 (Or.inr hc), h3⟩

theorem changeSelf_activeInteractibles (k key : Nat) (st : ActiveInteractiblePlatform) :
    (changeSelf env k key st w).activeInteractibles
      = Function.update w.activeInteractibles key (some (markActivated st)) := by
  unfold changeSelf
  simp only
  rw [(cascadeLinked_frame env _ st).2.2.1]
  unfold markActivated
  split <;> rfl

/-- The interactible loop either activates nothing and leaves the records alone, or it
activates the record under the reported key, whose guard passed. -/
theorem interactibleDispatch_activeInteractibles :
    (activatedByLoop w = none ∧
      (interactibleDispatch env w).activeInteractibles = w.activeInteractibles) ∨
    (∃ key st, activatedByLoop w = some key ∧ w.activeInteractibles key = some st ∧
      ¬ st.currentCooldownTimer > 0 ∧
      ¬ (st.oneTime = true ∧ st.hasBeenInteractedThisSession = true) ∧
      (interactibleDispatch env w).activeInteractibles
        = Function.update w.activeInteractibles key (some (markActivated st))) := by
  unfold interactibleDispatch activatedByLoop
  split
  · left; exact ⟨rfl, rfl⟩
  · rename_i k hk
    have hsome := List.find?_some hk
    obtain ⟨st, hst⟩ := Option.isSome_iff_exists.mp hsome
    obtain ⟨b, hb, _, _, hrec, hcd, hsp, _⟩ := activatable_some w k st hst
    right
    refine ⟨b.id, st, by simp [hb], hrec, hcd, hsp, ?_⟩
    simp only [hst, hb]
    exact changeSelf_activeInteractibles env w k b.id st

/-- The records after a tick: those after the cooldown block, with the activated record,
if there is one, marked. An activated record passed the guard after the cooldown block. -/
theorem tick_activeInteractibles :
    (activatedKey env inp w = none ∧
      (tick env inp w).1.activeInteractibles = (tickFront env inp w).activeInteractibles) ∨
    (∃ key st, activatedKey env inp w = some key ∧
      (tickFront env inp w).activeInteractibles key = some st ∧
      ¬ st.currentCooldownTimer > 0 ∧
      ¬ (st.oneTime = true ∧ st.hasBeenInteractedThisSession = true) ∧
      (tick env inp w).1.activeInteractibles
        = Function.update (tickFront env inp w).activeInteractibles key
            (some (markActivated st))) := by
  unfold tick tickTail activatedKey
  by_cases hT : trapHit (tickFront env inp w) = true
  · left; simp [hT]
  · simp only [hT, if_false, Bool.false_eq_true]
    rw [fallDeath_activeInteractibles]
    unfold interactionDispatch
    by_cases hE : inp.interactKeyPressedThisFrame = true
    · simp only [hE, if_true]
      by_cases hG : goalOverlap (tickFront env inp w) = true
      · left; simp only [hG, if_true]; exact ⟨trivial, (goalReached_frame inp _).2.2.2⟩
      · simp only [hG, if_false, Bool.false_eq_true]
        cases hP : portalScan (tickFront env inp w).playerBody (tickFront env inp w).bodies
            (tickFront env inp w).bodies with
        | some p => left; exact ⟨rfl, rfl⟩
        | none => exact interactibleDispatch_activeInteractibles env (tickFront env inp w)
    · left; simp [hE]

/-- A record whose remaining cooldown is still positive after this tick's cooldown block,
or which is a spent one-time record, is not activated by the tick, and the tick leaves it
as the cooldown block left it. -/
theorem tick_blocked (key : Nat) (st : ActiveInteractiblePlatform)
    (hrec : w.activeInteractibles key = some st)
    (hblock : (updateCooldown st).currentCooldownTimer > 0 ∨
      (st.oneTime = true ∧ st.hasBeenInteractedThisSession = true)) :
    activatedKey env inp w ≠ some key ∧
    (tick env inp w).1.activeInteractibles key = some (updateCooldown st) := by
  have hfront : (tickFront env inp w).activeInteractibles key = some (updateCooldown st) := by
    rw [tickFront_activeInteractibles]; simp only [hrec]; rfl
  have hkeep : (updateCooldown st).oneTime = st.oneTime ∧
      (updateCooldown st).hasBeenInteractedThisSession = st.hasBeenInteractedThisSession := by
    unfold updateCooldown; split <;> exact ⟨rfl, rfl⟩
  rcases tick_activeInteractibles env inp w with ⟨hn, he⟩ | ⟨key', st', hk, hrec', hcd, hsp, he⟩
  · exact ⟨by rw [hn]; simp, by rw [he]; exact hfront⟩
  · by_cases hkk : key' = key
    · subst hkk
      rw [hfront] at hrec'
      have e : updateCooldown st = st' := Option.some.inj hrec'
      subst e
      rcases hblock with hb | hb
      · exact absurd hb hcd
      · exact absurd (by rw [hkeep.1, hkeep.2]; exact hb) hsp
    · refine ⟨by rw [hk]; simpa using hkk, ?_⟩
      rw [he, Function.update_noteq (Ne.symm hkk)]
      exact hfront

theorem updateCooldown_keeps (st : ActiveInteractiblePlatform) :
    (updateCooldown st).oneTime = st.oneTime ∧
    (updateCooldown st).hasBeenInteractedThisSession = st.hasBeenInteractedThisSession ∧
    (updateCooldown st).cooldown = st.cooldown := by
  unfold updateCooldown; split <;> exact ⟨rfl, rfl, rfl⟩

theorem updateCooldown_timer (st : ActiveInteractiblePlatform)
    (h : st.currentCooldownTimer - fixed_dt_seconds > 0) :
    (updateCooldown st).currentCooldownTimer = st.currentCooldownTimer - fixed_dt_seconds := by
  have hdt : (0 : ℚ) < fixed_dt_seconds := by norm_num [fixed_dt_seconds]
  have h1 : st.currentCooldownTimer > 0 := by linarith
  have h2 : ¬ st.currentCooldownTimer - fixed_dt_seconds < 0 := by linarith
  simp [updateCooldown, h1, h2]

/-- The tick that activates a record leaves it marked: a one-time record is spent, a
repeatable record has its remaining cooldown set to its configured cooldown. -/
theorem tick_marks_activated (key : Nat) (st0 : ActiveInteractiblePlatform)
    (hrec : w.activeInteractibles key = some st0) (hact : activatedKey env inp w = some key) :
    (tick env inp w).1.activeInteractibles key = some (markActivated (updateCooldown st0)) ∧
    ¬ (updateCooldown st0).currentCooldownTimer > 0 := by
  have hfront : (tickFront env inp w).activeInteractibles key = some (updateCooldown st0) := by
    rw [tickFront_activeInteractibles]; simp only [hrec]; rfl
  rcases tick_activeInteractibles env inp w with ⟨hn, _⟩ | ⟨key', st', hk, hrec', hcd, _, he⟩
  · rw [hn] at hact; exact absurd hact (by simp)
  · rw [hk] at hact
    have e : key' = key := Option.some.inj hact
    subst e
    rw [hfront] at hrec'
    have e2 : updateCooldown st0 = st' := Option.some.inj hrec'
    subst e2
    exact ⟨by rw [he, Function.update_same], hcd⟩

theorem spent_reset (key : Nat) (c t : ℚ) (h : Spent w key) :
    Spent (resetCooldownFields key c t w) key := by
  obtain ⟨st, hst, h1, h2⟩ := h
  exact ⟨{ st with cooldown := c, currentCooldownTimer := t },
    by simp [resetCooldownFields, hst], h1, h2⟩

theorem spent_tick (key : Nat) (h : Spent w key) :
    activatedKey env inp w ≠ some key ∧ Spent (tick env inp w).1 key := by
  obtain ⟨st, hst, h1, h2⟩ := h
  have hb := tick_blocked env inp w key st hst (Or.inr ⟨h1, h2⟩)
  have hk := updateCooldown_keeps st
  exact ⟨hb.1, updateCooldown st, hb.2, by rw [hk.1]; exact h1, by rw [hk.2.1]; exact h2⟩

theorem spent_runWithResets (key : Nat) (steps : List (ℚ × ℚ × TickInput)) :
    ∀ w : World Tile, Spent w key → Spent (runWithResets env key steps w) key := by
  induction steps with
  | nil => intro w h; exact h
  | cons s rest ih =>
    intro w h
    obtain ⟨c, t, inp⟩ := s
    exact ih _ (spent_tick env inp _ key (spent_reset w key c t h)).2

/-- While the remaining cooldown of a record stays positive it drops by one tick length
per tick. -/
theorem runTicks_cooling (key : Nat) (inps : List TickInput) :
    ∀ (w : World Tile) (st : ActiveInteractiblePlatform), w.activeInteractibles key = some st →
      st.currentCooldownTimer - (inps.length : ℚ) * fixed_dt_seconds > 0 →
      ∃ st', (runTicks env inps w).activeInteractibles key = some st' ∧
        st'.currentCooldownTimer
          = st.currentCooldownTimer - (inps.length : ℚ) * fixed_dt_seconds ∧
        st'.cooldown = st.cooldown ∧ st'.oneTime = st.oneTime := by
  have hdt : (0 : ℚ) < fixed_dt_seconds := by norm_num [fixed_dt_seconds]
  induction inps with
  | nil => intro w st hst _; exact ⟨st, hst, by simp, rfl, rfl⟩
  | cons inp rest ih =>
    intro w st hst hpos
    have hlen : ((inp :: rest).length : ℚ) = (rest.length : ℚ) + 1 := by simp
    rw [hlen] at hpos ⊢
    have hnn : (0 : ℚ) ≤ (rest.length : ℚ) * fixed_dt_seconds :=
      mul_nonneg (Nat.cast_nonneg _) hdt.le
    have h1 : st.currentCooldownTimer - fixed_dt_seconds > 0 := by nlinarith
    have ht := updateCooldown_timer st h1
    have hb := tick_blocked env inp w key st hst (Or.inl (by rw [ht]; exact h1))
    obtain ⟨st', hst', e1, e2, e3⟩ := ih (tick env inp w).1 (updateCooldown st) hb.2
      (by rw [ht]; nlinarith)
    refine ⟨st', hst', ?_, ?_, ?_⟩
    · rw [e1, ht]; ring
    · rw [e2]; exact (updateCooldown_keeps st).2.2
    · rw [e3]; exact (updateCooldown_keeps st).1

theorem updateCooldown_nonneg (st : ActiveInteractiblePlatform)
    (h : 0 ≤ st.currentCooldownTimer) : 0 ≤ (updateCooldown st).currentCooldownTimer := by
  unfold updateCooldown
  split
  · simp only
    split
    · exact le_refl (0 : ℚ)
    · rename_i h2; exact not_lt.mp h2
  · exact h

/-- A tick keeps the remaining cooldown of a record with a non-negative configured
cooldown non-negative. -/
theorem cooldownOk_tick (key : Nat) (c : ℚ) (hc : 0 ≤ c) (h : CooldownOk w key c) :
    CooldownOk (tick env inp w).1 key c := by
  obtain ⟨st, hst, h1, h2⟩ := h
  have hfront : (tickFront env inp w).activeInteractibles key = some (updateCooldown st) := by
    rw [tickFront_activeInteractibles]; simp only [hst]; rfl
  have hk := updateCooldown_keeps st
  have hu := updateCooldown_nonneg st h2
  rcases tick_activeInteractibles env inp w with ⟨_, he⟩ | ⟨key', st', _, hrec', _, _, he⟩
  · exact ⟨updateCooldown st, by rw [he]; exact hfront, by rw [hk.2.2]; exact h1, hu⟩
  · by_cases hkk : key' = key
    · subst hkk
      rw [hfront] at hrec'
      have e : updateCooldown st = st' := Option.some.inj hrec'
      subst e
      refine ⟨markActivated (updateCooldown st), by rw [he, Function.update_same], ?_, ?_⟩
      · unfold markActivated; split <;> simp [hk.2.2, h1]
      · unfold markActivated; split
        · exact hu
        · simp only [hk.2.2, h1]; exact hc
    · exact ⟨updateCooldown st, by rw [he, Function.update_noteq (Ne.symm hkk)]; exact hfront,
        by rw [hk.2.2]; exact h1, hu⟩

theorem cooldownOk_runTicks (key : Nat) (c : ℚ) (hc : 0 ≤ c) (inps : List TickInput) :
    ∀ w : World Tile, CooldownOk w key c → CooldownOk (runTicks env inps w) key c := by
  induction inps with
  | nil => intro w h; exact h
  | cons i rest ih => intro w h; exact ih _ (cooldownOk_tick env i w key c hc h)

/-- A tick that activates a record whose remaining cooldown was not negative found it at
zero after its cooldown block. -/
theorem activation_needs_zero (key : Nat) (c : ℚ) (h : CooldownOk w key c)
    (hact : activatedKey env inp w = some key) :
    ∃ st, (tickFront env inp w).activeInteractibles key = some st ∧
      st.currentCooldownTimer = 0 := by
  obtain ⟨st, hst, _, h2⟩ := h
  have hfront : (tickFront env inp w).activeInteractibles key = some (updateCooldown st) := by
    rw [tickFront_activeInteractibles]; simp only [hst]; rfl
  have hle := (tick_marks_activated env inp w key st hst hact).2
  exact ⟨_, hfront, le_antisymm (not_lt.mp hle) (updateCooldown_nonneg st h2)⟩

end Activation

section Portals

/-- What a successful portal scan says about the source and the target it reports. -/
theorem portalScan_some (p : DynamicBody) (bodies : List PlatformBody) (S T : PlatformBody) :
    ∀ rest : List PlatformBody, portalScan p bodies rest = some (S, T) →
      S ∈ rest ∧ S.type = bodyType.portal ∧ p.getAABB.intersects S.getAABB = true ∧
      S.portalID ≠ 0 ∧ findTargetPortal bodies S.portalID S.id = some T := by
  intro rest
  induction rest with
  | nil => intro h; simp [portalScan] at h
  | cons c rest ih =>
    intro h
    unfold portalScan at h
    split_ifs at h with h1 h2
    · obtain ⟨hm, r⟩ := ih h
      exact ⟨List.mem_cons_of_mem _ hm, r⟩
    · split at h
      · rename_i target ht
        have e := Option.some.inj h
        have eS : c = S := congrArg Prod.fst e
        have eT : target = T := congrArg Prod.snd e
        subst eS; subst eT
        exact ⟨List.mem_cons_self _ _, h1.1, h1.2, h2, ht⟩
      · obtain ⟨hm, r⟩ := ih h
        exact ⟨List.mem_cons_of_mem _ hm, r⟩
    · obtain ⟨hm, r⟩ := ih h
      exact ⟨List.mem_cons_of_mem _ hm, r⟩

/-- The target scan returns the first body of live type `portal` with the link id and an
id other than the source's. -/
theorem findTargetPortal_some (bodies : List PlatformBody) (link src : Nat) (T : PlatformBody)
    (h : findTargetPortal bodies link src = some T) :
    (T.type = bodyType.portal ∧ T.portalID = link ∧ T.id ≠ src) ∧
    ∃ before after, bodies = before ++ T :: after ∧
      ∀ a ∈ before, ¬ (a.type = bodyType.portal ∧ a.portalID = link ∧ a.id ≠ src) := by
  unfold findTargetPortal at h
  obtain ⟨hp, before, after, hsplit, hfirst⟩ := List.find?_eq_some.mp h
  refine ⟨by simpa [and_assoc] using hp, before, after, hsplit, ?_⟩
  intro a ha hc
  have := hfirst a ha
  simp [hc.1, hc.2.1, hc.2.2] at this

/-- With a link id used by exactly the two portals `A` and `B`, the target scan from `A`
finds `B`. -/
theorem findTargetPortal_pair (bodies : List PlatformBody) (A B : PlatformBody)
    (hB : B ∈ bodies) (hBt : B.type = bodyType.portal) (hlink : A.portalID = B.portalID)
    (hid : A.id ≠ B.id)
    (honly : ∀ b ∈ bodies, b.type = bodyType.portal → b.portalID = A.portalID → b = A ∨ b = B) :
    findTargetPortal bodies A.portalID A.id = some B := by
  cases hf : findTargetPortal bodies A.portalID A.id with
  | none =>
    unfold findTargetPortal at hf
    have := List.find?_eq_none.mp hf B hB
    simp [hBt, hlink, Ne.symm hid] at this
  | some T =>
    obtain ⟨⟨h1, h2, h3⟩, _⟩ := findTargetPortal_some bodies _ _ T hf
    have hm : T ∈ bodies := by
      unfold findTargetPortal at hf
      exact List.mem_of_find?_eq_some hf
    rcases honly T hm h1 h2 with e | e
    · exact absurd (by rw [e]) h3
    · rw [e]

end Portals

section FallingBlock

variable (env : Env Tile) (inp : TickInput) (w : World Tile)

/-- The falling branch at index `i`: the tile becomes this tick's `fallingTile`; the body
keeps its id; its live type becomes `none` (at the off-stage point) exactly when the tile
reports `hasFallen` and the type was not `none`, and is kept otherwise. -/
theorem fallingStep_at (i : Nat) (b : PlatformBody) (t : Tile)
    (hi : i < w.bodies.length) (ht : i < w.tiles.length) :
    ∃ b', (fallingStep env i b t w).bodies[i]? = some b' ∧
      (fallingStep env i b t w).tiles[i]? = some (fallingTile env i b t w) ∧ b'.id = b.id ∧
      ((b'.type = bodyType.none ∧ b'.position = offStage ∧ b.type ≠ bodyType.none ∧
          env.tile.hasFallen (fallingTile env i b t w) = true) ∨
       (b'.type = b.type ∧
          ¬ (env.tile.hasFallen (fallingTile env i b t w) = true ∧ b.type ≠ bodyType.none))) := by
  simp only [fallingStep]
  split_ifs
  all_goals first
    | exact ⟨_, List.getElem?_set_self hi, List.getElem?_set_self ht, rfl,
        Or.inl ⟨rfl, rfl, by simp_all, by simp_all⟩⟩
    | exact ⟨_, List.getElem?_set_self hi, List.getElem?_set_self ht, rfl,
        Or.inr ⟨rfl, by simp_all⟩⟩

/-- The platform blocks of a tick on a body whose authored template is `falling` and which
has a tile: the id stays, and the live type becomes `none` only from a type other than
`none` and only with the tile of this tick reporting `hasFallen`; otherwise it is kept. -/
theorem afterPlatformBlocks_falling (i : Nat) (b templ : PlatformBody)
    (hb : w.bodies[i]? = some b) (ht : i < w.tiles.length)
    (hT : findTemplate w.currentLevelData b.id = some templ)
    (hTy : templ.type = bodyType.falling) :
    ∃ bm tm, (afterPlatformBlocks env inp w).bodies[i]? = some bm ∧
      (afterPlatformBlocks env inp w).tiles[i]? = some tm ∧ bm.id = b.id ∧
      ((bm.type = bodyType.none ∧ bm.position = offStage ∧ b.type ≠ bodyType.none ∧
          env.tile.hasFallen tm = true) ∨
       (bm.type = b.type ∧ ¬ (env.tile.hasFallen tm = true ∧ b.type ≠ bodyType.none))) := by
  obtain ⟨⟨b2, hb2, e1, e2, _⟩, hl⟩ := updateMovingPlatforms_body env (beginTick inp w) i b hb
  have hb3 : (updateInteractibleCooldowns (updateMovingPlatforms env (beginTick inp w))).bodies[i]?
      = some b2 := hb2
  have ht3 : i < (updateInteractibleCooldowns
      (updateMovingPlatforms env (beginTick inp w))).tiles.length := by
    show i < (updateMovingPlatforms env (beginTick inp w)).tiles.length
    rw [hl]; exact ht
  obtain ⟨hs, hvb, hvt, hres, hrest⟩ := updatePlatformStates_at env _ i b2 hb3
  obtain ⟨t, htile⟩ : ∃ t, (platformLoopUpTo env (updateInteractibleCooldowns
      (updateMovingPlatforms env (beginTick inp w))) i).tiles[i]? = some t := by
    rw [hvt]; exact ⟨_, List.getElem?_eq_getElem ht3⟩
  have hT' : findTemplate (platformLoopUpTo env (updateInteractibleCooldowns
      (updateMovingPlatforms env (beginTick inp w))) i).currentLevelData b2.id = some templ := by
    rw [hs.2.1, e1]; exact hT
  have hi' := (List.getElem?_eq_some.mp hvb).1
  have ht' := (List.getElem?_eq_some.mp htile).1
  obtain ⟨b', h1, h2, h3, h4⟩ := fallingStep_at env _ i b2 t hi' ht'
  unfold afterPlatformBlocks
  rw [hres, hrest]
  simp only [updatePlatformState, hvb, htile, hT', hTy, if_true]
  refine ⟨b', _, h1, h2, h3.trans e1, ?_⟩
  rw [e2] at h4
  exact h4

theorem advanceVanishingClock_stage :
    (advanceVanishingClock w).bodies = w.bodies ∧ (advanceVanishingClock w).tiles = w.tiles ∧
    (advanceVanishingClock w).currentLevelData = w.currentLevelData := by
  simp only [advanceVanishingClock]
  split_ifs <;> exact ⟨rfl, rfl, rfl⟩

/-- The bodies and tiles that reach the trap check are those the platform blocks left. -/
theorem tickFront_bodies_tiles :
    (tickFront env inp w).bodies = (afterPlatformBlocks env inp w).bodies ∧
    (tickFront env inp w).tiles = (afterPlatformBlocks env inp w).tiles := by
  obtain ⟨_, h2, h3, _⟩ := tickFront_stage env inp w
  rw [h2, h3]
  exact ⟨(advanceVanishingClock_stage _).1, (advanceVanishingClock_stage _).2.1⟩

end FallingBlock

section DispatchBodies

variable (env : Env Tile) (inp : TickInput) (w : World Tile)

/-- What the linked-platform cascade does to the body at an index: nothing, or a solid or
one-way platform collapses to `none`, or a body of type `none` takes its authored type, or
a body that is neither `none` nor portal becomes a portal. The id stays. -/
theorem cascadeLinked_body (st : ActiveInteractiblePlatform) (i : Nat) (bm : PlatformBody)
    (h : w.bodies[i]? = some bm) :
    ∃ b', (cascadeLinked env st w).bodies[i]? = some b' ∧ b'.id = bm.id ∧
      (b' = bm ∨
       ((bm.type = bodyType.solid ∨ bm.type = bodyType.platform) ∧ b'.type = bodyType.none) ∨
       (bm.type = bodyType.none ∧ b'.type = originalLinkedType w.currentLevelData bm.id) ∨
       (bm.type ≠ bodyType.none ∧ bm.type ≠ bodyType.solid ∧ bm.type ≠ bodyType.platform ∧
         b'.type = bodyType.portal)) := by
  have hi : i < w.bodies.length := (List.getElem?_eq_some.mp h).1
  unfold cascadeLinked
  split
  · split
    · exact ⟨bm, h, rfl, Or.inl rfl⟩
    · rename_i idx _
      split
      · exact ⟨bm, h, rfl, Or.inl rfl⟩
      · rename_i linked hl
        by_cases hidx : idx = i
        · subst hidx
          have e : linked = bm := Option.some.inj (hl.symm.trans h)
          subst e
          unfold cascadeOn
          split_ifs with h1 h2 h3 h4 h5
          · exact ⟨_, List.getElem?_set_self hi, rfl, Or.inr (Or.inl ⟨h1, rfl⟩)⟩
          · exact ⟨_, List.getElem?_set_self hi, rfl, Or.inr (Or.inr (Or.inl ⟨h2, rfl⟩))⟩
          · exact ⟨linked, h, rfl, Or.inl rfl⟩
          · exact ⟨_, List.getElem?_set_self hi, rfl, Or.inr (Or.inr (Or.inr
              ⟨h2, fun e => h1 (Or.inl e), fun e => h1 (Or.inr e), rfl⟩))⟩
          · exact ⟨linked, h, rfl, Or.inl rfl⟩
          · exact ⟨linked, h, rfl, Or.inl rfl⟩
        · unfold cascadeOn
          split_ifs
          all_goals first
            | exact ⟨bm, h, rfl, Or.inl rfl⟩
            | exact ⟨bm, (List.getElem?_set_ne hidx).trans h, rfl, Or.inl rfl⟩
  · exact ⟨bm, h, rfl, Or.inl rfl⟩

/-- What the "changeSelf" effect at index `k` does to the body at another index: what the
cascade does. -/
theorem changeSelf_body_other (k key : Nat) (st : ActiveInteractiblePlatform) (i : Nat)
    (bm : PlatformBody) (h : w.bodies[i]? = some bm) (hik : k ≠ i) :
    ∃ b', (changeSelf env k key st w).bodies[i]? = some b' ∧ b'.id = bm.id ∧
      (b' = bm ∨
       ((bm.type = bodyType.solid ∨ bm.type = bodyType.platform) ∧ b'.type = bodyType.none) ∨
       (bm.type = bodyType.none ∧ b'.type = originalLinkedType w.currentLevelData bm.id) ∨
       (bm.type ≠ bodyType.none ∧ bm.type ≠ bodyType.solid ∧ bm.type ≠ bodyType.platform ∧
         b'.type = bodyType.portal)) := by
  unfold changeSelf
  simp only
  split
  · have h2 : (updateAt (updateAt w.bodies k
        (fun b => { b with type := st.targetBodyTypeEnum })) k
        (fun b => { b with position := offStageInteract }))[i]? = some bm := by
      rw [updateAt_getElem?_ne _ _ _ _ hik, updateAt_getElem?_ne _ _ _ _ hik]; exact h
    exact cascadeLinked_body env _ st i bm h2
  · have h2 : (updateAt w.bodies k
        (fun b => { b with type := st.targetBodyTypeEnum }))[i]? = some bm := by
      rw [updateAt_getElem?_ne _ _ _ _ hik]; exact h
    exact cascadeLinked_body env _ st i bm h2

/-- The "changeSelf" effect keeps every body's id. -/
theorem changeSelf_body_id (k key : Nat) (st : ActiveInteractiblePlatform) (i : Nat)
    (bm : PlatformBody) (h : w.bodies[i]? = some bm) :
    ∃ b', (changeSelf env k key st w).bodies[i]? = some b' ∧ b'.id = bm.id := by
  have hcas : ∀ (v : World Tile) (b1 : PlatformBody), v.bodies[i]? = some b1 → b1.id = bm.id →
      ∃ b', (cascadeLinked env st v).bodies[i]? = some b' ∧ b'.id = bm.id := by
    intro v b1 hv hid
    obtain ⟨b', hb', hid', _⟩ := cascadeLinked_body env v st i b1 hv
    exact ⟨b', hb', hid'.trans hid⟩
  by_cases hik : k = i
  · subst hik
    unfold changeSelf
    simp only
    split
    · have h2 : (updateAt (updateAt w.bodies k
          (fun b => { b with type := st.targetBodyTypeEnum })) k
          (fun b => { b with position := offStageInteract }))[k]?
            = some { bm with type := st.targetBodyTypeEnum, position := offStageInteract } := by
        rw [updateAt_getElem?_self, updateAt_getElem?_self, h]; rfl
      exact hcas _ _ h2 rfl
    · have h2 : (updateAt w.bodies k
          (fun b => { b with type := st.targetBodyTypeEnum }))[k]?
            = some { bm with type := st.targetBodyTypeEnum } := by
        rw [updateAt_getElem?_self, h]; rfl
      exact hcas _ _ h2 rfl
  · obtain ⟨b', hb', hid, _⟩ := changeSelf_body_other env w k key st i bm h hik
    exact ⟨b', hb', hid⟩

/-- What the interaction dispatch does to the body at an index: nothing; or the body was a
live interactible; or one of the three effects of the cascade. The id stays. -/
theorem interactionDispatch_body (i : Nat) (bm : PlatformBody) (h : w.bodies[i]? = some bm) :
    ∃ b', (interactionDispatch env inp w).bodies[i]? = some b' ∧ b'.id = bm.id ∧
      (b' = bm ∨ bm.type = bodyType.interactible ∨
       ((bm.type = bodyType.solid ∨ bm.type = bodyType.platform) ∧ b'.type = bodyType.none) ∨
       (bm.type = bodyType.none ∧ b'.type = originalLinkedType w.currentLevelData bm.id) ∨
       (bm.type ≠ bodyType.none ∧ bm.type ≠ bodyType.solid ∧ bm.type ≠ bodyType.platform ∧
         b'.type = bodyType.portal)) := by
  unfold interactionDispatch
  split_ifs
  · exact ⟨bm, by rw [(goalReached_frame inp w).2.1]; exact h, rfl, Or.inl rfl⟩
  · split
    · exact ⟨bm, h, rfl, Or.inl rfl⟩
    · unfold interactibleDispatch
      split
      · exact ⟨bm, h, rfl, Or.inl rfl⟩
      · rename_i k _
        split
        · rename_i st b hst hb
          by_cases hik : k = i
          · subst hik
            obtain ⟨b0, hb0, hty, _⟩ := activatable_some w k st hst
            have e : b0 = bm := Option.some.inj (hb0.symm.trans h)
            subst e
            obtain ⟨b', hb', hid⟩ := changeSelf_body_id env w k b.id st k b0 h
            exact ⟨b', hb', hid, Or.inr (Or.inl hty)⟩
          · obtain ⟨b', hb', hid, hc⟩ := changeSelf_body_other env w k b.id st i bm h hik
            exact ⟨b', hb', hid, hc.elim Or.inl (fun r => Or.inr (Or.inr r))⟩
        · exact ⟨bm, h, rfl, Or.inl rfl⟩
  · exact ⟨bm, h, rfl, Or.inl rfl⟩

/-- The tail of the tick changes bodies only by the interaction dispatch. -/
theorem tickTail_bodies :
    (tickTail env inp w).1.bodies = w.bodies ∨
    (tickTail env inp w).1.bodies = (interactionDispatch env inp w).bodies := by
  unfold tickTail
  split_ifs
  · left; rfl
  · right; exact fallDeath_bodies _

end DispatchBodies

section PlayerThroughBlocks

variable (env : Env Tile) (inp : TickInput) (w : World Tile)

theorem tickFront_eq :
    tickFront env inp w
      = postCollision (afterCollision env inp w).2.hitCeiling (afterCollision env inp w).1 := rfl

theorem groundKeptOrCleared_refl (p : DynamicBody) : GroundKeptOrCleared p p := Or.inl rfl

theorem groundKeptOrCleared_trans {p q r : DynamicBody} (h1 : GroundKeptOrCleared p q)
    (h2 : GroundKeptOrCleared q r) : GroundKeptOrCleared p r := by
  rcases h1 with h1 | h1 <;> rcases h2 with h2 | h2 <;> subst h1 <;> subst h2
  · exact Or.inl rfl
  · exact Or.inr rfl
  · exact Or.inr rfl
  · exact Or.inr rfl

theorem clearGroundIf_keptOrCleared (p : DynamicBody) (i : Nat) :
    GroundKeptOrCleared p (clearGroundIf p i) := by
  unfold clearGroundIf
  split
  · exact Or.inr rfl
  · exact Or.inl rfl

/-- One iteration of the platform-state loop leaves the player body as it was or clears its
ground contact through `clearGroundIf` for its own index. -/
theorem updatePlatformState_player (i : Nat) :
    (updatePlatformState env w i).playerBody = w.playerBody ∨
    (updatePlatformState env w i).playerBody = clearGroundIf w.playerBody i := by
  unfold updatePlatformState
  split
  · split
    · exact Or.inl rfl
    · split_ifs
      · simp only [fallingStep]
        split_ifs
        all_goals first
          | exact Or.inr rfl
          | exact Or.inl rfl
      · simp only [vanishingStep]
        split_ifs
        all_goals first
          | exact Or.inr rfl
          | exact Or.inl rfl
      · exact Or.inl rfl
  · exact Or.inl rfl

theorem platformLoopUpTo_player (n : Nat) :
    GroundKeptOrCleared w.playerBody (platformLoopUpTo env w n).playerBody := by
  induction n with
  | zero => exact Or.inl rfl
  | succ n ih =>
    rw [platformLoopUpTo_succ]
    refine groundKeptOrCleared_trans ih ?_
    rcases updatePlatformState_player env (platformLoopUpTo env w n) n with h | h
    · rw [h]; exact Or.inl rfl
    · rw [h]; exact clearGroundIf_keptOrCleared _ _

/-- While the loop has not reached the index the ground reference points at, it leaves the
player body as it was. -/
theorem platformLoopUpTo_player_before (i : Nat) (hg : w.playerBody.groundPlatform = some i)
    (n : Nat) (hn : n ≤ i) : (platformLoopUpTo env w n).playerBody = w.playerBody := by
  induction n with
  | zero => rfl
  | succ n ih =>
    rw [platformLoopUpTo_succ]
    have ih' := ih (by omega)
    rcases updatePlatformState_player env (platformLoopUpTo env w n) n with h | h
    · rw [h]; exact ih'
    · rw [h, ih']
      have hne : ¬ w.playerBody.groundPlatform = some n := by
        rw [hg]; intro e; have := Option.some.inj e; omega
      simp [clearGroundIf, hne]

/-- A cleared ground contact stays cleared through the rest of the loop. -/
theorem platformLoopUpTo_player_cleared (m : Nat)
    (hc : (platformLoopUpTo env w m).playerBody.onGround = false ∧
      (platformLoopUpTo env w m).playerBody.groundPlatform = none) (n : Nat) (hn : m ≤ n) :
    (platformLoopUpTo env w n).playerBody.onGround = false ∧
    (platformLoopUpTo env w n).playerBody.groundPlatform = none := by
  induction n with
  | zero =>
    have : m = 0 := by omega
    subst this; exact hc
  | succ n ih =>
    by_cases hmn : m = n + 1
    · subst hmn; exact hc
    · have ih' := ih (by omega)
      rw [platformLoopUpTo_succ]
      rcases updatePlatformState_player env (platformLoopUpTo env w n) n with h | h
      · rw [h]; exact ih'
      · rw [h]; exact clearGroundIf_keeps_cleared _ _ ih'

/-- At the velocity update the player body is the one the tick started with, up to the
last-position and drop-request fields set by the start of the tick, or that one with its
ground contact cleared by the platform blocks. -/
theorem atVelocityUpdate_player :
    GroundKeptOrCleared (beginTick inp w).playerBody (atVelocityUpdate env inp w).playerBody := by
  have h := platformLoopUpTo_player env
    (updateInteractibleCooldowns (updateMovingPlatforms env (beginTick inp w)))
    (updateInteractibleCooldowns (updateMovingPlatforms env (beginTick inp w))).bodies.length
  have e : (atVelocityUpdate env inp w).playerBody = (afterPlatformBlocks env inp w).playerBody := by
    simp only [atVelocityUpdate, advanceVanishingClock]
    split_ifs <;> rfl
  rw [e]
  exact h

theorem atVelocityUpdate_kinematics :
    (atVelocityUpdate env inp w).playerBody.velocity = w.playerBody.velocity ∧
    (atVelocityUpdate env inp w).playerBody.position = w.playerBody.position ∧
    (atVelocityUpdate env inp w).playerBody.width = w.playerBody.width ∧
    (atVelocityUpdate env inp w).playerBody.height = w.playerBody.height := by
  rcases atVelocityUpdate_player env inp w with h | h <;> rw [h] <;> exact ⟨rfl, rfl, rfl, rfl⟩

/-- The blocks before the velocity update leave the jump-hold timer alone and set the turbo
factor from the shift key. -/
theorem atVelocityUpdate_hold :
    (atVelocityUpdate env inp w).currentJumpHoldDuration = w.currentJumpHoldDuration ∧
    (atVelocityUpdate env inp w).turboMultiplier = (if inp.shiftHeld = true then 2 else 1) := by
  have h := platformLoopUpTo_statics env
    (updateInteractibleCooldowns (updateMovingPlatforms env (beginTick inp w)))
    (updateInteractibleCooldowns (updateMovingPlatforms env (beginTick inp w))).bodies.length
  obtain ⟨_, _, _, _, _, _, h7, h8, _⟩ := h
  have e : (atVelocityUpdate env inp w).currentJumpHoldDuration
        = (afterPlatformBlocks env inp w).currentJumpHoldDuration ∧
      (atVelocityUpdate env inp w).turboMultiplier
        = (afterPlatformBlocks env inp w).turboMultiplier := by
    simp only [atVelocityUpdate, advanceVanishingClock]
    split <;> exact ⟨rfl, rfl⟩
  rw [e.1, e.2]
  exact ⟨h7, h8⟩

theorem atVelocityUpdate_bodies :
    (atVelocityUpdate env inp w).bodies = (afterPlatformBlocks env inp w).bodies ∧
    (atVelocityUpdate env inp w).tiles = (afterPlatformBlocks env inp w).tiles ∧
    (atVelocityUpdate env inp w).activeMovingPlatforms
      = (afterPlatformBlocks env inp w).activeMovingPlatforms := by
  simp only [atVelocityUpdate, advanceVanishingClock]
  split_ifs <;> exact ⟨rfl, rfl, rfl⟩

end PlayerThroughBlocks

section TailPlayer

variable (env : Env Tile) (inp : TickInput) (w : World Tile)

theorem cascadeLinked_player (st : ActiveInteractiblePlatform) :
    GroundKeptOrCleared w.playerBody (cascadeLinked env st w).playerBody ∧
    (cascadeLinked env st w).currentJumpHoldDuration = w.currentJumpHoldDuration := by
  unfold cascadeLinked
  split
  · split
    · exact ⟨Or.inl rfl, rfl⟩
    · split
      · exact ⟨Or.inl rfl, rfl⟩
      · unfold cascadeOn
        split_ifs
        · exact ⟨clearGroundIf_keptOrCleared _ _, rfl⟩
        all_goals exact ⟨Or.inl rfl, rfl⟩
  · exact ⟨Or.inl rfl, rfl⟩

theorem changeSelf_player (k key : Nat) (st : ActiveInteractiblePlatform) :
    GroundKeptOrCleared w.playerBody (changeSelf env k key st w).playerBody ∧
    (changeSelf env k key st w).currentJumpHoldDuration = w.currentJumpHoldDuration := by
  unfold changeSelf
  simp only
  constructor
  · refine groundKeptOrCleared_trans ?_ (cascadeLinked_player env _ st).1
    split
    · exact clearGroundIf_keptOrCleared _ _
    · exact Or.inl rfl
  · rw [(cascadeLinked_player env _ st).2]; split <;> rfl

theorem interactibleDispatch_player :
    GroundKeptOrCleared w.playerBody (interactibleDispatch env w).playerBody ∧
    (interactibleDispatch env w).currentJumpHoldDuration = w.currentJumpHoldDuration := by
  unfold interactibleDispatch
  split
  · exact ⟨Or.inl rfl, rfl⟩
  · split
    · exact changeSelf_player env w _ _ _
    · exact ⟨Or.inl rfl, rfl⟩

/-- The tail of the tick leaves the jump-hold timer alone; it leaves the player body as it
was, or clears its ground contact (an activation), or teleports it. -/
theorem tickTail_player :
    (GroundKeptOrCleared w.playerBody (tickTail env inp w).1.playerBody ∨
      ∃ S T, (tickTail env inp w).1.playerBody = teleportPlayer w.playerBody S T) ∧
    (tickTail env inp w).1.currentJumpHoldDuration = w.currentJumpHoldDuration := by
  unfold tickTail
  split_ifs
  · exact ⟨Or.inl (Or.inl rfl), rfl⟩
  · have hf : ∀ v : World Tile, (fallDeath v).1.playerBody = v.playerBody ∧
        (fallDeath v).1.currentJumpHoldDuration = v.currentJumpHoldDuration := by
      intro v; unfold fallDeath; split <;> exact ⟨rfl, rfl⟩
    rw [(hf _).1, (hf _).2]
    unfold interactionDispatch
    split_ifs
    · simp only [goalReached]
      split_ifs <;> exact ⟨Or.inl (Or.inl rfl), rfl⟩
    · split
      · rename_i S T _
        exact ⟨Or.inr ⟨S, T, rfl⟩, rfl⟩
      · exact ⟨Or.inl (interactibleDispatch_player env w).1, (interactibleDispatch_player env w).2⟩
    · exact ⟨Or.inl (Or.inl rfl), rfl⟩

/-- Over the tail of the tick the vertical velocity stays, or a teleport sets the velocity
to zero; a cleared ground contact stays cleared. -/
theorem tickTail_velocity_ground :
    ((tickTail env inp w).1.playerBody.velocity = w.playerBody.velocity ∨
      (tickTail env inp w).1.playerBody.velocity = ⟨0, 0⟩) ∧
    (w.playerBody.onGround = false ∧ w.playerBody.groundPlatform = none →
      (tickTail env inp w).1.playerBody.onGround = false ∧
      (tickTail env inp w).1.playerBody.groundPlatform = none) := by
  rcases (tickTail_player env inp w).1 with (h | h) | ⟨S, T, h⟩
  · rw [h]; exact ⟨Or.inl rfl, fun hc => hc⟩
  · rw [h]; exact ⟨Or.inl rfl, fun _ => ⟨rfl, rfl⟩⟩
  · rw [h]; exact ⟨Or.inr rfl, fun hc => hc⟩

end TailPlayer

section PostCollision

variable (w : World Tile)

/-- The post-collision block is the ground effects followed by the ceiling-hit block. -/
theorem postCollision_eq (hitCeiling : Bool) :
    postCollision hitCeiling w =
      if hitCeiling = true ∧ (groundEffects w).2 < 0 then
        { (groundEffects w).1 with
          playerBody := { (groundEffects w).1.playerBody with
            velocity := ⟨w.playerBody.velocity.x, 0⟩ }
          currentJumpHoldDuration := MAX_JUMP_HOLD_TIME }
      else
        { (groundEffects w).1 with
          playerBody := { (groundEffects w).1.playerBody with
            velocity := ⟨w.playerBody.velocity.x, (groundEffects w).2⟩ } } := rfl

theorem groundBody_some_ground (pf : PlatformBody) (h : groundBody w = some pf) :
    ∃ g, w.playerBody.groundPlatform = some g ∧ w.bodies[g]? = some pf := by
  unfold groundBody at h
  split at h
  · exact absurd h (by simp)
  · rename_i g hg; exact ⟨g, hg, h⟩

/-- On a spring the ground effects clear the ground contact, zero the hold timer and leave
the spring launch value as vertical velocity. -/
theorem groundEffects_spring (pf : PlatformBody) (hog : w.playerBody.onGround = true)
    (hgb : groundBody w = some pf) (hty : pf.type = bodyType.spring) :
    groundEffects w =
      ({ w with
          currentJumpHoldDuration := 0
          playerBody := { w.playerBody with onGround := false, groundPlatform := none } },
       SPRING_BOUNCE_VELOCITY) := by
  obtain ⟨g, hg, _⟩ := groundBody_some_ground w pf hgb
  simp [groundEffects, hog, hg, hgb, hty]

/-- On a moving platform the ground effects add the carry to the player's position. -/
theorem groundEffects_moving (pf : PlatformBody) (hog : w.playerBody.onGround = true)
    (hgb : groundBody w = some pf) (hty : pf.type = bodyType.moving) :
    groundEffects w =
      ({ w with
          currentJumpHoldDuration := 0
          playerBody := { w.playerBody with
            position := w.playerBody.position + movingCarry w pf } },
       w.playerBody.velocity.y) := by
  obtain ⟨g, hg, _⟩ := groundBody_some_ground w pf hgb
  simp [groundEffects, hog, hg, hgb, hty]

/-- The local `pVel.y` after the ground effects is the resolved vertical velocity or the
spring launch value. -/
theorem groundEffects_y :
    (groundEffects w).2 = w.playerBody.velocity.y ∨
    (groundEffects w).2 = SPRING_BOUNCE_VELOCITY := by
  unfold groundEffects
  simp only
  repeat' split
  all_goals first
    | exact Or.inl rfl
    | exact Or.inr rfl

/-- A ceiling hit with an upward velocity zeroes the vertical velocity and puts the hold
timer at its maximum. -/
theorem postCollision_ceiling (hv : w.playerBody.velocity.y < 0) :
    (postCollision true w).playerBody.velocity.y = 0 ∧
    (postCollision true w).currentJumpHoldDuration = MAX_JUMP_HOLD_TIME := by
  have hy : (groundEffects w).2 < 0 := by
    rcases groundEffects_y w with h | h
    · rw [h]; exact hv
    · rw [h]; norm_num [SPRING_BOUNCE_VELOCITY, JUMP_INITIAL_VELOCITY]
  rw [postCollision_eq]
  simp [hy]

end PostCollision

section HoldWindow

variable (env : Env Tile) (inp : TickInput) (w : World Tile)

/-- With the hold timer at its maximum and no new jump, the velocity update resets the hold
timer and leaves the vertical velocity to gravity; started from a vertical velocity of 0 the
result is not the jump initial velocity. -/
theorem new_jump_like (hn : newJumpPressThisFrame inp w = false)
    (hh : w.currentJumpHoldDuration = 180000) :
    (afterVelocityUpdate env inp w).currentJumpHoldDuration = 0 ∧
    ((afterVelocityUpdate env inp w).playerBody.velocity.y =
      (if (atVelocityUpdate env inp w).playerBody.onGround = false then
        min (w.playerBody.velocity.y + 1200 * fixed_dt_seconds) 700
      else w.playerBody.velocity.y)) := by
  have h1 := (atVelocityUpdate_hold env inp w).1
  have h2 := (atVelocityUpdate_kinematics env inp w).1
  simp only [afterVelocityUpdate, velocityUpdate, hn, h1, hh, h2, MAX_JUMP_HOLD_TIME,
    GRAVITY_ACCELERATION, MAX_FALL_SPEED]
  simp

/-- The vertical velocity after the velocity update is the one gravity alone gives (gravity
is added only when the player is not on ground at the update) or the jump initial
velocity. -/
theorem afterVelocityUpdate_y :
    (afterVelocityUpdate env inp w).playerBody.velocity.y =
      (if (atVelocityUpdate env inp w).playerBody.onGround = false then
        min (w.playerBody.velocity.y + 1200 * fixed_dt_seconds) 700
      else w.playerBody.velocity.y) ∨
    (afterVelocityUpdate env inp w).playerBody.velocity.y = -450 := by
  have hv := (atVelocityUpdate_kinematics env inp w).1
  simp only [afterVelocityUpdate, velocityUpdate, hv, GRAVITY_ACCELERATION,
    MAX_FALL_SPEED, JUMP_INITIAL_VELOCITY]
  split_ifs <;> simp

end HoldWindow

section FallCompletion

variable (env : Env Tile) (inp : TickInput) (w : World Tile)

/-- The platform blocks of a tick in which the tile of a body with template `falling`
reports `hasFallen` while the body's live type is not `none`: if the player's ground
reference was this body, the ground contact is cleared when the blocks are done. -/
theorem afterPlatformBlocks_falling_clears (i : Nat) (b templ : PlatformBody) (tm : Tile)
    (hb : w.bodies[i]? = some b) (ht : i < w.tiles.length)
    (hT : findTemplate w.currentLevelData b.id = some templ)
    (hTy : templ.type = bodyType.falling) (hlive : b.type ≠ bodyType.none)
    (htm : (afterPlatformBlocks env inp w).tiles[i]? = some tm)
    (hfallen : env.tile.hasFallen tm = true)
    (hg : w.playerBody.groundPlatform = some i) :
    (afterPlatformBlocks env inp w).playerBody.onGround = false ∧
    (afterPlatformBlocks env inp w).playerBody.groundPlatform = none := by
  obtain ⟨⟨b2, hb2, e1, e2, _⟩, hl⟩ := updateMovingPlatforms_body env (beginTick inp w) i b hb
  have hb3 : (updateInteractibleCooldowns (updateMovingPlatforms env (beginTick inp w))).bodies[i]?
      = some b2 := hb2
  have ht3 : i < (updateInteractibleCooldowns
      (updateMovingPlatforms env (beginTick inp w))).tiles.length := by
    show i < (updateMovingPlatforms env (beginTick inp w)).tiles.length
    rw [hl]; exact ht
  have hg3 : (updateInteractibleCooldowns
      (updateMovingPlatforms env (beginTick inp w))).playerBody.groundPlatform = some i := hg
  obtain ⟨hs, hvb, hvt, _, hrest⟩ := updatePlatformStates_at env _ i b2 hb3
  obtain ⟨t, htile⟩ : ∃ t, (platformLoopUpTo env (updateInteractibleCooldowns
      (updateMovingPlatforms env (beginTick inp w))) i).tiles[i]? = some t := by
    rw [hvt]; exact ⟨_, List.getElem?_eq_getElem ht3⟩
  have hT' : findTemplate (platformLoopUpTo env (updateInteractibleCooldowns
      (updateMovingPlatforms env (beginTick inp w))) i).currentLevelData b2.id = some templ := by
    rw [hs.2.1, e1]; exact hT
  have hi' := (List.getElem?_eq_some.mp hvb).1
  have ht' := (List.getElem?_eq_some.mp htile).1
  have hpl := platformLoopUpTo_player_before env _ i hg3 i (le_refl i)
  -- the tile this iteration leaves is the tile the blocks end with
  have hstep : updatePlatformState env (platformLoopUpTo env (updateInteractibleCooldowns
      (updateMovingPlatforms env (beginTick inp w))) i) i
      = fallingStep env i b2 t (platformLoopUpTo env (updateInteractibleCooldowns
      (updateMovingPlatforms env (beginTick inp w))) i) := by
    simp only [updatePlatformState, hvb, htile, hT', hTy, if_true]
  obtain ⟨_, _, h2, _, _⟩ := fallingStep_at env _ i b2 t hi' ht'
  have htm2 : fallingTile env i b2 t (platformLoopUpTo env (updateInteractibleCooldowns
      (updateMovingPlatforms env (beginTick inp w))) i) = tm := by
    have : (afterPlatformBlocks env inp w).tiles[i]? = some (fallingTile env i b2 t
        (platformLoopUpTo env (updateInteractibleCooldowns
          (updateMovingPlatforms env (beginTick inp w))) i)) := by
      unfold afterPlatformBlocks
      rw [hrest, hstep]; exact h2
    exact Option.some.inj (this.symm.trans htm)
  have hcl : (platformLoopUpTo env (updateInteractibleCooldowns
      (updateMovingPlatforms env (beginTick inp w))) (i + 1)).playerBody.onGround = false ∧
      (platformLoopUpTo env (updateInteractibleCooldowns
      (updateMovingPlatforms env (beginTick inp w))) (i + 1)).playerBody.groundPlatform
        = none := by
    rw [platformLoopUpTo_succ, hstep]
    have hb2ty : b2.type ≠ bodyType.none := by rw [e2]; exact hlive
    have hf : env.tile.hasFallen (fallingTile env i b2 t (platformLoopUpTo env
        (updateInteractibleCooldowns (updateMovingPlatforms env (beginTick inp w))) i))
        = true := by rw [htm2]; exact hfallen
    have hgv : (platformLoopUpTo env (updateInteractibleCooldowns
        (updateMovingPlatforms env (beginTick inp w))) i).playerBody.groundPlatform
        = some i := by rw [hpl]; exact hg3
    exact (hiding_steps_clear_ground env _ i b2 t hgv).1 hb2ty hf
  have hi3 : i < (updateInteractibleCooldowns
      (updateMovingPlatforms env (beginTick inp w))).bodies.length :=
    (List.getElem?_eq_some.mp hb3).1
  exact platformLoopUpTo_player_cleared env _ (i + 1) hcl _ hi3

end FallCompletion

section CascadeToggle

/-- Replacing an element by one on which the predicate has the same value does not change
the first index at which the predicate holds. -/
theorem firstIdx_set {α : Type} (p : α → Bool) (a : α) :
    ∀ (l : List α) (i : Nat), (∀ b, l[i]? = some b → p a = p b) →
      firstIdx p (l.set i a) = firstIdx p l := by
  intro l
  induction l with
  | nil => intro i _; rfl
  | cons x xs ih =>
    intro i h
    cases i with
    | zero =>
      have e : p a = p x := h x (by simp)
      simp [firstIdx, e]
    | succ j =>
      have hj : ∀ b, xs[j]? = some b → p a = p b := fun b hb => h b (by simpa using hb)
      simp [firstIdx, ih j hj]

/-- With a non-zero linked id whose first body is found at `idx`, the cascade is the
three-way toggle on that body. -/
theorem cascadeLinked_eq_cascadeOn {Tile : Type} (env : Env Tile)
    (st : ActiveInteractiblePlatform) (v : World Tile) (idx : Nat) (linked : PlatformBody)
    (hl : st.linkedID ≠ 0) (hidx : findBodyIdx st.linkedID v.bodies = some idx)
    (hb : v.bodies[idx]? = some linked) :
    cascadeLinked env st v = cascadeOn env st idx linked v := by
  simp [cascadeLinked, hl, hidx, hb]

end CascadeToggle

section ActivationLiveness

variable (env : Env Tile) (inp : TickInput) (w : World Tile)

theorem find_range_first (p : Nat → Bool) (n k : Nat) (hk : k < n) (hp : p k = true)
    (hfirst : ∀ j, j < k → p j = false) : (List.range n).find? p = some k := by
  induction n with
  | zero => omega
  | succ n ih =>
    rw [List.range_succ, List.find?_append]
    by_cases hkn : k < n
    · rw [ih hkn]; rfl
    · have e : k = n := by omega
      subst e
      have hnone : (List.range k).find? p = none := by
        rw [List.find?_eq_none]
        intro x hx
        rw [List.mem_range] at hx
        simp [hfirst x hx]
      rw [hnone]
      simp [List.find?, hp]

/-- The guard of the interactible loop passes at an index whose body is a live interactible
overlapping the player and whose record is idle, not spent, and of kind "changeSelf". -/
theorem activatable_of (k : Nat) (b : PlatformBody) (st : ActiveInteractiblePlatform)
    (hb : w.bodies[k]? = some b) (hty : b.type = bodyType.interactible)
    (hov : w.playerBody.getAABB.intersects b.getAABB = true)
    (hrec : w.activeInteractibles b.id = some st) (hcd : ¬ st.currentCooldownTimer > 0)
    (hsp : ¬ (st.oneTime = true ∧ st.hasBeenInteractedThisSession = true))
    (hkind : st.interactionType = "changeSelf") :
    activatable w k = some st := by
  unfold activatable
  simp only [hb]
  have h1 : b.type ≠ bodyType.goal ∧ b.type ≠ bodyType.portal ∧
      b.type = bodyType.interactible ∧ w.playerBody.getAABB.intersects b.getAABB = true := by
    refine ⟨?_, ?_, hty, hov⟩ <;> rw [hty] <;> decide
  rw [if_pos h1]
  simp only [hrec]
  rw [if_neg (by rintro (h | h); exact hcd h; exact hsp h), if_pos hkind]

/-- The key the interactible loop reports is the id of a body whose guard passed. -/
theorem activatedByLoop_some (key : Nat) (h : activatedByLoop w = some key) :
    ∃ k b st, w.bodies[k]? = some b ∧ b.id = key ∧ activatable w k = some st := by
  unfold activatedByLoop at h
  split at h
  · exact absurd h (by simp)
  · rename_i k hk
    have hsome := List.find?_some hk
    obtain ⟨st, hst⟩ := Option.isSome_iff_exists.mp hsome
    obtain ⟨b, hb, _⟩ := activatable_some w k st hst
    rw [hb] at h
    exact ⟨k, b, st, hb, Option.some.inj h, hst⟩

theorem sameConfig_refl (a : ActiveInteractiblePlatform) : SameConfig a a :=
  ⟨rfl, rfl, rfl, rfl, rfl, rfl⟩

theorem sameConfig_trans {a b c : ActiveInteractiblePlatform} (h1 : SameConfig a b)
    (h2 : SameConfig b c) : SameConfig a c := by
  unfold SameConfig at h1 h2 ⊢
  refine ⟨?_, ?_, ?_, ?_, ?_, ?_⟩
  · rw [h2.1, h1.1]
  · rw [h2.2.1, h1.2.1]
  · rw [h2.2.2.1, h1.2.2.1]
  · rw [h2.2.2.2.1, h1.2.2.2.1]
  · rw [h2.2.2.2.2.1, h1.2.2.2.2.1]
  · rw [h2.2.2.2.2.2, h1.2.2.2.2.2]

theorem sameConfig_updateCooldown (a : ActiveInteractiblePlatform) :
    SameConfig a (updateCooldown a) := by
  unfold updateCooldown; split <;> exact ⟨rfl, rfl, rfl, rfl, rfl, rfl⟩

theorem sameConfig_markActivated (a : ActiveInteractiblePlatform) :
    SameConfig a (markActivated a) := by
  unfold markActivated; split <;> exact ⟨rfl, rfl, rfl, rfl, rfl, rfl⟩

/-- A tick keeps every interaction record, with its configuration. -/
theorem sameConfig_tick (key : Nat) (st : ActiveInteractiblePlatform)
    (hrec : w.activeInteractibles key = some st) :
    ∃ st1, (tick env inp w).1.activeInteractibles key = some st1 ∧ SameConfig st st1 := by
  have hfront : (tickFront env inp w).activeInteractibles key = some (updateCooldown st) := by
    rw [tickFront_activeInteractibles]; simp only [hrec]; rfl
  rcases tick_activeInteractibles env inp w with ⟨_, he⟩ | ⟨key1, st1, _, hrec1, _, _, he⟩
  · exact ⟨_, by rw [he]; exact hfront, sameConfig_updateCooldown st⟩
  · by_cases hkk : key1 = key
    · subst hkk
      rw [hfront] at hrec1
      have e : updateCooldown st = st1 := Option.some.inj hrec1
      subst e
      exact ⟨_, by rw [he, Function.update_same],
        sameConfig_trans (sameConfig_updateCooldown st) (sameConfig_markActivated _)⟩
    · exact ⟨_, by rw [he, Function.update_noteq (Ne.symm hkk)]; exact hfront,
        sameConfig_updateCooldown st⟩

theorem sameConfig_runTicks (key : Nat) (inps : List TickInput) :
    ∀ (w : World Tile) (st : ActiveInteractiblePlatform),
      w.activeInteractibles key = some st →
      ∃ st1, (runTicks env inps w).activeInteractibles key = some st1 ∧ SameConfig st st1 := by
  induction inps with
  | nil => intro w st h; exact ⟨st, h, sameConfig_refl st⟩
  | cons inp rest ih =>
    intro w st h
    obtain ⟨st1, h1, c1⟩ := sameConfig_tick env inp w key st h
    obtain ⟨st2, h2, c2⟩ := ih _ st1 h1
    exact ⟨st2, h2, sameConfig_trans c1 c2⟩

/-- A tick activates the record under `key` only through a body with that id whose live
type is interactible and which the player overlaps when the dispatch runs. -/
theorem activation_needs_live_interactible (key : Nat)
    (h : activatedKey env inp w = some key) :
    ∃ (k : Nat) (b : PlatformBody), (tickFront env inp w).bodies[k]? = some b ∧ b.id = key ∧
      b.type = bodyType.interactible ∧
      (tickFront env inp w).playerBody.getAABB.intersects b.getAABB = true := by
  unfold activatedKey at h
  split_ifs at h
  cases hP : portalScan (tickFront env inp w).playerBody (tickFront env inp w).bodies
      (tickFront env inp w).bodies with
  | some p => rw [hP] at h; exact absurd h (by simp)
  | none =>
    rw [hP] at h
    obtain ⟨k, b, st, hb, hid, hst⟩ := activatedByLoop_some _ key h
    obtain ⟨b1, hb1, hty, hov, _⟩ := activatable_some _ k st hst
    rw [hb] at hb1
    have e : b = b1 := Option.some.inj hb1
    subst e
    exact ⟨k, b, hb, hid, hty, hov⟩

/-- A tick with interact pressed that reaches the interactible loop activates the record
of the first body whose guard passes. -/
theorem activation_of_first (k : Nat) (b : PlatformBody) (st : ActiveInteractiblePlatform)
    (htrap : trapHit (tickFront env inp w) = false)
    (hE : inp.interactKeyPressedThisFrame = true)
    (hgoal : goalOverlap (tickFront env inp w) = false)
    (hportal : portalScan (tickFront env inp w).playerBody (tickFront env inp w).bodies
      (tickFront env inp w).bodies = none)
    (hb : (tickFront env inp w).bodies[k]? = some b)
    (hst : activatable (tickFront env inp w) k = some st)
    (hfirst : ∀ j, j < k → activatable (tickFront env inp w) j = none) :
    activatedKey env inp w = some b.id := by
  unfold activatedKey
  simp only [htrap, hE, hgoal, hportal, if_true, if_false, Bool.false_eq_true]
  unfold activatedByLoop
  have hk : k < (tickFront env inp w).bodies.length := (List.getElem?_eq_some.mp hb).1
  rw [find_range_first (fun k => (activatable (tickFront env inp w) k).isSome) _ k hk
    (by simp [hst]) (fun j hj => by simp [hfirst j hj])]
  simp [hb]

end ActivationLiveness

section MovingCarry

variable (env : Env Tile) (inp : TickInput) (w : World Tile)

/-- The scan finds the only index at which the predicate holds. -/
theorem firstIdx_unique {α : Type} (p : α → Bool) :
    ∀ (l : List α) (g : Nat) (a : α), l[g]? = some a → p a = true →
      (∀ j b, l[j]? = some b → p b = true → j = g) → firstIdx p l = some g := by
  intro l
  induction l with
  | nil => intro g a h; simp at h
  | cons x xs ih =>
    intro g a h hp huniq
    by_cases hx : p x = true
    · have e : 0 = g := huniq 0 x (by simp) hx
      subst e
      simp [firstIdx, hx]
    · cases g with
      | zero =>
        have e : x = a := by simpa using h
        subst e
        exact absurd hp hx
      | succ k =>
        have hk : xs[k]? = some a := by simpa using h
        have hu : ∀ j b, xs[j]? = some b → p b = true → j = k := by
          intro j b hj hb
          have e := huniq (j + 1) b (by simpa using hj) hb
          omega
        simp [firstIdx, hx, ih k a hk hp hu]

/-- The index the scan reports holds an element on which the predicate holds. -/
theorem firstIdx_sat {α : Type} (p : α → Bool) :
    ∀ (l : List α) (i : Nat), firstIdx p l = some i → ∃ a, l[i]? = some a ∧ p a = true := by
  intro l
  induction l with
  | nil => intro i h; simp [firstIdx] at h
  | cons x xs ih =>
    intro i h
    by_cases hx : p x = true
    · simp only [firstIdx, hx, if_true] at h
      have e : 0 = i := Option.some.inj h
      subst e
      exact ⟨x, by simp, hx⟩
    · simp only [firstIdx, hx, if_false, Bool.false_eq_true] at h
      cases hr : firstIdx p xs with
      | none => rw [hr] at h; simp at h
      | some k =>
        rw [hr] at h
        have e : k + 1 = i := Option.some.inj h
        subst e
        obtain ⟨a, ha, hpa⟩ := ih k hr
        exact ⟨a, by simpa using ha, hpa⟩

/-- Putting a body with the same id at an index leaves the list of ids as it is. -/
theorem ids_set (l : List PlatformBody) (i : Nat) (b c : PlatformBody) (h : l[i]? = some b)
    (hid : c.id = b.id) :
    (l.set i c).map (fun x => x.id) = l.map (fun x => x.id) := by
  have hi : i < l.length := (List.getElem?_eq_some.mp h).1
  apply List.ext_getElem?
  intro j
  simp only [List.getElem?_map]
  by_cases hj : i = j
  · subst hj
    rw [List.getElem?_set_self hi, h]
    simp [hid]
  · rw [List.getElem?_set_ne hj]

/-- With the same list of ids, an id found at one index only is found at that index only. -/
theorem ids_unique_transfer (l l1 : List PlatformBody) (key g : Nat)
    (hids : l1.map (fun x => x.id) = l.map (fun x => x.id))
    (huniq : ∀ j c, l[j]? = some c → c.id = key → j = g) :
    ∀ j c, l1[j]? = some c → c.id = key → j = g := by
  intro j c hj hc
  have e : (l.map (fun x => x.id))[j]? = some c.id := by
    rw [← hids, List.getElem?_map, hj]; rfl
  rw [List.getElem?_map] at e
  cases hl : l[j]? with
  | none => rw [hl] at e; simp at e
  | some b =>
    rw [hl] at e
    have e2 : b.id = c.id := by simpa using e
    exact huniq j b hl (e2.trans hc)

theorem updateMovingPlatform_ids (a : ActiveMovingPlatform) (bodies : List PlatformBody)
    (tiles : List Tile) :
    (updateMovingPlatform env a bodies tiles).2.1.map (fun x => x.id)
      = bodies.map (fun x => x.id) ∧
    (updateMovingPlatform env a bodies tiles).1.id = a.id := by
  unfold updateMovingPlatform
  split
  · exact ⟨rfl, rfl⟩
  · rename_i idx _
    split
    · exact ⟨rfl, rfl⟩
    · rename_i mb hmb
      exact ⟨ids_set bodies idx mb _ hmb rfl, rfl⟩

theorem updateMovingPlatformsLoop_ids (recs : List ActiveMovingPlatform) :
    ∀ (bodies : List PlatformBody) (tiles : List Tile),
      (updateMovingPlatformsLoop env recs bodies tiles).2.1.map (fun x => x.id)
        = bodies.map (fun x => x.id) := by
  induction recs with
  | nil => intro bodies tiles; rfl
  | cons a rest ih =>
    intro bodies tiles
    exact (ih _ _).trans (updateMovingPlatform_ids env a bodies tiles).1

/-- The iteration of a record with another id leaves the body alone. -/
theorem updateMovingPlatform_other (a : ActiveMovingPlatform) (bodies : List PlatformBody)
    (tiles : List Tile) (g : Nat) (b : PlatformBody) (h : bodies[g]? = some b)
    (hne : a.id ≠ b.id) :
    (updateMovingPlatform env a bodies tiles).2.1[g]? = some b := by
  unfold updateMovingPlatform
  split
  · exact h
  · rename_i idx hidx
    split
    · exact h
    · rename_i mb hmb
      obtain ⟨c, hc, hp⟩ := firstIdx_sat _ bodies idx hidx
      have hcid : c.id = a.id :=
      (of_decide_eq_true ((Bool.and_eq_true _ _).mp hp).1 :)
      have hidxg : idx ≠ g := by
        intro e
        subst e
        rw [h] at hc
        have e2 : b = c := Option.some.inj hc
        subst e2
        exact hne hcid.symm
      simp only
      rw [List.getElem?_set_ne hidxg]
      exact h

/-- The iteration of a record with the body's id, the body being of live type moving and
the only one with that id: the record remembers the body's position before the move. -/
theorem updateMovingPlatform_own (a : ActiveMovingPlatform) (bodies : List PlatformBody)
    (tiles : List Tile) (g : Nat) (b : PlatformBody) (h : bodies[g]? = some b)
    (hty : b.type = bodyType.moving)
    (huniq : ∀ j c, bodies[j]? = some c → c.id = b.id → j = g) (hid : a.id = b.id) :
    (updateMovingPlatform env a bodies tiles).1.lastFrameActualPosition = b.position := by
  have hidx : findMovingBodyIdx a.id bodies = some g := by
    unfold findMovingBodyIdx
    refine firstIdx_unique _ bodies g b h (by simp [hid, hty]) ?_
    intro j c hj hp
    have hcid : c.id = a.id :=
      (of_decide_eq_true ((Bool.and_eq_true _ _).mp hp).1 :)
    exact huniq j c hj (hcid.trans hid)
  unfold updateMovingPlatform
  simp only [hidx, h]

/-- After the moving-platform loop, the first record with the id of a body of live type
moving, the only body with that id, holds the position the body had before the loop. -/
theorem updateMovingPlatformsLoop_last (recs : List ActiveMovingPlatform) :
    ∀ (bodies : List PlatformBody) (tiles : List Tile) (g : Nat) (b : PlatformBody),
      bodies[g]? = some b → b.type = bodyType.moving →
      (∀ j c, bodies[j]? = some c → c.id = b.id → j = g) →
      (∃ r, r ∈ recs ∧ r.id = b.id) →
      ∃ r1, (updateMovingPlatformsLoop env recs bodies tiles).1.find?
          (fun activePlat => decide (activePlat.id = b.id)) = some r1 ∧
        r1.lastFrameActualPosition = b.position := by
  induction recs with
  | nil => intro bodies tiles g b _ _ _ hr; obtain ⟨r, hr, _⟩ := hr; simp at hr
  | cons a rest ih =>
    intro bodies tiles g b h hty huniq hr
    have hida := (updateMovingPlatform_ids env a bodies tiles).2
    by_cases hid : a.id = b.id
    · refine ⟨(updateMovingPlatform env a bodies tiles).1, ?_,
        updateMovingPlatform_own env a bodies tiles g b h hty huniq hid⟩
      simp [updateMovingPlatformsLoop, List.find?, hida, hid]
    · have hg := updateMovingPlatform_other env a bodies tiles g b h hid
      have hu := ids_unique_transfer bodies _ b.id g
        (updateMovingPlatform_ids env a bodies tiles).1 huniq
      have hr1 : ∃ r, r ∈ rest ∧ r.id = b.id := by
        obtain ⟨r, hr, hrid⟩ := hr
        rcases List.mem_cons.mp hr with e | e
        · subst e; exact absurd hrid hid
        · exact ⟨r, e, hrid⟩
      obtain ⟨r1, h1, h2⟩ := ih _ (updateMovingPlatform env a bodies tiles).2.2 g b hg hty hu hr1
      refine ⟨r1, ?_, h2⟩
      simp only [updateMovingPlatformsLoop, List.find?, hida, hid, decide_False]
      exact h1

theorem fallingStep_ids (i : Nat) (b : PlatformBody) (t : Tile) (hb : w.bodies[i]? = some b) :
    (fallingStep env i b t w).bodies.map (fun x => x.id) = w.bodies.map (fun x => x.id) := by
  simp only [fallingStep]
  split_ifs <;> exact ids_set _ _ b _ hb rfl

theorem vanishingStep_ids (i : Nat) (b : PlatformBody) (pos : Vector2f)
    (hb : w.bodies[i]? = some b) :
    (vanishingStep env i b pos w).bodies.map (fun x => x.id) = w.bodies.map (fun x => x.id) := by
  simp only [vanishingStep]
  split_ifs <;> exact ids_set _ _ b _ hb rfl

theorem updatePlatformState_ids (i : Nat) :
    (updatePlatformState env w i).bodies.map (fun x => x.id)
      = w.bodies.map (fun x => x.id) := by
  unfold updatePlatformState
  split
  · rename_i b t hb _
    split
    · rfl
    · split_ifs
      · exact fallingStep_ids env w i b t hb
      · exact vanishingStep_ids env w i b _ hb
      · rfl
  · rfl

theorem platformLoopUpTo_ids (n : Nat) :
    (platformLoopUpTo env w n).bodies.map (fun x => x.id) = w.bodies.map (fun x => x.id) := by
  induction n with
  | zero => rfl
  | succ n ih => rw [platformLoopUpTo_succ, updatePlatformState_ids, ih]

/-- The platform-state loop leaves alone a body whose authored template, if there is one,
is neither of type falling nor of type vanishing. -/
theorem updatePlatformStates_untouched (g : Nat) (b : PlatformBody)
    (hb : w.bodies[g]? = some b)
    (hT : ∀ templ, findTemplate w.currentLevelData b.id = some templ →
      templ.type ≠ bodyType.falling ∧ templ.type ≠ bodyType.vanishing) :
    (updatePlatformStates env w).bodies[g]? = some b := by
  obtain ⟨hs, hg, _, he, _⟩ := updatePlatformStates_at env w g b hb
  rw [he]
  unfold updatePlatformState
  split
  · rename_i c t hc _
    rw [hg] at hc
    have e : b = c := Option.some.inj hc
    subst e
    split
    · exact hg
    · rename_i templ hfind
      rw [hs.2.1] at hfind
      have hm := hT templ hfind
      rw [if_neg hm.1, if_neg hm.2]
      exact hg
  · exact hg

/-- The bodies and the movement records the post-collision block sees are those the
platform blocks left. -/
theorem afterCollision_stage :
    (afterCollision env inp w).1.bodies = (afterPlatformBlocks env inp w).bodies ∧
    (afterCollision env inp w).1.activeMovingPlatforms
      = (updateMovingPlatforms env (beginTick inp w)).activeMovingPlatforms := by
  obtain ⟨_, c2, _, c4, _⟩ := collisionStep_stage env (afterVelocityUpdate env inp w)
  obtain ⟨_, v2, _, v4, _⟩ :=
    velocityUpdate_stage inp (atVelocityUpdate env inp w) (newJumpPressThisFrame inp w)
  obtain ⟨a1, _, a3⟩ := atVelocityUpdate_bodies env inp w
  have hs := platformLoopUpTo_statics env
    (updateInteractibleCooldowns (updateMovingPlatforms env (beginTick inp w)))
    (updateInteractibleCooldowns (updateMovingPlatforms env (beginTick inp w))).bodies.length
  refine ⟨?_, ?_⟩
  · unfold afterCollision; rw [c2]; unfold afterVelocityUpdate; rw [v2, a1]
  · unfold afterCollision; rw [c4]; unfold afterVelocityUpdate; rw [v4, a3]
    exact hs.2.2.1

/-- Through the moving-platform block and the platform-state loop every index keeps the id
of its body. -/
theorem afterPlatformBlocks_ids :
    (afterPlatformBlocks env inp w).bodies.map (fun x => x.id)
      = w.bodies.map (fun x => x.id) := by
  unfold afterPlatformBlocks
  rw [updatePlatformStates_eq, platformLoopUpTo_ids]
  exact updateMovingPlatformsLoop_ids env _ _ _

/-- The carry of the "moving" branch for a ground body of live type moving that is the only
body with its id and whose first record holds the position `last`. -/
theorem movingCarry_eq (g : Nat) (pf : PlatformBody) (r1 : ActiveMovingPlatform)
    (hb : w.bodies[g]? = some pf) (hty : pf.type = bodyType.moving)
    (huniq : ∀ j c, w.bodies[j]? = some c → c.id = pf.id → j = g)
    (hr : w.activeMovingPlatforms.find? (fun activePlat => decide (activePlat.id = pf.id))
      = some r1) :
    movingCarry w pf = pf.position - r1.lastFrameActualPosition := by
  have hid : r1.id = pf.id := by
    have h1 := List.find?_some hr
    exact of_decide_eq_true h1
  have hidx : findMovingBodyIdx r1.id w.bodies = some g := by
    unfold findMovingBodyIdx
    refine firstIdx_unique _ w.bodies g pf hb (by simp [hid, hty]) ?_
    intro j c hj hp
    have hcid : c.id = r1.id := (of_decide_eq_true ((Bool.and_eq_true _ _).mp hp).1 :)
    exact huniq j c hj (hcid.trans hid)
  unfold movingCarry
  simp only [hr, hidx, hb]

end MovingCarry

section MovingScenario

variable (env : Env Tile) (inp : TickInput) (w : World Tile)

theorem fmod_small (x y : ℚ) (h0 : 0 ≤ x) (h1 : x < y) : fmod x y = x := by
  have hy : 0 < y := lt_of_le_of_lt h0 h1
  have hq : 0 ≤ x / y := div_nonneg h0 hy.le
  have hf : ⌊x / y⌋ = 0 := Int.floor_eq_zero_iff.mpr ⟨hq, (div_lt_one hy).mpr h1⟩
  simp [fmod, hq, hf]

/-- One moving-platform iteration whose scan finds the body `mb` at `idx`. -/
theorem updateMovingPlatform_found (a : ActiveMovingPlatform) (bodies : List PlatformBody)
    (tiles : List Tile) (idx : Nat) (mb : PlatformBody)
    (hidx : findMovingBodyIdx a.id bodies = some idx) (hb : bodies[idx]? = some mb) :
    (updateMovingPlatform env a bodies tiles).1
      = { a with
          lastFrameActualPosition := mb.position
          cycleTime := fmod (a.cycleTime + fixed_dt_seconds)
            (if a.cycleDuration > 1 / 100000 then a.cycleDuration else 1) } ∧
    (updateMovingPlatform env a bodies tiles).2.1
      = bodies.set idx
          { mb with
            position := (axisPosition a.axis a.movementAnchorPosition
              (movingOffset env a (fmod (a.cycleTime + fixed_dt_seconds)
                (if a.cycleDuration > 1 / 100000 then a.cycleDuration else 1))
                (if a.cycleDuration > 1 / 100000 then a.cycleDuration else 1))) } := by
  constructor <;> simp only [updateMovingPlatform, hidx, hb, axisPosition]

/-- With live bodies of type moving only, the tail of the tick leaves the bodies, the
movement records and the level data as they are. -/
theorem tickTail_inert (hm : ∀ b ∈ w.bodies, b.type = bodyType.moving) :
    (tickTail env inp w).1.bodies = w.bodies ∧
    (tickTail env inp w).1.activeMovingPlatforms = w.activeMovingPlatforms ∧
    (tickTail env inp w).1.currentLevelData = w.currentLevelData := by
  have htrap : trapHit w = false := by
    unfold trapHit
    rw [List.any_eq_false]
    intro b hb
    simp [hm b hb]
  have hgoal : goalOverlap w = false := by
    unfold goalOverlap
    rw [List.any_eq_false]
    intro b hb
    simp [hm b hb]
  have hportal : portalScan w.playerBody w.bodies w.bodies = none := by
    cases h : portalScan w.playerBody w.bodies w.bodies with
    | none => rfl
    | some p =>
      obtain ⟨S, T⟩ := p
      obtain ⟨hS, hty, _⟩ := portalScan_some w.playerBody w.bodies S T w.bodies h
      rw [hm S hS] at hty
      exact absurd hty (by decide)
  have hnone : (List.range w.bodies.length).find? (fun k => (activatable w k).isSome)
      = none := by
    rw [List.find?_eq_none]
    intro k _
    cases ha : activatable w k with
    | none => simp
    | some st =>
      obtain ⟨b, hb, hty, _⟩ := activatable_some w k st ha
      rw [hm b (List.getElem?_mem hb)] at hty
      exact absurd hty (by decide)
  have hdisp : interactibleDispatch env w = w := by
    unfold interactibleDispatch
    rw [hnone]
  have hinter : interactionDispatch env inp w = w := by
    unfold interactionDispatch
    simp only [hgoal, hportal, hdisp, Bool.false_eq_true, if_false]
    split_ifs <;> rfl
  unfold tickTail
  rw [if_neg (by rw [htrap]; simp), hinter]
  unfold fallDeath
  split_ifs <;> exact ⟨rfl, rfl, rfl⟩

theorem list_singleton_of {α : Type} (l : List α) (a : α) (hlen : l.length = 1)
    (h : l[0]? = some a) : l = [a] := by
  cases l with
  | nil => simp at hlen
  | cons x xs =>
    cases xs with
    | nil =>
      have e : x = a := by simpa using h
      rw [e]
    | cons y ys => simp at hlen

/-- The moving-platform block on the sample moving level after `k < 60` ticks. -/
theorem onMovingLevel_block (k : Nat) (hk : k + 1 ≤ 60) (x y : ℚ) (last : Vector2f)
    (hbod : w.bodies = [mkBody 3 bodyType.moving x y])
    (hrec : w.activeMovingPlatforms = [movingRecord ((k : ℚ) * fixed_dt_seconds) last]) :
    (updateMovingPlatforms env w).bodies
      = [mkBody 3 bodyType.moving
          (100 + env.sineEaseInOut (((k + 1 : Nat) : ℚ) * fixed_dt_seconds) 0 50 1) 100] ∧
    (updateMovingPlatforms env w).activeMovingPlatforms
      = [movingRecord (((k + 1 : Nat) : ℚ) * fixed_dt_seconds) ⟨x, y⟩] := by
  have hdt : fixed_dt_seconds = 16666 / 1000000 := rfl
  have hkq : (k : ℚ) + 1 ≤ 60 := by exact_mod_cast hk
  have hk0 : (0 : ℚ) ≤ (k : ℚ) := Nat.cast_nonneg k
  obtain ⟨m1, m2⟩ := updateMovingPlatform_found env
    (movingRecord ((k : ℚ) * fixed_dt_seconds) last) [mkBody 3 bodyType.moving x y] w.tiles 0
    (mkBody 3 bodyType.moving x y)
    (by simp [findMovingBodyIdx, firstIdx, movingRecord, mkBody]) rfl
  have hD : (if (movingRecord ((k : ℚ) * fixed_dt_seconds) last).cycleDuration > 1 / 100000
      then (movingRecord ((k : ℚ) * fixed_dt_seconds) last).cycleDuration else 1) = 2 := by
    simp only [movingRecord]; norm_num
  have ht : fmod ((movingRecord ((k : ℚ) * fixed_dt_seconds) last).cycleTime
      + fixed_dt_seconds) 2 = ((k + 1 : Nat) : ℚ) * fixed_dt_seconds := by
    have e : (movingRecord ((k : ℚ) * fixed_dt_seconds) last).cycleTime + fixed_dt_seconds
        = ((k + 1 : Nat) : ℚ) * fixed_dt_seconds := by
      simp only [movingRecord]; push_cast; ring
    rw [e, fmod_small]
    · rw [hdt]; push_cast; nlinarith
    · rw [hdt]; push_cast; nlinarith
  have hoff : movingOffset env (movingRecord ((k : ℚ) * fixed_dt_seconds) last)
      (((k + 1 : Nat) : ℚ) * fixed_dt_seconds) 2
      = env.sineEaseInOut (((k + 1 : Nat) : ℚ) * fixed_dt_seconds) 0 50 1 := by
    have h22 : (2 : ℚ) / 2 = 1 := by norm_num
    have hlt : ((k + 1 : Nat) : ℚ) * fixed_dt_seconds < 1 := by
      rw [hdt]; push_cast; nlinarith
    simp only [movingOffset, h22]
    rw [if_pos (by norm_num), if_pos hlt]
    simp [movingRecord]
  rw [hD, ht] at m1
  rw [hD, ht, hoff] at m2
  unfold updateMovingPlatforms
  simp only [hrec, updateMovingPlatformsLoop, m1, m2, hbod]
  exact ⟨rfl, rfl⟩

/-- A tick on the sample moving level after `k < 60` ticks gives the level after `k + 1`
ticks. -/
theorem onMovingLevel_tick (k : Nat) (hk : k + 1 ≤ 60) (h : OnMovingLevel env k w) :
    OnMovingLevel env (k + 1) (tick env inp w).1 := by
  obtain ⟨hd, ⟨x, y, hbod, _⟩, last, hrec⟩ := h
  obtain ⟨b1, r1⟩ := onMovingLevel_block env (beginTick inp w) k hk x y last hbod hrec
  have hs := platformLoopUpTo_statics env
    (updateInteractibleCooldowns (updateMovingPlatforms env (beginTick inp w)))
    (updateInteractibleCooldowns (updateMovingPlatforms env (beginTick inp w))).bodies.length
  have hapb_d : (afterPlatformBlocks env inp w).currentLevelData = movingLevel :=
    (afterPlatformBlocks_clock env inp w).2.2.1.trans hd
  have hapb_r : (afterPlatformBlocks env inp w).activeMovingPlatforms
      = [movingRecord (((k + 1 : Nat) : ℚ) * fixed_dt_seconds) ⟨x, y⟩] :=
    hs.2.2.1.trans r1
  have hapb_b : (afterPlatformBlocks env inp w).bodies
      = [mkBody 3 bodyType.moving
          (100 + env.sineEaseInOut (((k + 1 : Nat) : ℚ) * fixed_dt_seconds) 0 50 1) 100] := by
    apply list_singleton_of
    · exact hs.2.2.2.2.2.2.2.2.1.trans (by
        show (updateMovingPlatforms env (beginTick inp w)).bodies.length = 1
        rw [b1]; rfl)
    · refine updatePlatformStates_untouched env _ 0 _ ?_ ?_
      · show (updateMovingPlatforms env (beginTick inp w)).bodies[0]? = _
        rw [b1]; rfl
      · intro templ ht
        have ht2 : findTemplate w.currentLevelData 3 = some templ := ht
        rw [hd] at ht2
        have e : mkBody 3 bodyType.moving 100 100 = templ := Option.some.inj ht2
        subst e
        decide
  obtain ⟨f1, f2, _, f4, _⟩ := tickFront_stage env inp w
  obtain ⟨a1, _, a3⟩ := advanceVanishingClock_stage (afterPlatformBlocks env inp w)
  have a4 := (atVelocityUpdate_bodies env inp w).2.2
  have hfb := f2.trans (a1.trans hapb_b)
  have hfr := f4.trans (a4.trans hapb_r)
  have hfd := f1.trans (a3.trans hapb_d)
  have hm : ∀ b ∈ (tickFront env inp w).bodies, b.type = bodyType.moving := by
    rw [hfb]
    intro b hb
    rw [List.mem_singleton] at hb
    rw [hb]; rfl
  obtain ⟨t1, t2, t3⟩ := tickTail_inert env inp (tickFront env inp w) hm
  exact ⟨t3.trans hfd, ⟨_, _, t1.trans hfb, fun _ => ⟨rfl, rfl⟩⟩, ⟨_, t2.trans hfr⟩⟩

/-- The setup step for a template of type moving whose detail is found: the body is pushed,
at its authored or at its computed initial position, with a record at cycle time zero that
remembers that position. -/
theorem setupBody_moving (data : LevelData)
    (acc : List PlatformBody × List ActiveMovingPlatform ×
      (Nat → Option ActiveInteractiblePlatform))
    (templ : PlatformBody) (detail : MovingPlatformDetail)
    (hty : templ.type = bodyType.moving)
    (hfind : data.movingPlatformDetails.find? (fun d => decide (d.id = templ.id))
      = some detail) :
    ∃ pos, setupBody env data acc templ
      = (acc.1 ++ [{ templ with position := pos }],
         acc.2.1 ++ [{ id := detail.id, movementAnchorPosition := detail.startPosition,
                       axis := detail.axis, distance := detail.distance, cycleTime := 0,
                       cycleDuration := detail.cycleDuration,
                       initialDirection := detail.initialDirection,
                       lastFrameActualPosition := pos }],
         acc.2.2) := by
  unfold setupBody
  simp only [if_pos hty, hfind]
  split_ifs <;> exact ⟨_, rfl⟩

/-- After `startLevel` on the sample moving level no tick has run. -/
theorem onMovingLevel_start (hd : w.currentLevelData = movingLevel) :
    OnMovingLevel env 0 (startLevel env w) := by
  obtain ⟨pos, hp⟩ := setupBody_moving env movingLevel
    (([] : List PlatformBody), ([] : List ActiveMovingPlatform),
      (fun _ => (none : Option ActiveInteractiblePlatform)))
    (mkBody 3 bodyType.moving 100 100)
    { id := 3, startPosition := ⟨100, 100⟩, axis := 'x', distance := 50,
      cycleDuration := 2, initialDirection := 1 } rfl rfl
  unfold OnMovingLevel startLevel setupLevelAssets
  simp only [hd]
  have hfold : List.foldl (setupBody env movingLevel)
      (([] : List PlatformBody), ([] : List ActiveMovingPlatform),
        (fun _ => (none : Option ActiveInteractiblePlatform))) movingLevel.platforms
      = setupBody env movingLevel
          (([] : List PlatformBody), ([] : List ActiveMovingPlatform),
            (fun _ => (none : Option ActiveInteractiblePlatform)))
          (mkBody 3 bodyType.moving 100 100) := rfl
  rw [hfold, hp]
  exact ⟨trivial, ⟨pos.x, pos.y, rfl, fun h => absurd h (by decide)⟩,
    ⟨pos, by simp [movingRecord]⟩⟩

theorem onMovingLevel_run (inps : List TickInput) :
    ∀ (k : Nat) (v : World Tile), OnMovingLevel env k v → k + inps.length ≤ 60 →
      OnMovingLevel env (k + inps.length) (runTicks env inps v) := by
  induction inps with
  | nil => intro k v h _; exact h
  | cons i rest ih =>
    intro k v h hk
    have e : k + (i :: rest).length = (k + 1) + rest.length := by
      simp only [List.length_cons]; omega
    rw [e] at hk ⊢
    exact ih (k + 1) _ (onMovingLevel_tick env i v k (by omega) h) hk

end MovingScenario

section HoldChain

variable (env : Env Tile) (inp : TickInput) (w : World Tile)

/-- The hold timer after the velocity update: 1 us in a new-jump tick, one tick more in an
extension tick, zero otherwise. -/
theorem afterVelocityUpdate_hold :
    (newJumpPressThisFrame inp w = true →
      (afterVelocityUpdate env inp w).currentJumpHoldDuration = 1) ∧
    (extensionTaken inp w = true →
      (afterVelocityUpdate env inp w).currentJumpHoldDuration
        = w.currentJumpHoldDuration + TIME_PER_FIXED_UPDATE) ∧
    (newJumpPressThisFrame inp w = false → extensionTaken inp w = false →
      (afterVelocityUpdate env inp w).currentJumpHoldDuration = 0) := by
  have hh := (atVelocityUpdate_hold env inp w).1
  refine ⟨fun hn => ?_, fun he => ?_, fun hn he => ?_⟩
  · simp [afterVelocityUpdate, velocityUpdate, hn]
  · simp only [extensionTaken, Bool.and_eq_true, Bool.not_eq_true', decide_eq_true_eq] at he
    obtain ⟨⟨⟨hn, hj⟩, h0⟩, h1⟩ := he
    simp [afterVelocityUpdate, velocityUpdate, hn, hj, hh, h0, h1]
  · have hc : ¬ (inp.jumpIntentThisFrame = true ∧ w.currentJumpHoldDuration > 0 ∧
        w.currentJumpHoldDuration < MAX_JUMP_HOLD_TIME) := by
      rintro ⟨hj, h0, h1⟩
      simp [extensionTaken, hn, hj, h0, h1] at he
    simp only [afterVelocityUpdate, velocityUpdate, hn, Bool.false_eq_true, if_false, hh]
    rw [if_neg hc]

theorem groundEffects_hold :
    (groundEffects w).1.currentJumpHoldDuration = w.currentJumpHoldDuration ∨
    (groundEffects w).1.currentJumpHoldDuration = 0 := by
  unfold groundEffects
  simp only
  repeat' split
  all_goals first
    | exact Or.inl rfl
    | exact Or.inr rfl

/-- The hold timer a tick leaves is the one its velocity update left, or zero (the player
is on ground after collision), or the maximum (ceiling hit). -/
theorem tick_hold :
    (tick env inp w).1.currentJumpHoldDuration
        = (afterVelocityUpdate env inp w).currentJumpHoldDuration ∨
    (tick env inp w).1.currentJumpHoldDuration = 0 ∨
    (tick env inp w).1.currentJumpHoldDuration = MAX_JUMP_HOLD_TIME := by
  have ht : (tick env inp w).1.currentJumpHoldDuration
      = (tickFront env inp w).currentJumpHoldDuration := (tickTail_player env inp _).2
  rw [ht, tickFront_eq, postCollision_eq]
  have hc : (afterCollision env inp w).1.currentJumpHoldDuration
      = (afterVelocityUpdate env inp w).currentJumpHoldDuration := rfl
  split_ifs
  · exact Or.inr (Or.inr rfl)
  · rcases groundEffects_hold (afterCollision env inp w).1 with h | h
    · exact Or.inl (h.trans hc)
    · exact Or.inr (Or.inl h)

/-- A chain of extension ticks that starts with the hold timer at `1 + 16666 * k` us, at
zero or at the maximum, `k ≤ 11`, has at most `11 - k` ticks, and leaves the hold timer at
`1 + 16666 * (k + n)` us, at zero or at the maximum. -/
theorem extension_chain (inps : List TickInput) :
    ∀ (w : World Tile) (k : Nat),
      (w.currentJumpHoldDuration = 1 + 16666 * (k : Int) ∨ w.currentJumpHoldDuration = 0 ∨
        w.currentJumpHoldDuration = 180000) →
      k ≤ 11 → allExtension env inps w = true →
      k + inps.length ≤ 11 ∧
      ((runTicks env inps w).currentJumpHoldDuration
          = 1 + 16666 * ((k + inps.length : Nat) : Int) ∨
        (runTicks env inps w).currentJumpHoldDuration = 0 ∨
        (runTicks env inps w).currentJumpHoldDuration = 180000) := by
  induction inps with
  | nil => intro w k h hk _; exact ⟨hk, h⟩
  | cons i rest ih =>
    intro w k h hk hall
    simp only [allExtension, Bool.and_eq_true] at hall
    obtain ⟨he, hrest⟩ := hall
    have he2 := he
    simp only [extensionTaken, Bool.and_eq_true, decide_eq_true_eq, MAX_JUMP_HOLD_TIME] at he2
    obtain ⟨⟨_, h0⟩, h1⟩ := he2
    have hw : w.currentJumpHoldDuration = 1 + 16666 * (k : Int) := by
      rcases h with h | h | h
      · exact h
      · omega
      · omega
    have hk10 : k ≤ 10 := by omega
    have hv := ((afterVelocityUpdate_hold env i w).2.1 he)
    have hnext : (tick env i w).1.currentJumpHoldDuration = 1 + 16666 * ((k + 1 : Nat) : Int) ∨
        (tick env i w).1.currentJumpHoldDuration = 0 ∨
        (tick env i w).1.currentJumpHoldDuration = 180000 := by
      rcases tick_hold env i w with t | t | t
      · left
        rw [t, hv, hw]
        simp only [TIME_PER_FIXED_UPDATE]
        push_cast
        ring
      · exact Or.inr (Or.inl t)
      · exact Or.inr (Or.inr t)
    obtain ⟨r1, r2⟩ := ih (tick env i w).1 (k + 1) hnext (by omega) hrest
    have e : k + (i :: rest).length = k + 1 + rest.length := by
      simp only [List.length_cons]; omega
    rw [e]
    exact ⟨r1, r2⟩

end HoldChain

section DeadPortals

/-- The inner scan finds no target for a link id that no portal with another id has. -/
theorem findTargetPortal_none (bodies : List PlatformBody) (cur : PlatformBody)
    (h : ∀ b ∈ bodies, b.type = bodyType.portal → b.portalID = cur.portalID → b.id = cur.id) :
    findTargetPortal bodies cur.portalID cur.id = none := by
  unfold findTargetPortal
  rw [List.find?_eq_none]
  intro b hb
  by_cases h1 : b.type = bodyType.portal
  · by_cases h2 : b.portalID = cur.portalID
    · simp [h1, h2, h b hb h1 h2]
    · simp [h2]
  · simp [h1]

/-- The portal loop passes over a portal that cannot teleport. -/
theorem portalScan_dead (p : DynamicBody) (bodies : List PlatformBody) (cur : PlatformBody)
    (rest : List PlatformBody) (h : DeadPortal bodies cur) :
    portalScan p bodies (cur :: rest) = portalScan p bodies rest := by
  by_cases h1 : cur.type = bodyType.portal ∧ p.getAABB.intersects cur.getAABB = true
  · by_cases h2 : cur.portalID = 0
    · rw [portalScan, if_pos h1, if_pos h2]
    · rcases h with h | h
      · exact absurd h h2
      · rw [portalScan, if_pos h1, if_neg h2, findTargetPortal_none bodies cur h]
  · rw [portalScan, if_neg h1]

/-- The portal loop passes over a stretch of bodies each of which is no overlapped portal
or cannot teleport. -/
theorem portalScan_append (p : DynamicBody) (bodies : List PlatformBody)
    (pre rest : List PlatformBody)
    (h : ∀ c ∈ pre, c.type = bodyType.portal → p.getAABB.intersects c.getAABB = true →
      DeadPortal bodies c) :
    portalScan p bodies (pre ++ rest) = portalScan p bodies rest := by
  induction pre with
  | nil => rfl
  | cons c cs ih =>
    have hcs : ∀ c ∈ cs, c.type = bodyType.portal → p.getAABB.intersects c.getAABB = true →
        DeadPortal bodies c := fun x hx => h x (List.mem_cons_of_mem c hx)
    by_cases hc : c.type = bodyType.portal ∧ p.getAABB.intersects c.getAABB = true
    · rw [List.cons_append, portalScan_dead p bodies c _ (h c (List.mem_cons_self c cs) hc.1 hc.2)]
      exact ih hcs
    · rw [List.cons_append, portalScan, if_neg hc]
      exact ih hcs

end DeadPortals

section FrameDrain

variable (env : Env Tile) (inp : TickInput) (w : World Tile)

/-- A tick leaves the tick loop by `break` exactly on trap death and on fall death. -/
theorem tick_break_iff :
    (tick env inp w).2 = true ↔
      (trapHit (tickFront env inp w) = true ∨
        (interactionDispatch env inp (tickFront env inp w)).playerBody.position.y
          > PLAYER_DEATH_Y_LIMIT) := by
  unfold tick tickTail
  by_cases hT : trapHit (tickFront env inp w) = true
  · simp [hT]
  · simp only [hT, if_false, Bool.false_eq_true, false_or]
    unfold fallDeath
    split_ifs with hf
    · exact ⟨fun _ => hf, fun _ => rfl⟩
    · exact ⟨fun h => absurd h (by simp), fun h => absurd h hf⟩

/-- After a tick that leaves the loop by `break` no later tick of the frame runs. -/
theorem drainFrame_break (rest : List TickInput) (h : (tick env inp w).2 = true) :
    drainFrame env (inp :: rest) w = (tick env inp w).1 := by
  simp [drainFrame, h]

/-- After a tick that does not leave the loop by `break` the drain goes on. -/
theorem drainFrame_continue (rest : List TickInput) (h : (tick env inp w).2 = false) :
    drainFrame env (inp :: rest) w = drainFrame env rest (tick env inp w).1 := by
  simp [drainFrame, h]

end FrameDrain

section SetupFold

variable (env : Env Tile) (data : LevelData)

/-- The three ways of the setup step: a moving template whose detail is found gets a body
and a movement record at cycle time zero; an interactible template whose detail is found
gets a body and an idle, unused interaction record under the detail's id; any other
template gets a body only. -/
theorem setupBody_cases
    (acc : List PlatformBody × List ActiveMovingPlatform ×
      (Nat → Option ActiveInteractiblePlatform))
    (t : PlatformBody) :
    (t.type = bodyType.moving ∧ ∃ d pos,
      data.movingPlatformDetails.find? (fun detail => decide (detail.id = t.id)) = some d ∧
      setupBody env data acc t
        = (acc.1 ++ [{ t with position := pos }],
           acc.2.1 ++ [{ id := d.id, movementAnchorPosition := d.startPosition,
                         axis := d.axis, distance := d.distance, cycleTime := 0,
                         cycleDuration := d.cycleDuration,
                         initialDirection := d.initialDirection,
                         lastFrameActualPosition := pos }],
           acc.2.2)) ∨
    (t.type = bodyType.interactible ∧ ∃ d,
      data.interactiblePlatformDetails.find? (fun detail => decide (detail.id = t.id))
        = some d ∧
      setupBody env data acc t
        = (acc.1 ++ [t], acc.2.1,
           Function.update acc.2.2 d.id
            (some { id := d.id, interactionType := d.interactionType,
                    targetBodyTypeEnum := d.targetBodyType, oneTime := d.oneTime,
                    cooldown := d.cooldown, hasBeenInteractedThisSession := false,
                    currentCooldownTimer := 0, linkedID := d.linkedID }))) ∨
    (((t.type = bodyType.moving ∧
          data.movingPlatformDetails.find? (fun detail => decide (detail.id = t.id)) = none) ∨
        (t.type = bodyType.interactible ∧
          data.interactiblePlatformDetails.find? (fun detail => decide (detail.id = t.id))
            = none) ∨
        (t.type ≠ bodyType.moving ∧ t.type ≠ bodyType.interactible)) ∧
      setupBody env data acc t = (acc.1 ++ [t], acc.2.1, acc.2.2)) := by
  by_cases hm : t.type = bodyType.moving
  · cases hf : data.movingPlatformDetails.find? (fun detail => decide (detail.id = t.id)) with
    | some d =>
      left
      obtain ⟨pos, hp⟩ := setupBody_moving env data acc t d hm hf
      exact ⟨hm, d, pos, rfl, hp⟩
    | none =>
      right; right
      refine ⟨Or.inl ⟨hm, rfl⟩, ?_⟩
      unfold setupBody
      simp only [if_pos hm, hf]
  · by_cases hi : t.type = bodyType.interactible
    · cases hf : data.interactiblePlatformDetails.find?
          (fun detail => decide (detail.id = t.id)) with
      | some d =>
        right; left
        refine ⟨hi, d, rfl, ?_⟩
        unfold setupBody
        simp only [if_neg hm, if_pos hi, hf]
      | none =>
        right; right
        refine ⟨Or.inr (Or.inl ⟨hi, rfl⟩), ?_⟩
        unfold setupBody
        simp only [if_neg hm, if_pos hi, hf]
    · right; right
      refine ⟨Or.inr (Or.inr ⟨hm, hi⟩), ?_⟩
      unfold setupBody
      simp only [if_neg hm, if_neg hi]

/-- The movement records with a given id after a setup step. -/
theorem setupBody_records_iff
    (acc : List PlatformBody × List ActiveMovingPlatform ×
      (Nat → Option ActiveInteractiblePlatform))
    (t : PlatformBody) (i : Nat) :
    (∃ r ∈ (setupBody env data acc t).2.1, r.id = i) ↔
      ((∃ r ∈ acc.2.1, r.id = i) ∨
        (t.type = bodyType.moving ∧ t.id = i ∧
          ∃ d ∈ data.movingPlatformDetails, d.id = i)) := by
  rcases setupBody_cases env data acc t with ⟨hm, d, pos, hf, he⟩ | ⟨hi, d, hf, he⟩ | ⟨hc, he⟩
  · have hd : d ∈ data.movingPlatformDetails := List.mem_of_find?_eq_some hf
    have hid : d.id = t.id := by
      have h1 := List.find?_some hf
      exact of_decide_eq_true h1
    rw [he]
    constructor
    · rintro ⟨r, hr, hri⟩
      rcases List.mem_append.mp hr with h | h
      · exact Or.inl ⟨r, h, hri⟩
      · rw [List.mem_singleton] at h
        rw [h] at hri
        exact Or.inr ⟨hm, hid.symm.trans hri, d, hd, hri⟩
    · rintro (⟨r, hr, hri⟩ | ⟨_, hti, _⟩)
      · exact ⟨r, List.mem_append.mpr (Or.inl hr), hri⟩
      · exact ⟨_, List.mem_append.mpr (Or.inr (List.mem_singleton.mpr rfl)), hid.trans hti⟩
  · rw [he]
    constructor
    · rintro ⟨r, hr, hri⟩; exact Or.inl ⟨r, hr, hri⟩
    · rintro (h | ⟨hm, _⟩)
      · exact h
      · rw [hi] at hm; exact absurd hm (by decide)
  · rw [he]
    constructor
    · rintro ⟨r, hr, hri⟩; exact Or.inl ⟨r, hr, hri⟩
    · rintro (h | ⟨hm, hti, d, hd, hdi⟩)
      · exact h
      · rcases hc with ⟨_, hn⟩ | ⟨hi, _⟩ | ⟨hnm, _⟩
        · rw [List.find?_eq_none] at hn
          exact absurd (by simp [hdi, hti]) (hn d hd)
        · rw [hi] at hm; exact absurd hm (by decide)
        · exact absurd hm hnm

/-- The interaction record under a given key after a setup step. -/
theorem setupBody_interactibles_iff
    (acc : List PlatformBody × List ActiveMovingPlatform ×
      (Nat → Option ActiveInteractiblePlatform))
    (t : PlatformBody) (i : Nat) :
    ((setupBody env data acc t).2.2 i).isSome = true ↔
      ((acc.2.2 i).isSome = true ∨
        (t.type = bodyType.interactible ∧ t.id = i ∧
          ∃ d ∈ data.interactiblePlatformDetails, d.id = i)) := by
  rcases setupBody_cases env data acc t with ⟨hm, d, pos, hf, he⟩ | ⟨hi, d, hf, he⟩ | ⟨hc, he⟩
  · rw [he]
    constructor
    · intro h; exact Or.inl h
    · rintro (h | ⟨hi, _⟩)
      · exact h
      · rw [hm] at hi; exact absurd hi (by decide)
  · have hd : d ∈ data.interactiblePlatformDetails := List.mem_of_find?_eq_some hf
    have hid : d.id = t.id := by
      have h1 := List.find?_some hf
      exact of_decide_eq_true h1
    rw [he]
    simp only [Function.update_apply]
    by_cases hk : i = d.id
    · simp only [hk, if_true, Option.isSome_some, true_iff]
      exact Or.inr ⟨hi, hid.symm, d, hd, rfl⟩
    · simp only [hk, if_false]
      constructor
      · intro h; exact Or.inl h
      · rintro (h | ⟨_, hti, _⟩)
        · exact h
        · exact absurd (hti.symm.trans hid.symm) hk
  · rw [he]
    constructor
    · intro h; exact Or.inl h
    · rintro (h | ⟨hi, hti, d, hd, hdi⟩)
      · exact h
      · rcases hc with ⟨hm, _⟩ | ⟨_, hn⟩ | ⟨_, hni⟩
        · rw [hm] at hi; exact absurd hi (by decide)
        · rw [List.find?_eq_none] at hn
          exact absurd (by simp [hdi, hti]) (hn d hd)
        · exact absurd hi hni

/-- A setup step leaves the records fresh: movement records at cycle time zero, interaction
records idle and unused. -/
theorem setupBody_fresh
    (acc : List PlatformBody × List ActiveMovingPlatform ×
      (Nat → Option ActiveInteractiblePlatform))
    (t : PlatformBody)
    (h1 : ∀ r ∈ acc.2.1, r.cycleTime = 0)
    (h2 : ∀ k st, acc.2.2 k = some st →
      st.currentCooldownTimer = 0 ∧ st.hasBeenInteractedThisSession = false) :
    (∀ r ∈ (setupBody env data acc t).2.1, r.cycleTime = 0) ∧
    (∀ k st, (setupBody env data acc t).2.2 k = some st →
      st.currentCooldownTimer = 0 ∧ st.hasBeenInteractedThisSession = false) := by
  rcases setupBody_cases env data acc t with ⟨hm, d, pos, hf, he⟩ | ⟨hi, d, hf, he⟩ | ⟨hc, he⟩
  · rw [he]
    refine ⟨?_, h2⟩
    intro r hr
    rcases List.mem_append.mp hr with h | h
    · exact h1 r h
    · rw [List.mem_singleton] at h
      rw [h]
  · rw [he]
    refine ⟨h1, ?_⟩
    intro k st hst
    simp only [Function.update_apply] at hst
    by_cases hk : k = d.id
    · simp only [hk, if_true] at hst
      have e := Option.some.inj hst
      rw [← e]
      exact ⟨rfl, rfl⟩
    · simp only [hk, if_false] at hst
      exact h2 k st hst
  · rw [he]; exact ⟨h1, h2⟩

/-- The body a setup step pushes: it has the template's id and type, and it is the template
itself unless the template is a moving one whose detail is found. -/
theorem setupBody_pushes
    (acc : List PlatformBody × List ActiveMovingPlatform ×
      (Nat → Option ActiveInteractiblePlatform))
    (t : PlatformBody) :
    ∃ b, (setupBody env data acc t).1 = acc.1 ++ [b] ∧ b.id = t.id ∧ b.type = t.type ∧
      ((t.type = bodyType.moving →
        data.movingPlatformDetails.find? (fun detail => decide (detail.id = t.id)) = none) →
        b = t) := by
  rcases setupBody_cases env data acc t with ⟨hm, d, pos, hf, he⟩ | ⟨hi, d, hf, he⟩ | ⟨hc, he⟩
  · refine ⟨{ t with position := pos }, by rw [he], rfl, rfl, ?_⟩
    intro hn
    rw [hn hm] at hf
    exact absurd hf (by simp)
  · exact ⟨t, by rw [he], rfl, rfl, fun _ => rfl⟩
  · exact ⟨t, by rw [he], rfl, rfl, fun _ => rfl⟩

theorem setupFold_records_iff (l : List PlatformBody) :
    ∀ (acc : List PlatformBody × List ActiveMovingPlatform ×
        (Nat → Option ActiveInteractiblePlatform)) (i : Nat),
      (∃ r ∈ (l.foldl (setupBody env data) acc).2.1, r.id = i) ↔
        ((∃ r ∈ acc.2.1, r.id = i) ∨
          ∃ t ∈ l, t.type = bodyType.moving ∧ t.id = i ∧
            ∃ d ∈ data.movingPlatformDetails, d.id = i) := by
  induction l with
  | nil => intro acc i; simp
  | cons t rest ih =>
    intro acc i
    rw [List.foldl_cons, ih, setupBody_records_iff]
    constructor
    · rintro ((h | h) | ⟨x, hx, h⟩)
      · exact Or.inl h
      · exact Or.inr ⟨t, List.mem_cons_self t rest, h⟩
      · exact Or.inr ⟨x, List.mem_cons_of_mem t hx, h⟩
    · rintro (h | ⟨x, hx, h⟩)
      · exact Or.inl (Or.inl h)
      · rcases List.mem_cons.mp hx with e | e
        · subst e; exact Or.inl (Or.inr h)
        · exact Or.inr ⟨x, e, h⟩

theorem setupFold_interactibles_iff (l : List PlatformBody) :
    ∀ (acc : List PlatformBody × List ActiveMovingPlatform ×
        (Nat → Option ActiveInteractiblePlatform)) (i : Nat),
      ((l.foldl (setupBody env data) acc).2.2 i).isSome = true ↔
        ((acc.2.2 i).isSome = true ∨
          ∃ t ∈ l, t.type = bodyType.interactible ∧ t.id = i ∧
            ∃ d ∈ data.interactiblePlatformDetails, d.id = i) := by
  induction l with
  | nil => intro acc i; simp
  | cons t rest ih =>
    intro acc i
    rw [List.foldl_cons, ih, setupBody_interactibles_iff]
    constructor
    · rintro ((h | h) | ⟨x, hx, h⟩)
      · exact Or.inl h
      · exact Or.inr ⟨t, List.mem_cons_self t rest, h⟩
      · exact Or.inr ⟨x, List.mem_cons_of_mem t hx, h⟩
    · rintro (h | ⟨x, hx, h⟩)
      · exact Or.inl (Or.inl h)
      · rcases List.mem_cons.mp hx with e | e
        · subst e; exact Or.inl (Or.inr h)
        · exact Or.inr ⟨x, e, h⟩

theorem setupFold_fresh (l : List PlatformBody) :
    ∀ (acc : List PlatformBody × List ActiveMovingPlatform ×
        (Nat → Option ActiveInteractiblePlatform)),
      (∀ r ∈ acc.2.1, r.cycleTime = 0) →
      (∀ k st, acc.2.2 k = some st →
        st.currentCooldownTimer = 0 ∧ st.hasBeenInteractedThisSession = false) →
      (∀ r ∈ (l.foldl (setupBody env data) acc).2.1, r.cycleTime = 0) ∧
      (∀ k st, (l.foldl (setupBody env data) acc).2.2 k = some st →
        st.currentCooldownTimer = 0 ∧ st.hasBeenInteractedThisSession = false) := by
  induction l with
  | nil => intro acc h1 h2; exact ⟨h1, h2⟩
  | cons t rest ih =>
    intro acc h1 h2
    rw [List.foldl_cons]
    have hs := setupBody_fresh env data acc t h1 h2
    exact ih _ hs.1 hs.2

/-- The bodies after the setup loop: those there before, then one per template, in order,
with the template's id and type; a template that is not a moving one with a detail is
pushed as it is. -/
theorem setupFold_bodies (l : List PlatformBody) :
    ∀ (acc : List PlatformBody × List ActiveMovingPlatform ×
        (Nat → Option ActiveInteractiblePlatform)),
      (l.foldl (setupBody env data) acc).1.length = acc.1.length + l.length ∧
      (∀ k, k < acc.1.length → (l.foldl (setupBody env data) acc).1[k]? = acc.1[k]?) ∧
      (∀ g T, l[g]? = some T →
        ∃ b, (l.foldl (setupBody env data) acc).1[acc.1.length + g]? = some b ∧
          b.id = T.id ∧ b.type = T.type ∧
          ((T.type = bodyType.moving →
            data.movingPlatformDetails.find? (fun detail => decide (detail.id = T.id))
              = none) → b = T)) := by
  induction l with
  | nil =>
    intro acc
    refine ⟨rfl, fun k _ => rfl, ?_⟩
    intro g T h
    simp at h
  | cons t rest ih =>
    intro acc
    rw [List.foldl_cons]
    obtain ⟨b, hb, hbi, hbt, hbe⟩ := setupBody_pushes env data acc t
    obtain ⟨i1, i2, i3⟩ := ih (setupBody env data acc t)
    have hlen : (setupBody env data acc t).1.length = acc.1.length + 1 := by
      rw [hb]; simp
    refine ⟨?_, ?_, ?_⟩
    · rw [i1, hlen, List.length_cons]; omega
    · intro k hk
      rw [i2 k (by omega), hb, List.getElem?_append_left hk]
    · intro g T hg
      cases g with
      | zero =>
        have e : t = T := by simpa using hg
        subst e
        refine ⟨b, ?_, hbi, hbt, hbe⟩
        rw [Nat.add_zero, i2 _ (by omega), hb]
        simp
      | succ g1 =>
        have hg1 : rest[g1]? = some T := by simpa using hg
        obtain ⟨b1, h1, h2, h3, h4⟩ := i3 g1 T hg1
        refine ⟨b1, ?_, h2, h3, h4⟩
        rw [hlen] at h1
        rw [← h1]
        congr 1
        omega

end SetupFold

section DispatchExact

variable (env : Env Tile) (inp : TickInput) (w : World Tile)

theorem cascadeLinked_effect (st : ActiveInteractiblePlatform) (i : Nat) (bm : PlatformBody)
    (h : w.bodies[i]? = some bm) :
    ∃ b, (cascadeLinked env st w).bodies[i]? = some b ∧
      CascadeEffect w.currentLevelData bm b := by
  have hi : i < w.bodies.length := (List.getElem?_eq_some.mp h).1
  unfold cascadeLinked
  split
  · split
    · exact ⟨bm, h, Or.inl rfl⟩
    · rename_i idx _
      split
      · exact ⟨bm, h, Or.inl rfl⟩
      · rename_i linked hl
        by_cases hidx : idx = i
        · subst hidx
          have e : linked = bm := Option.some.inj (hl.symm.trans h)
          subst e
          unfold cascadeOn
          split_ifs with h1 h2 h3 h4 h5
          · exact ⟨_, List.getElem?_set_self hi, Or.inr (Or.inl ⟨h1, rfl⟩)⟩
          · exact ⟨_, List.getElem?_set_self hi, Or.inr (Or.inr (Or.inl ⟨h2, h3, rfl⟩))⟩
          · exact ⟨linked, h, Or.inl rfl⟩
          · exact ⟨_, List.getElem?_set_self hi, Or.inr (Or.inr (Or.inr
              ⟨h2, fun e => h1 (Or.inl e), fun e => h1 (Or.inr e), h4.1, h5, rfl⟩))⟩
          · exact ⟨linked, h, Or.inl rfl⟩
          · exact ⟨linked, h, Or.inl rfl⟩
        · unfold cascadeOn
          split_ifs
          all_goals first
            | exact ⟨bm, h, Or.inl rfl⟩
            | exact ⟨bm, (List.getElem?_set_ne hidx).trans h, Or.inl rfl⟩
  · exact ⟨bm, h, Or.inl rfl⟩

theorem changeSelf_effect (k key : Nat) (st : ActiveInteractiblePlatform) (i : Nat)
    (bm : PlatformBody) (h : w.bodies[i]? = some bm) (hik : k ≠ i) :
    ∃ b, (changeSelf env k key st w).bodies[i]? = some b ∧
      CascadeEffect w.currentLevelData bm b := by
  unfold changeSelf
  simp only
  split
  · have h2 : (updateAt (updateAt w.bodies k
        (fun b => { b with type := st.targetBodyTypeEnum })) k
        (fun b => { b with position := offStageInteract }))[i]? = some bm := by
      rw [updateAt_getElem?_ne _ _ _ _ hik, updateAt_getElem?_ne _ _ _ _ hik]; exact h
    exact cascadeLinked_effect env _ st i bm h2
  · have h2 : (updateAt w.bodies k
        (fun b => { b with type := st.targetBodyTypeEnum }))[i]? = some bm := by
      rw [updateAt_getElem?_ne _ _ _ _ hik]; exact h
    exact cascadeLinked_effect env _ st i bm h2

/-- What the interaction dispatch does to a body that is no live interactible: what the
cascade can do. -/
theorem interactionDispatch_effect (i : Nat) (bm : PlatformBody) (h : w.bodies[i]? = some bm)
    (hty : bm.type ≠ bodyType.interactible) :
    ∃ b, (interactionDispatch env inp w).bodies[i]? = some b ∧
      CascadeEffect w.currentLevelData bm b := by
  unfold interactionDispatch
  split_ifs
  · exact ⟨bm, by rw [(goalReached_frame inp w).2.1]; exact h, Or.inl rfl⟩
  · split
    · exact ⟨bm, h, Or.inl rfl⟩
    · unfold interactibleDispatch
      split
      · exact ⟨bm, h, Or.inl rfl⟩
      · rename_i k _
        split
        · rename_i st b hst hb
          by_cases hik : k = i
          · subst hik
            obtain ⟨b0, hb0, hty0, _⟩ := activatable_some w k st hst
            have e : b0 = bm := Option.some.inj (hb0.symm.trans h)
            subst e
            exact absurd hty0 hty
          · exact changeSelf_effect env w k b.id st i bm h hik
        · exact ⟨bm, h, Or.inl rfl⟩
  · exact ⟨bm, h, Or.inl rfl⟩

/-- The bodies a tick leaves are those its platform blocks left, with the effect of the
interaction dispatch on them if the dispatch ran. -/
theorem tick_bodies :
    (tickFront env inp w).bodies = (afterPlatformBlocks env inp w).bodies ∧
    ((tick env inp w).1.bodies = (tickFront env inp w).bodies ∨
      (tick env inp w).1.bodies
        = (interactionDispatch env inp (tickFront env inp w)).bodies) :=
  ⟨(tickFront_bodies_tiles env inp w).1, tickTail_bodies env inp (tickFront env inp w)⟩

/-- A tick that does not reach the goal keeps the level data. -/
theorem tick_currentLevelData (h : goalTick env inp w = false) :
    (tick env inp w).1.currentLevelData = w.currentLevelData := by
  have hf := tickFront_currentLevelData env inp w
  unfold tick tickTail
  by_cases hT : trapHit (tickFront env inp w) = true
  · simp only [hT, if_true]; exact hf
  · simp only [hT, if_false, Bool.false_eq_true]
    rw [fallDeath_currentLevelData]
    unfold interactionDispatch
    by_cases hE : inp.interactKeyPressedThisFrame = true
    · have hG : goalOverlap (tickFront env inp w) = false := by
        simp only [goalTick, hE, Bool.and_true, Bool.and_eq_false_imp, Bool.not_eq_true'] at h
        have hT2 : trapHit (tickFront env inp w) = false := by simpa using hT
        exact h hT2
      simp only [hE, hG, if_true, if_false, Bool.false_eq_true]
      split
      · exact hf
      · rw [(interactibleDispatch_kinematics env _).2.2.2.1]; exact hf
    · simp only [hE, if_false]; exact hf

end DispatchExact

section StaticMoving

variable (env : Env Tile) (inp : TickInput) (w : World Tile)

theorem cascadeLinked_records (st : ActiveInteractiblePlatform) :
    (cascadeLinked env st w).activeMovingPlatforms = w.activeMovingPlatforms ∧
    (cascadeLinked env st w).tiles.length = w.tiles.length := by
  unfold cascadeLinked
  split
  · split
    · exact ⟨rfl, rfl⟩
    · split
      · exact ⟨rfl, rfl⟩
      · unfold cascadeOn
        split_ifs
        all_goals first
          | exact ⟨rfl, rfl⟩
          | exact ⟨rfl, updateAt_length _ _ _⟩
  · exact ⟨rfl, rfl⟩

theorem interactionDispatch_records :
    (interactionDispatch env inp w).activeMovingPlatforms = w.activeMovingPlatforms ∧
    (interactionDispatch env inp w).tiles.length = w.tiles.length := by
  unfold interactionDispatch
  split_ifs
  · simp only [goalReached]
    split_ifs <;> exact ⟨rfl, rfl⟩
  · split
    · exact ⟨rfl, rfl⟩
    · unfold interactibleDispatch
      split
      · exact ⟨rfl, rfl⟩
      · split
        · unfold changeSelf
          simp only
          split
          · exact cascadeLinked_records env _ _
          · exact cascadeLinked_records env _ _
        · exact ⟨rfl, rfl⟩
  · exact ⟨rfl, rfl⟩

theorem updateMovingPlatformsLoop_tiles_length (recs : List ActiveMovingPlatform) :
    ∀ (bodies : List PlatformBody) (tiles : List Tile),
      (updateMovingPlatformsLoop env recs bodies tiles).2.2.length = tiles.length := by
  induction recs with
  | nil => intro bodies tiles; rfl
  | cons a rest ih =>
    intro bodies tiles
    simp only [updateMovingPlatformsLoop]
    rw [ih]
    unfold updateMovingPlatform
    split
    · rfl
    · split
      · rfl
      · exact updateAt_length _ _ _

/-- The movement records a tick leaves are those its moving-platform block left, and the
tick keeps the number of tiles. -/
theorem tick_records :
    (tick env inp w).1.activeMovingPlatforms
      = (updateMovingPlatforms env (beginTick inp w)).activeMovingPlatforms ∧
    (tick env inp w).1.tiles.length = w.tiles.length := by
  have hs := platformLoopUpTo_statics env
    (updateInteractibleCooldowns (updateMovingPlatforms env (beginTick inp w)))
    (updateInteractibleCooldowns (updateMovingPlatforms env (beginTick inp w))).bodies.length
  obtain ⟨_, _, f3, f4, _⟩ := tickFront_stage env inp w
  have a4 := (atVelocityUpdate_bodies env inp w).2.2
  have a2 := (advanceVanishingClock_stage (afterPlatformBlocks env inp w)).2.1
  have hfr : (tickFront env inp w).activeMovingPlatforms
      = (updateMovingPlatforms env (beginTick inp w)).activeMovingPlatforms :=
    f4.trans (a4.trans hs.2.2.1)
  have hmt : (updateMovingPlatforms env (beginTick inp w)).tiles.length = w.tiles.length :=
    updateMovingPlatformsLoop_tiles_length env _ _ _
  have hft : (tickFront env inp w).tiles.length = w.tiles.length := by
    rw [f3, a2]
    exact hs.2.2.2.2.2.2.2.2.2.trans hmt
  unfold tick tickTail
  split_ifs
  · exact ⟨hfr, hft⟩
  · have hd := interactionDispatch_records env inp (tickFront env inp w)
    constructor
    · have e : (fallDeath (interactionDispatch env inp (tickFront env inp w))).1.activeMovingPlatforms
          = (interactionDispatch env inp (tickFront env inp w)).activeMovingPlatforms := by
        unfold fallDeath; split_ifs <;> rfl
      rw [e, hd.1]; exact hfr
    · rw [fallDeath_tiles, hd.2]; exact hft

theorem updateMovingPlatformsLoop_recordIds (recs : List ActiveMovingPlatform) :
    ∀ (bodies : List PlatformBody) (tiles : List Tile),
      (updateMovingPlatformsLoop env recs bodies tiles).1.map (fun r => r.id)
        = recs.map (fun r => r.id) := by
  induction recs with
  | nil => intro bodies tiles; rfl
  | cons a rest ih =>
    intro bodies tiles
    simp only [updateMovingPlatformsLoop, List.map_cons]
    rw [ih, (updateMovingPlatform_ids env a bodies tiles).2]

/-- A tick keeps the ids of the movement records. -/
theorem tick_recordIds :
    (tick env inp w).1.activeMovingPlatforms.map (fun r => r.id)
      = w.activeMovingPlatforms.map (fun r => r.id) := by
  rw [(tick_records env inp w).1]
  exact updateMovingPlatformsLoop_recordIds env _ _ _

theorem noRecord_of_ids (l l1 : List ActiveMovingPlatform) (key : Nat)
    (hids : l1.map (fun r => r.id) = l.map (fun r => r.id))
    (h : ∀ r ∈ l, r.id ≠ key) : ∀ r ∈ l1, r.id ≠ key := by
  intro r hr hid
  have hm : key ∈ l1.map (fun r => r.id) := List.mem_map.mpr ⟨r, hr, hid⟩
  rw [hids] at hm
  obtain ⟨r0, hr0, hid0⟩ := List.mem_map.mp hm
  exact h r0 hr0 hid0

theorem noRecord_runTicks (key : Nat) (inps : List TickInput) :
    ∀ w : World Tile, (∀ r ∈ w.activeMovingPlatforms, r.id ≠ key) →
      ∀ r ∈ (runTicks env inps w).activeMovingPlatforms, r.id ≠ key := by
  induction inps with
  | nil => intro w h; exact h
  | cons i rest ih =>
    intro w h
    exact ih _ (noRecord_of_ids _ _ key (tick_recordIds env i w) h)

/-- The moving-platform loop leaves alone a body whose id no record has. -/
theorem updateMovingPlatformsLoop_norecord (recs : List ActiveMovingPlatform) :
    ∀ (bodies : List PlatformBody) (tiles : List Tile) (g : Nat) (b : PlatformBody),
      bodies[g]? = some b → (∀ r ∈ recs, r.id ≠ b.id) →
      (updateMovingPlatformsLoop env recs bodies tiles).2.1[g]? = some b := by
  induction recs with
  | nil => intro bodies tiles g b h _; exact h
  | cons a rest ih =>
    intro bodies tiles g b h hn
    simp only [updateMovingPlatformsLoop]
    exact ih _ _ g b
      (updateMovingPlatform_other env a bodies tiles g b h (hn a (List.mem_cons_self a rest)))
      (fun r hr => hn r (List.mem_cons_of_mem a hr))

/-- Without a record with the ground body's id the carry of the "moving" branch is zero. -/
theorem movingCarry_norecord (pf : PlatformBody)
    (h : ∀ r ∈ w.activeMovingPlatforms, r.id ≠ pf.id) : movingCarry w pf = ⟨0, 0⟩ := by
  have hf : w.activeMovingPlatforms.find? (fun activePlat => decide (activePlat.id = pf.id))
      = none := by
    rw [List.find?_eq_none]
    intro r hr
    simp [h r hr]
  unfold movingCarry
  rw [hf]

theorem vector_add_zero (v : Vector2f) : v + (⟨0, 0⟩ : Vector2f) = v := by
  cases v with
  | mk x y =>
    show (⟨x + 0, y + 0⟩ : Vector2f) = ⟨x, y⟩
    rw [add_zero, add_zero]

/-- A player grounded after collision on a body of live type moving whose id no record
has is not carried: the post-collision block leaves its position. -/
theorem tickFront_no_carry (k : Nat) (pf : PlatformBody)
    (hno : ∀ r ∈ w.activeMovingPlatforms, r.id ≠ pf.id)
    (hog : (afterCollision env inp w).1.playerBody.onGround = true)
    (href : (afterCollision env inp w).1.playerBody.groundPlatform = some k)
    (hpf : (afterCollision env inp w).1.bodies[k]? = some pf)
    (hty : pf.type = bodyType.moving) :
    (tickFront env inp w).playerBody.position
      = (afterCollision env inp w).1.playerBody.position := by
  have hno2 : ∀ r ∈ (afterCollision env inp w).1.activeMovingPlatforms, r.id ≠ pf.id := by
    rw [(afterCollision_stage env inp w).2]
    exact noRecord_of_ids _ _ pf.id (updateMovingPlatformsLoop_recordIds env _ _ _) hno
  have hgb : groundBody (afterCollision env inp w).1 = some pf := by
    unfold groundBody; rw [href]; exact hpf
  have hge := groundEffects_moving (afterCollision env inp w).1 pf hog hgb hty
  rw [tickFront_eq, postCollision_eq]
  split_ifs <;>
    simp only [hge, movingCarry_norecord (afterCollision env inp w).1 pf hno2, vector_add_zero]

/-- A body with the id of the authored moving platform `T`, at `T`'s authored position, of
live type moving or portal, in a world in the level `data` in which `T` is the first
template with its id and no movement record has `T`'s id: a tick that does not reach the
goal leaves such a body at the index. -/
theorem static_body_tick (data : LevelData) (g : Nat) (T b : PlatformBody)
    (hfirst : findTemplate data T.id = some T) (hTy : T.type = bodyType.moving)
    (hd : w.currentLevelData = data)
    (hno : ∀ r ∈ w.activeMovingPlatforms, r.id ≠ T.id)
    (hb : w.bodies[g]? = some b) (hid : b.id = T.id) (hpos : b.position = T.position)
    (hty : b.type = bodyType.moving ∨ b.type = bodyType.portal)
    (hgoal : goalTick env inp w = false) :
    (tick env inp w).1.currentLevelData = data ∧
    ∃ b1, (tick env inp w).1.bodies[g]? = some b1 ∧ b1.id = T.id ∧
      b1.position = T.position ∧ (b1.type = bodyType.moving ∨ b1.type = bodyType.portal) := by
  have hm : (updateMovingPlatforms env (beginTick inp w)).bodies[g]? = some b :=
    updateMovingPlatformsLoop_norecord env _ _ _ g b hb (by rw [hid]; exact hno)
  have hT1 : ∀ templ, findTemplate (updateInteractibleCooldowns
      (updateMovingPlatforms env (beginTick inp w))).currentLevelData b.id = some templ →
      templ.type ≠ bodyType.falling ∧ templ.type ≠ bodyType.vanishing := by
    intro templ ht
    have ht2 : findTemplate w.currentLevelData b.id = some templ := ht
    rw [hd, hid, hfirst] at ht2
    have e : T = templ := Option.some.inj ht2
    rw [← e, hTy]
    exact ⟨by decide, by decide⟩
  have hp : (afterPlatformBlocks env inp w).bodies[g]? = some b :=
    updatePlatformStates_untouched env _ g b hm hT1
  obtain ⟨hfb, htb⟩ := tick_bodies env inp w
  have hf : (tickFront env inp w).bodies[g]? = some b := by rw [hfb]; exact hp
  refine ⟨(tick_currentLevelData env inp w hgoal).trans hd, ?_⟩
  rcases htb with e | e
  · exact ⟨b, by rw [e]; exact hf, hid, hpos, hty⟩
  · have hni : b.type ≠ bodyType.interactible := by
      rcases hty with h | h <;> rw [h] <;> decide
    obtain ⟨b1, hb1, heff⟩ := interactionDispatch_effect env inp (tickFront env inp w) g b hf hni
    rw [tickFront_currentLevelData, hd] at heff
    refine ⟨b1, by rw [e]; exact hb1, ?_⟩
    rcases heff with h | ⟨h, _⟩ | ⟨h, _⟩ | ⟨_, _, _, _, _, h⟩
    · rw [h]; exact ⟨hid, hpos, hty⟩
    · rcases hty with t | t <;> rcases h with h | h <;> rw [t] at h <;> exact absurd h (by decide)
    · rcases hty with t | t <;> rw [t] at h <;> exact absurd h (by decide)
    · rw [h]
      refine ⟨hid, ?_, Or.inr rfl⟩
      show originalLinkedPos data b.id = T.position
      rw [hid]
      simp [originalLinkedPos, hfirst]

theorem static_body_runTicks (data : LevelData) (g : Nat) (T : PlatformBody)
    (hfirst : findTemplate data T.id = some T) (hTy : T.type = bodyType.moving)
    (inps : List TickInput) :
    ∀ (w : World Tile) (b : PlatformBody), w.currentLevelData = data →
      (∀ r ∈ w.activeMovingPlatforms, r.id ≠ T.id) →
      w.bodies[g]? = some b → b.id = T.id → b.position = T.position →
      (b.type = bodyType.moving ∨ b.type = bodyType.portal) →
      noGoalTick env inps w = true →
      ∃ b1, (runTicks env inps w).bodies[g]? = some b1 ∧ b1.id = T.id ∧
        b1.position = T.position := by
  induction inps with
  | nil => intro w b _ _ hb hid hpos _ _; exact ⟨b, hb, hid, hpos⟩
  | cons i rest ih =>
    intro w b hd hno hb hid hpos hty hng
    simp only [noGoalTick, Bool.and_eq_true, Bool.not_eq_true'] at hng
    obtain ⟨d1, b1, hb1, hid1, hpos1, hty1⟩ :=
      static_body_tick env i w data g T b hfirst hTy hd hno hb hid hpos hty hng.1
    exact ih _ b1 d1 (noRecord_of_ids _ _ T.id (tick_recordIds env i w) hno)
      hb1 hid1 hpos1 hty1 hng.2

end StaticMoving

section RetiredVanishing

variable (env : Env Tile) (inp : TickInput) (w : World Tile)

/-- The platform-state loop leaves a platform authored as vanishing whose authored position
is not usable with live type none, off-stage. -/
theorem updatePlatformStates_retired (i : Nat) (b templ : PlatformBody)
    (hb : w.bodies[i]? = some b) (ht : i < w.tiles.length)
    (hT : findTemplate w.currentLevelData b.id = some templ)
    (hTy : templ.type = bodyType.vanishing) (hx : ¬ templ.position.x > -9998) :
    ∃ b1, (updatePlatformStates env w).bodies[i]? = some b1 ∧ b1.id = b.id ∧
      b1.type = bodyType.none ∧ b1.position = offStage := by
  obtain ⟨hs, hvb, hvt, hres, _⟩ := updatePlatformStates_at env w i b hb
  have hlen : i < (platformLoopUpTo env w i).bodies.length := (List.getElem?_eq_some.mp hvb).1
  obtain ⟨t, htile⟩ : ∃ t, (platformLoopUpTo env w i).tiles[i]? = some t := by
    rw [hvt]; exact ⟨w.tiles[i], List.getElem?_eq_getElem ht⟩
  have hT1 : findTemplate (platformLoopUpTo env w i).currentLevelData b.id = some templ := by
    rw [hs.2.1]; exact hT
  have hnf : templ.type ≠ bodyType.falling := by rw [hTy]; decide
  rw [hres]
  simp only [updatePlatformState, hvb, htile, hT1, hnf, hTy, if_true, if_false, vanishingStep]
  split_ifs <;> simp_all [List.getElem?_set_self hlen]

/-- In a tick, the platform update leaves such a platform with live type none, off-stage,
and so does the whole tick. -/
theorem retired_tick (i : Nat) (b templ : PlatformBody)
    (hb : w.bodies[i]? = some b) (ht : i < w.tiles.length)
    (hT : findTemplate w.currentLevelData b.id = some templ)
    (hTy : templ.type = bodyType.vanishing) (hx : ¬ templ.position.x > -9998) :
    (∃ b1, (afterPlatformBlocks env inp w).bodies[i]? = some b1 ∧ b1.id = b.id ∧
      b1.type = bodyType.none ∧ b1.position = offStage) ∧
    (∃ b2, (tick env inp w).1.bodies[i]? = some b2 ∧ b2.id = b.id ∧
      b2.type = bodyType.none ∧ b2.position = offStage) := by
  obtain ⟨⟨bm, hm, hmid, _, _⟩, hmt⟩ := updateMovingPlatforms_body env (beginTick inp w) i b hb
  have hT1 : findTemplate (updateInteractibleCooldowns
      (updateMovingPlatforms env (beginTick inp w))).currentLevelData bm.id = some templ := by
    rw [hmid]; exact hT
  have ht1 : i < (updateInteractibleCooldowns
      (updateMovingPlatforms env (beginTick inp w))).tiles.length := by
    show i < (updateMovingPlatforms env (beginTick inp w)).tiles.length
    rw [hmt]; exact ht
  obtain ⟨b1, hb1, hid1, hty1, hpos1⟩ := updatePlatformStates_retired env
    (updateInteractibleCooldowns (updateMovingPlatforms env (beginTick inp w)))
    i bm templ hm ht1 hT1 hTy hx
  have hp : (afterPlatformBlocks env inp w).bodies[i]? = some b1 := hb1
  refine ⟨⟨b1, hp, hid1.trans hmid, hty1, hpos1⟩, ?_⟩
  obtain ⟨hfb, htb⟩ := tick_bodies env inp w
  have hf : (tickFront env inp w).bodies[i]? = some b1 := by rw [hfb]; exact hp
  rcases htb with e | e
  · exact ⟨b1, by rw [e]; exact hf, hid1.trans hmid, hty1, hpos1⟩
  · have hni : b1.type ≠ bodyType.interactible := by rw [hty1]; decide
    obtain ⟨b2, hb2, heff⟩ := interactionDispatch_effect env inp (tickFront env inp w) i b1 hf hni
    rw [tickFront_currentLevelData] at heff
    have hb2e : b2 = b1 := by
      rcases heff with h | ⟨h, _⟩ | ⟨_, h, _⟩ | ⟨h, _⟩
      · exact h
      · rcases h with h | h <;> rw [hty1] at h <;> exact absurd h (by decide)
      · have hpos : originalLinkedPos w.currentLevelData b1.id = templ.position := by
          rw [hid1, hmid]
          simp [originalLinkedPos, hT]
        rw [hpos] at h
        exact absurd h hx
      · exact absurd hty1 h
    rw [hb2e] at hb2
    exact ⟨b1, by rw [e]; exact hb2, hid1.trans hmid, hty1, hpos1⟩

/-- Ticks that do not reach the goal keep the level data, the number of tiles and the id of
the body at every index. -/
theorem level_runTicks (i : Nat) (inps : List TickInput) :
    ∀ (w : World Tile) (b : PlatformBody), w.bodies[i]? = some b →
      noGoalTick env inps w = true →
      (runTicks env inps w).currentLevelData = w.currentLevelData ∧
      (runTicks env inps w).tiles.length = w.tiles.length ∧
      ∃ b1, (runTicks env inps w).bodies[i]? = some b1 ∧ b1.id = b.id := by
  induction inps with
  | nil => intro w b hb _; exact ⟨rfl, rfl, b, hb, rfl⟩
  | cons x rest ih =>
    intro w b hb hng
    simp only [noGoalTick, Bool.and_eq_true, Bool.not_eq_true'] at hng
    have hb1 : ∃ b1, (tick env x w).1.bodies[i]? = some b1 ∧ b1.id = b.id := by
      have hids : (afterPlatformBlocks env x w).bodies.map (fun y => y.id)
          = w.bodies.map (fun y => y.id) := afterPlatformBlocks_ids env x w
      have hp : ∃ bp, (afterPlatformBlocks env x w).bodies[i]? = some bp ∧ bp.id = b.id := by
        have e := congrArg (fun l => l[i]?) hids
        simp only [List.getElem?_map, hb, Option.map_some'] at e
        cases hq : (afterPlatformBlocks env x w).bodies[i]? with
        | none => rw [hq] at e; simp at e
        | some bp =>
          rw [hq] at e
          exact ⟨bp, rfl, by simpa using e⟩
      obtain ⟨bp, hbp, hbpid⟩ := hp
      obtain ⟨hfb, htb⟩ := tick_bodies env x w
      have hf : (tickFront env x w).bodies[i]? = some bp := by rw [hfb]; exact hbp
      rcases htb with e | e
      · exact ⟨bp, by rw [e]; exact hf, hbpid⟩
      · obtain ⟨b2, hb2, hid2, _⟩ := interactionDispatch_body env x (tickFront env x w) i bp hf
        exact ⟨b2, by rw [e]; exact hb2, hid2.trans hbpid⟩
    obtain ⟨b1, hb1, hid1⟩ := hb1
    obtain ⟨r1, r2, b2, hb2, hid2⟩ := ih (tick env x w).1 b1 hb1 hng.2
    exact ⟨r1.trans (tick_currentLevelData env x w hng.1),
      r2.trans (tick_records env x w).2, b2, hb2, hid2.trans hid1⟩

end RetiredVanishing

section CycleGuards

variable (env : Env Tile)

theorem fmod_range (x y : ℚ) (h0 : 0 ≤ x) (hy : 0 < y) : 0 ≤ fmod x y ∧ fmod x y < y := by
  have hq : 0 ≤ x / y := div_nonneg h0 hy.le
  have h1 : ((⌊x / y⌋ : Int) : ℚ) ≤ x / y := Int.floor_le _
  have h2 : x / y < ((⌊x / y⌋ : Int) : ℚ) + 1 := Int.lt_floor_add_one _
  have hx : x = x / y * y := by field_simp
  have h3 : ((⌊x / y⌋ : Int) : ℚ) * y ≤ x / y * y := mul_le_mul_of_nonneg_right h1 hy.le
  have h4 : x / y * y < (((⌊x / y⌋ : Int) : ℚ) + 1) * y := mul_lt_mul_of_pos_right h2 hy
  simp only [fmod, hq, if_true]
  constructor <;> nlinarith

theorem effectiveDuration_pos (a : ActiveMovingPlatform) : 0 < effectiveDuration a := by
  unfold effectiveDuration
  split_ifs with h
  · exact lt_trans (by norm_num) h
  · norm_num

/-- One moving-platform iteration keeps a cycle time that is within `[0, modulus)`. -/
theorem updateMovingPlatform_cycle (a : ActiveMovingPlatform) (bodies : List PlatformBody)
    (tiles : List Tile)
    (h : 0 ≤ a.cycleTime ∧ a.cycleTime < effectiveDuration a) :
    0 ≤ (updateMovingPlatform env a bodies tiles).1.cycleTime ∧
    (updateMovingPlatform env a bodies tiles).1.cycleTime
      < effectiveDuration (updateMovingPlatform env a bodies tiles).1 := by
  have hdt : (0 : ℚ) ≤ fixed_dt_seconds := by norm_num [fixed_dt_seconds]
  unfold updateMovingPlatform
  split
  · exact h
  · split
    · exact h
    · exact fmod_range _ _ (add_nonneg h.1 hdt) (effectiveDuration_pos a)

theorem updateMovingPlatformsLoop_cycle (recs : List ActiveMovingPlatform) :
    ∀ (bodies : List PlatformBody) (tiles : List Tile),
      (∀ r ∈ recs, 0 ≤ r.cycleTime ∧ r.cycleTime < effectiveDuration r) →
      ∀ r ∈ (updateMovingPlatformsLoop env recs bodies tiles).1,
        0 ≤ r.cycleTime ∧ r.cycleTime < effectiveDuration r := by
  induction recs with
  | nil => intro bodies tiles h; exact h
  | cons a rest ih =>
    intro bodies tiles h r hr
    simp only [updateMovingPlatformsLoop] at hr
    rcases List.mem_cons.mp hr with e | e
    · rw [e]
      exact updateMovingPlatform_cycle env a bodies tiles (h a (List.mem_cons_self a rest))
    · exact ih _ _ (fun x hx => h x (List.mem_cons_of_mem a hx)) r e

/-- In every world in which a tick starts the cycle time of every movement record is within
`[0, modulus)`. -/
theorem reachable_cycle (w : World Tile) (h : Reachable env w) :
    ∀ r ∈ w.activeMovingPlatforms, 0 ≤ r.cycleTime ∧ r.cycleTime < effectiveDuration r := by
  induction h with
  | setup w0 =>
    intro r hr
    have hz := (setupFold_fresh env w0.currentLevelData w0.currentLevelData.platforms
      (([] : List PlatformBody), ([] : List ActiveMovingPlatform),
        (fun _ => (none : Option ActiveInteractiblePlatform)))
      (by intro x hx; simp at hx) (by intro k st hst; simp at hst)).1 r hr
    rw [hz]
    exact ⟨le_refl _, effectiveDuration_pos r⟩
  | tick inp w0 _ ih =>
    rw [(tick_records env inp w0).1]
    exact updateMovingPlatformsLoop_cycle env _ _ _ ih

/-- The offset does not depend on the values of the easing function at phase durations that
are not above 1/100000. -/
theorem movingOffset_easing (ease : ℚ → ℚ → ℚ → ℚ → ℚ)
    (hag : ∀ t b c d, d > 1 / 100000 → ease t b c d = env.sineEaseInOut t b c d)
    (a : ActiveMovingPlatform) (t D : ℚ) :
    movingOffset (withEasing env ease) a t D = movingOffset env a t D := by
  simp only [movingOffset, withEasing]
  split_ifs with h1 h2
  · exact hag _ _ _ _ h1
  · exact hag _ _ _ _ h1
  · rfl

theorem updateMovingPlatform_easing (ease : ℚ → ℚ → ℚ → ℚ → ℚ)
    (hag : ∀ t b c d, d > 1 / 100000 → ease t b c d = env.sineEaseInOut t b c d)
    (a : ActiveMovingPlatform) (bodies : List PlatformBody) (tiles : List Tile) :
    updateMovingPlatform (withEasing env ease) a bodies tiles
      = updateMovingPlatform env a bodies tiles := by
  simp only [updateMovingPlatform, movingOffset_easing env ease hag]
  rfl

theorem setupBody_easing (ease : ℚ → ℚ → ℚ → ℚ → ℚ)
    (hag : ∀ t b c d, d > 1 / 100000 → ease t b c d = env.sineEaseInOut t b c d)
    (data : LevelData)
    (acc : List PlatformBody × List ActiveMovingPlatform ×
      (Nat → Option ActiveInteractiblePlatform))
    (t : PlatformBody) :
    setupBody (withEasing env ease) data acc t = setupBody env data acc t := by
  have h0 : ∀ d : MovingPlatformDetail,
      (if d.cycleDuration > 0 ∧ d.cycleDuration / 2 > 1 / 100000 then
        ease 0 0 ((d.initialDirection : ℚ) * d.distance) (d.cycleDuration / 2) else 0)
      = (if d.cycleDuration > 0 ∧ d.cycleDuration / 2 > 1 / 100000 then
        env.sineEaseInOut 0 0 ((d.initialDirection : ℚ) * d.distance) (d.cycleDuration / 2)
        else 0) := by
    intro d
    split_ifs with hc
    · exact hag _ _ _ _ hc.2
    · rfl
  simp only [setupBody, withEasing, h0]

end CycleGuards

section CooldownBounds

variable (env : Env Tile)

/-- The cooldown block as one formula: a positive timer is lowered by the tick length and
clamped at 0, any other timer is kept. -/
theorem updateCooldown_value (st : ActiveInteractiblePlatform) :
    (updateCooldown st).currentCooldownTimer
      = if st.currentCooldownTimer > 0 then max 0 (st.currentCooldownTimer - fixed_dt_seconds)
        else st.currentCooldownTimer := by
  by_cases h1 : st.currentCooldownTimer > 0
  · by_cases h2 : st.currentCooldownTimer - fixed_dt_seconds < 0
    · simp only [updateCooldown, if_pos h1, if_pos h2]
      exact (max_eq_left (le_of_lt h2)).symm
    · simp only [updateCooldown, if_pos h1, if_neg h2]
      exact (max_eq_right (not_lt.mp h2)).symm
  · simp only [updateCooldown, if_neg h1]

theorem updateCooldown_bounds (st : ActiveInteractiblePlatform)
    (h : 0 ≤ st.currentCooldownTimer ∧ st.currentCooldownTimer ≤ st.cooldown) :
    0 ≤ (updateCooldown st).currentCooldownTimer ∧
    (updateCooldown st).currentCooldownTimer ≤ (updateCooldown st).cooldown := by
  have hdt : (0 : ℚ) < fixed_dt_seconds := by norm_num [fixed_dt_seconds]
  rw [(updateCooldown_keeps st).2.2, updateCooldown_value]
  split_ifs with h1
  · exact ⟨le_max_left _ _, max_le (le_trans h.1 h.2) (by linarith [h.2])⟩
  · exact h

theorem markActivated_bounds (st : ActiveInteractiblePlatform) (hc : 0 ≤ st.cooldown)
    (h : 0 ≤ st.currentCooldownTimer ∧ st.currentCooldownTimer ≤ st.cooldown) :
    0 ≤ (markActivated st).currentCooldownTimer ∧
    (markActivated st).currentCooldownTimer ≤ (markActivated st).cooldown := by
  unfold markActivated
  split_ifs
  · exact h
  · exact ⟨hc, le_refl _⟩

theorem markActivated_cooldown (st : ActiveInteractiblePlatform) :
    (markActivated st).cooldown = st.cooldown := by
  unfold markActivated
  split_ifs <;> rfl

/-- The record under a key after a tick: the cooldown block has run on it, and then the
block "mark spent / start cooldown" if and only if the tick activated this key. -/
theorem tick_record (inp : TickInput) (w : World Tile) (key : Nat) :
    (tick env inp w).1.activeInteractibles key
      = (w.activeInteractibles key).map (fun st =>
          if activatedKey env inp w = some key then markActivated (updateCooldown st)
          else updateCooldown st) := by
  have hF : (tickFront env inp w).activeInteractibles key
      = (w.activeInteractibles key).map updateCooldown := by
    rw [tickFront_activeInteractibles]
  rcases tick_activeInteractibles env inp w with ⟨hn, he⟩ | ⟨k, st, hk, hrec, _, _, he⟩
  · rw [he, hF, hn]
    simp
  · rw [he, hk]
    by_cases hkk : key = k
    · subst hkk
      rw [Function.update_same]
      rw [hF] at hrec
      cases hw : w.activeInteractibles key with
      | none => rw [hw] at hrec; simp at hrec
      | some st0 =>
        rw [hw] at hrec
        simp only [Option.map_some'] at hrec
        have e : updateCooldown st0 = st := Option.some.inj hrec
        simp [e]
    · rw [Function.update_noteq hkk, hF]
      have hne : ¬ (some k = some key) := fun h => hkk (Option.some.inj h).symm
      simp [hne]

/-- After level setup every interaction record has remaining cooldown 0. -/
theorem startLevel_timer (w0 : World Tile) (key : Nat) (st : ActiveInteractiblePlatform)
    (h : (startLevel env w0).activeInteractibles key = some st) :
    st.currentCooldownTimer = 0 :=
  ((setupFold_fresh env w0.currentLevelData w0.currentLevelData.platforms
      (([] : List PlatformBody), ([] : List ActiveMovingPlatform),
        (fun _ => (none : Option ActiveInteractiblePlatform)))
      (by intro x hx; simp at hx) (by intro k s hs; simp at hs)).2 key st h).1

/-- In every world in which a tick starts, a record with a non-negative configured cooldown
has its remaining cooldown between 0 and the configured cooldown. -/
theorem reachable_cooldown (w : World Tile) (h : Reachable env w) :
    ∀ key st, w.activeInteractibles key = some st → 0 ≤ st.cooldown →
      0 ≤ st.currentCooldownTimer ∧ st.currentCooldownTimer ≤ st.cooldown := by
  induction h with
  | setup w0 =>
    intro key st hst hc
    rw [startLevel_timer env w0 key st hst]
    exact ⟨le_refl _, hc⟩
  | tick inp w0 _ ih =>
    intro key st hst hc
    rw [tick_record] at hst
    cases hw : w0.activeInteractibles key with
    | none => rw [hw] at hst; simp at hst
    | some st0 =>
      rw [hw] at hst
      simp only [Option.map_some'] at hst
      have e := Option.some.inj hst
      have hk := (updateCooldown_keeps st0).2.2
      split_ifs at e with ha
      · have hc0 : 0 ≤ st0.cooldown := by
          rw [← hk, ← markActivated_cooldown, e]; exact hc
        rw [← e]
        exact markActivated_bounds _ (by rw [hk]; exact hc0)
          (updateCooldown_bounds st0 (ih key st0 hw hc0))
      · have hc0 : 0 ≤ st0.cooldown := by
          rw [← hk, e]; exact hc
        rw [← e]
        exact updateCooldown_bounds st0 (ih key st0 hw hc0)

end CooldownBounds

section OneWay

variable (env : Env Tile) (inp : TickInput) (w : World Tile)

theorem velocityUpdate_drop (newJump : Bool) :
    (velocityUpdate inp newJump w).playerBody.tryingToDrop = w.playerBody.tryingToDrop ∧
    (velocityUpdate inp newJump w).playerBody.onGround = w.playerBody.onGround ∧
    (velocityUpdate inp newJump w).playerBody.groundPlatform = w.playerBody.groundPlatform ∧
    (velocityUpdate inp newJump w).playerBody.position = w.playerBody.position := by
  simp only [velocityUpdate]
  split_ifs <;> exact ⟨rfl, rfl, rfl, rfl⟩

/-- In a tick without jump input whose platform blocks keep the ground contact, the player
reaches the collision call on ground, with the ground reference and the position the tick
started with and with the vertical velocity the tick started with. -/
theorem afterVelocityUpdate_grounded (hj : inp.jumpIntentThisFrame = false)
    (hk : (atVelocityUpdate env inp w).playerBody.onGround = true) :
    (afterVelocityUpdate env inp w).playerBody.onGround = true ∧
    (afterVelocityUpdate env inp w).playerBody.groundPlatform = w.playerBody.groundPlatform ∧
    (afterVelocityUpdate env inp w).playerBody.position = w.playerBody.position ∧
    (afterVelocityUpdate env inp w).playerBody.velocity.y = w.playerBody.velocity.y := by
  have hg : (atVelocityUpdate env inp w).playerBody.groundPlatform
      = w.playerBody.groundPlatform := by
    rcases atVelocityUpdate_player env inp w with e | e
    · rw [e]; rfl
    · rw [e] at hk
      exact Bool.noConfusion hk
  have hd := velocityUpdate_drop inp (atVelocityUpdate env inp w) (newJumpPressThisFrame inp w)
  have hpos := (atVelocityUpdate_kinematics env inp w).2.1
  have hv := (atVelocityUpdate_kinematics env inp w).1
  refine ⟨?_, ?_, ?_, ?_⟩
  · unfold afterVelocityUpdate; rw [hd.2.1]; exact hk
  · unfold afterVelocityUpdate; rw [hd.2.2.1]; exact hg
  · unfold afterVelocityUpdate; rw [hd.2.2.2]; exact hpos
  · have hn : newJumpPressThisFrame inp w = false := by
      simp [newJumpPressThisFrame, hj]
    simp [afterVelocityUpdate, velocityUpdate, hn, hj, hk, hv]

end OneWay

/-- C1: when the tick reaches the trap check with the player intersecting a body of live
type `trap`, the tick ends in trap death and leaves the tick loop, whatever the interact
press and whatever else the player overlaps; the interaction dispatch is not run: apart
from the game state, the world is the one that reached the trap check. -/
theorem trap_death_preempts_dispatch (env : Env Tile) (inp : TickInput) (w : World Tile)
    (h : ∃ b ∈ (tickFront env inp w).bodies, b.type = bodyType.trap ∧
      b.getAABB.intersects (tickFront env inp w).playerBody.getAABB = true) :
    (tick env inp w).1.currentState = GameState.GAME_OVER_LOSE_DEATH ∧
    (tick env inp w).2 = true ∧
    (tick env inp w).1.currentLevelData = (tickFront env inp w).currentLevelData ∧
    (tick env inp w).1.playerBody = (tickFront env inp w).playerBody ∧
    (tick env inp w).1.bodies = (tickFront env inp w).bodies ∧
    (tick env inp w).1.tiles = (tickFront env inp w).tiles ∧
    (tick env inp w).1.activeInteractibles = (tickFront env inp w).activeInteractibles := by
  have ht : trapHit (tickFront env inp w) = true := by
    obtain ⟨b, hb, hty, hint⟩ := h
    unfold trapHit
    rw [List.any_eq_true]
    exact ⟨b, hb, by simp [hty, hint]⟩
  simp [tick, tickTail, ht]

/-- C1 at a sample level: the player overlaps a trap and a goal and presses interact. -/
theorem trap_death_preempts_dispatch_witness :
    (∃ b ∈ (tickFront sampleEnv (mkInput true) (mkWorld trapGoalLevel (mkPlayer 0 0))).bodies,
      b.type = bodyType.trap ∧ b.getAABB.intersects
        (tickFront sampleEnv (mkInput true)
          (mkWorld trapGoalLevel (mkPlayer 0 0))).playerBody.getAABB = true) ∧
    goalOverlap (tickFront sampleEnv (mkInput true)
      (mkWorld trapGoalLevel (mkPlayer 0 0))) = true ∧
    (tick sampleEnv (mkInput true) (mkWorld trapGoalLevel (mkPlayer 0 0))).1.currentState
      = GameState.GAME_OVER_LOSE_DEATH :=
  ⟨by decide!, by decide!,
   (trap_death_preempts_dispatch sampleEnv (mkInput true)
      (mkWorld trapGoalLevel (mkPlayer 0 0)) (by decide!)).1⟩

/-- C2: in a tick with interact pressed and no trap hit the dispatch applies at most one
effect, in the order goal, portal, interactible. With a goal overlapped the player body,
the bodies, the tiles and the interaction records stay as they reached the dispatch (no
teleport, no activation). Without a goal, when the portal scan finds a source and a target,
the player is teleported and bodies, tiles, records and level data stay (no activation).
Only when neither applies the interactible loop runs, and it neither moves the player nor
touches the level data. -/
theorem interaction_dispatch_priority (env : Env Tile) (inp : TickInput) (w : World Tile)
    (hE : inp.interactKeyPressedThisFrame = true)
    (hT : trapHit (tickFront env inp w) = false) :
    (goalOverlap (tickFront env inp w) = true →
      (tick env inp w).1.playerBody = (tickFront env inp w).playerBody ∧
      (tick env inp w).1.bodies = (tickFront env inp w).bodies ∧
      (tick env inp w).1.tiles = (tickFront env inp w).tiles ∧
      (tick env inp w).1.activeInteractibles = (tickFront env inp w).activeInteractibles) ∧
    (goalOverlap (tickFront env inp w) = false →
      ∀ S T, portalScan (tickFront env inp w).playerBody (tickFront env inp w).bodies
          (tickFront env inp w).bodies = some (S, T) →
        (tick env inp w).1.playerBody = teleportPlayer (tickFront env inp w).playerBody S T ∧
        (tick env inp w).1.bodies = (tickFront env inp w).bodies ∧
        (tick env inp w).1.tiles = (tickFront env inp w).tiles ∧
        (tick env inp w).1.activeInteractibles = (tickFront env inp w).activeInteractibles ∧
        (tick env inp w).1.currentLevelData = (tickFront env inp w).currentLevelData) ∧
    (goalOverlap (tickFront env inp w) = false →
      portalScan (tickFront env inp w).playerBody (tickFront env inp w).bodies
          (tickFront env inp w).bodies = none →
        (tick env inp w).1 = (fallDeath (interactibleDispatch env (tickFront env inp w))).1 ∧
        (tick env inp w).1.playerBody.position = (tickFront env inp w).playerBody.position ∧
        (tick env inp w).1.playerBody.velocity = (tickFront env inp w).playerBody.velocity ∧
        (tick env inp w).1.playerBody.lastPosition
          = (tickFront env inp w).playerBody.lastPosition ∧
        (tick env inp w).1.currentLevelData = (tickFront env inp w).currentLevelData) := by
  refine ⟨?_, ?_, ?_⟩
  · intro hg
    have e : (tick env inp w).1 = (fallDeath (goalReached inp (tickFront env inp w))).1 := by
      simp [tick, tickTail, hT, interactionDispatch, hE, hg]
    rw [e, fallDeath_playerBody, fallDeath_bodies, fallDeath_tiles,
      fallDeath_activeInteractibles]
    exact goalReached_frame inp _
  · intro hg S T hp
    have e : (tick env inp w).1 = (fallDeath { tickFront env inp w with
        playerBody := teleportPlayer (tickFront env inp w).playerBody S T }).1 := by
      simp [tick, tickTail, hT, interactionDispatch, hE, hg, hp]
    rw [e, fallDeath_playerBody, fallDeath_bodies, fallDeath_tiles,
      fallDeath_activeInteractibles, fallDeath_currentLevelData]
    exact ⟨rfl, rfl, rfl, rfl, rfl⟩
  · intro hg hp
    have e : (tick env inp w).1 =
        (fallDeath (interactibleDispatch env (tickFront env inp w))).1 := by
      simp [tick, tickTail, hT, interactionDispatch, hE, hg, hp]
    have k := interactibleDispatch_kinematics env (tickFront env inp w)
    refine ⟨e, ?_, ?_, ?_, ?_⟩
    · rw [e, fallDeath_playerBody]; exact k.1
    · rw [e, fallDeath_playerBody]; exact k.2.1
    · rw [e, fallDeath_playerBody]; exact k.2.2.1
    · rw [e, fallDeath_currentLevelData]; exact k.2.2.2.1

/-- C2 at a sample level: the player overlaps a goal, a linked portal and an interactible
and presses interact; the goal wins, the player is not moved and nothing is activated. -/
theorem interaction_dispatch_priority_witness :
    goalOverlap (tickFront sampleEnv (mkInput true) (mkWorld crowdedLevel (mkPlayer 0 0)))
      = true ∧
    (portalScan (tickFront sampleEnv (mkInput true)
        (mkWorld crowdedLevel (mkPlayer 0 0))).playerBody
      (tickFront sampleEnv (mkInput true) (mkWorld crowdedLevel (mkPlayer 0 0))).bodies
      (tickFront sampleEnv (mkInput true) (mkWorld crowdedLevel (mkPlayer 0 0))).bodies).isSome
      = true ∧
    (tick sampleEnv (mkInput true) (mkWorld crowdedLevel (mkPlayer 0 0))).1.playerBody
      = (tickFront sampleEnv (mkInput true) (mkWorld crowdedLevel (mkPlayer 0 0))).playerBody ∧
    (tick sampleEnv (mkInput true) (mkWorld crowdedLevel (mkPlayer 0 0))).1.bodies
      = (tickFront sampleEnv (mkInput true) (mkWorld crowdedLevel (mkPlayer 0 0))).bodies :=
  ⟨by decide!, by decide!,
   ((interaction_dispatch_priority sampleEnv (mkInput true)
      (mkWorld crowdedLevel (mkPlayer 0 0)) rfl (by decide!)).1 (by decide!)).1,
   ((interaction_dispatch_priority sampleEnv (mkInput true)
      (mkWorld crowdedLevel (mkPlayer 0 0)) rfl (by decide!)).1 (by decide!)).2.1⟩

/-- C9: for a platform authored as vanishing with a usable authored position (x > -9998)
whose live type is vanishing or none, and which has a tile: after the per-tick platform
update, a computed opacity of at most 10 leaves it with live type none at the off-stage
point (-9999, -9999), and a computed opacity above 10 leaves it with live type vanishing at
the authored template position. -/
theorem vanishing_update_threshold (env : Env Tile) (w : World Tile) (i : Nat)
    (b templ : PlatformBody) (hb : w.bodies[i]? = some b) (ht : i < w.tiles.length)
    (hT : findTemplate w.currentLevelData b.id = some templ)
    (hTy : templ.type = bodyType.vanishing) (hx : templ.position.x > -9998)
    (hlive : b.type = bodyType.vanishing ∨ b.type = bodyType.none) :
    ∃ b', (updatePlatformStates env w).bodies[i]? = some b' ∧
      (vanishingAlpha env w b.id ≤ 10 →
        b'.type = bodyType.none ∧ b'.position = offStage) ∧
      (vanishingAlpha env w b.id > 10 →
        b'.type = bodyType.vanishing ∧ b'.position = templ.position) := by
  obtain ⟨hs, hvb, hvt, hres, _⟩ := updatePlatformStates_at env w i b hb
  have hlen : i < (platformLoopUpTo env w i).bodies.length := (List.getElem?_eq_some.mp hvb).1
  obtain ⟨t, htile⟩ : ∃ t, (platformLoopUpTo env w i).tiles[i]? = some t := by
    rw [hvt]; exact ⟨w.tiles[i], List.getElem?_eq_getElem ht⟩
  have hT' : findTemplate (platformLoopUpTo env w i).currentLevelData b.id = some templ := by
    rw [hs.2.1]; exact hT
  have hα := vanishingAlpha_congr env hs b.id
  have hnf : templ.type ≠ bodyType.falling := by rw [hTy]; decide
  rw [hres]
  simp only [updatePlatformState, hvb, htile, hT', hnf, hTy, if_true, if_false, vanishingStep, hα]
  by_cases hα10 : vanishingAlpha env w b.id ≤ 10
  · have hgt : ¬ vanishingAlpha env w b.id > 10 := not_lt.mpr hα10
    simp only [hα10, if_true]
    split_ifs <;>
      simp [List.getElem?_set_self hlen, hgt] <;> tauto
  · have hgt : vanishingAlpha env w b.id > 10 := not_le.mp hα10
    rcases hlive with hv | hv <;>
      simp [hα10, hx, hv, List.getElem?_set_self hlen, hgt]

/-- C9 at a sample level: the first tick of an even-id vanishing platform, opacity 255. -/
theorem vanishing_update_threshold_witness :
    vanishingAlpha sampleEnv (mkWorld vanishingLevel (mkPlayer 0 0)) 2 > 10 ∧
    ∃ b', (updatePlatformStates sampleEnv (mkWorld vanishingLevel (mkPlayer 0 0))).bodies[0]?
        = some b' ∧
      (vanishingAlpha sampleEnv (mkWorld vanishingLevel (mkPlayer 0 0)) 2 ≤ 10 →
        b'.type = bodyType.none ∧ b'.position = offStage) ∧
      (vanishingAlpha sampleEnv (mkWorld vanishingLevel (mkPlayer 0 0)) 2 > 10 →
        b'.type = bodyType.vanishing ∧ b'.position = ⟨100, 200⟩) :=
  ⟨by decide!,
   vanishing_update_threshold sampleEnv (mkWorld vanishingLevel (mkPlayer 0 0)) 0
    (mkBody 2 bodyType.vanishing 100 200) (mkBody 2 bodyType.vanishing 100 200)
    (by decide!) (by decide!) (by decide!) rfl (by decide!) (Or.inl rfl)⟩

/-- C8: in every world in which a tick starts (after level setup and any number of ticks)
the vanishing parity toggle is +1 or -1; an even-id platform is fading out iff the parity
is +1, an odd-id one iff it is -1; so of an even and an odd id exactly one is fading out,
never both and never neither. -/
theorem vanishing_parity_exclusive (env : Env Tile) (w : World Tile) (h : Reachable env w) :
    (w.oddEvenVanishing = 1 ∨ w.oddEvenVanishing = -1) ∧
    (∀ id, id % 2 = 0 →
      (should_be_fading_out_now w.oddEvenVanishing id = true ↔ w.oddEvenVanishing = 1)) ∧
    (∀ id, id % 2 = 1 →
      (should_be_fading_out_now w.oddEvenVanishing id = true ↔ w.oddEvenVanishing = -1)) ∧
    (∀ e o, e % 2 = 0 → o % 2 = 1 →
      should_be_fading_out_now w.oddEvenVanishing e
        = !should_be_fading_out_now w.oddEvenVanishing o) := by
  have hpar : w.oddEvenVanishing = 1 ∨ w.oddEvenVanishing = -1 := by
    induction h with
    | setup w0 => left; rfl
    | tick inp w0 _ ih =>
      rw [(tick_clock env inp w0).2]
      simp only [advanceVanishingClock]
      split_ifs
      · rcases ih with ih | ih <;> simp [ih]
      · exact ih
  refine ⟨hpar, ?_, ?_, ?_⟩
  · intro id hid
    simp [should_be_fading_out_now, hid]
  · intro id hid
    simp [should_be_fading_out_now, hid]
  · intro e o he ho
    rcases hpar with hp | hp <;> simp [should_be_fading_out_now, he, ho, hp]

/-- C8 at a sample level: the world after setup and one tick. -/
theorem vanishing_parity_exclusive_witness :
    (tick sampleEnv (mkInput false)
      (startLevel sampleEnv (mkWorld vanishingLevel (mkPlayer 0 0)))).1.oddEvenVanishing = 1 ∨
    (tick sampleEnv (mkInput false)
      (startLevel sampleEnv (mkWorld vanishingLevel (mkPlayer 0 0)))).1.oddEvenVanishing = -1 :=
  (vanishing_parity_exclusive sampleEnv _
    (Reachable.tick (mkInput false) _ (Reachable.setup (mkWorld vanishingLevel (mkPlayer 0 0))))).1

/-- C4: once a tick has activated a one-time interactible record, no later tick activates
it again, whatever values its two cooldown fields are given before each later tick
(remaining cooldown zero included). -/
theorem one_time_never_reactivates (env : Env Tile) (key : Nat) (w0 : World Tile)
    (inp0 : TickInput) (st0 : ActiveInteractiblePlatform)
    (hrec : w0.activeInteractibles key = some st0) (hone : st0.oneTime = true)
    (hact : activatedKey env inp0 w0 = some key)
    (steps : List (ℚ × ℚ × TickInput)) (c t : ℚ) (inp : TickInput) :
    activatedKey env inp
      (resetCooldownFields key c t (runWithResets env key steps (tick env inp0 w0).1))
      ≠ some key := by
  have hm := (tick_marks_activated env inp0 w0 key st0 hrec hact).1
  have hk := updateCooldown_keeps st0
  have hs0 : Spent (tick env inp0 w0).1 key := by
    refine ⟨markActivated (updateCooldown st0), hm, ?_, ?_⟩
    · simp [markActivated, hk.1, hone]
    · simp [markActivated, hk.1, hone]
  have hs := spent_runWithResets env key steps _ hs0
  exact (spent_tick env inp _ key (spent_reset _ key c t hs)).1

/-- C4 at a sample level: a one-time interactible is activated by the first interact
press; with the cooldown fields reset to zero before each later tick, the second and the
third interact press do not activate it. -/
theorem one_time_never_reactivates_witness :
    activatedKey sampleEnv (mkInput true) (mkWorld (interactibleLevel true 0) (mkPlayer 0 0))
      = some 4 ∧
    activatedKey sampleEnv (mkInput true)
      (resetCooldownFields 4 0 0 (runWithResets sampleEnv 4 [(0, 0, mkInput true)]
        (tick sampleEnv (mkInput true)
          (mkWorld (interactibleLevel true 0) (mkPlayer 0 0))).1)) ≠ some 4 :=
  ⟨by decide!,
   one_time_never_reactivates sampleEnv 4 (mkWorld (interactibleLevel true 0) (mkPlayer 0 0))
    (mkInput true) (interactibleRecord true 0) (by decide!) rfl (by decide!)
    [(0, 0, mkInput true)] 0 0 (mkInput true)⟩

/-- C5: after a tick has activated a repeatable record with configured cooldown c > 0, the
remaining cooldown is c; after k further ticks it is c - k*dt as long as that is positive;
the tick after those k ticks does not activate the record while c - (k+1)*dt, the
remaining cooldown it sees after its own cooldown block, is above zero; and whenever a
later tick does activate the record, it found the remaining cooldown at zero. -/
theorem repeatable_cooldown_blocks (env : Env Tile) (key : Nat) (w0 : World Tile)
    (inp0 : TickInput) (st0 : ActiveInteractiblePlatform)
    (hrec : w0.activeInteractibles key = some st0) (hrep : st0.oneTime = false)
    (hact : activatedKey env inp0 w0 = some key)
    (inps : List TickInput) (inp : TickInput)
    (hpos : st0.cooldown - ((inps.length : ℚ) + 1) * fixed_dt_seconds > 0) :
    (∃ st1, (tick env inp0 w0).1.activeInteractibles key = some st1 ∧
      st1.currentCooldownTimer = st0.cooldown) ∧
    (∃ stk, (runTicks env inps (tick env inp0 w0).1).activeInteractibles key = some stk ∧
      stk.currentCooldownTimer = st0.cooldown - (inps.length : ℚ) * fixed_dt_seconds) ∧
    activatedKey env inp (runTicks env inps (tick env inp0 w0).1) ≠ some key ∧
    (∀ (later : List TickInput) (i : TickInput),
      activatedKey env i (runTicks env later (tick env inp0 w0).1) = some key →
      ∃ st, (tickFront env i (runTicks env later (tick env inp0 w0).1)).activeInteractibles key
          = some st ∧ st.currentCooldownTimer = 0) := by
  have hdt : (0 : ℚ) < fixed_dt_seconds := by norm_num [fixed_dt_seconds]
  have hm := (tick_marks_activated env inp0 w0 key st0 hrec hact).1
  have hk := updateCooldown_keeps st0
  have hmt : (markActivated (updateCooldown st0)).currentCooldownTimer = st0.cooldown := by
    simp [markActivated, hk.1, hrep, hk.2.2]
  have hmc : (markActivated (updateCooldown st0)).cooldown = st0.cooldown := by
    simp [markActivated, hk.1, hrep, hk.2.2]
  have hnn : (0 : ℚ) ≤ (inps.length : ℚ) * fixed_dt_seconds :=
    mul_nonneg (Nat.cast_nonneg _) hdt.le
  have hc : 0 ≤ st0.cooldown := by nlinarith
  obtain ⟨stk, hstk, e1, _, _⟩ := runTicks_cooling env key inps (tick env inp0 w0).1
    (markActivated (updateCooldown st0)) hm (by rw [hmt]; nlinarith)
  rw [hmt] at e1
  refine ⟨⟨_, hm, hmt⟩, ⟨stk, hstk, e1⟩, ?_, ?_⟩
  · have h1 : stk.currentCooldownTimer - fixed_dt_seconds > 0 := by rw [e1]; nlinarith
    exact (tick_blocked env inp _ key stk hstk
      (Or.inl (by rw [updateCooldown_timer stk h1]; exact h1))).1
  · intro later i ha
    have hok : CooldownOk (tick env inp0 w0).1 key st0.cooldown :=
      ⟨_, hm, hmc, by rw [hmt]; exact hc⟩
    exact activation_needs_zero env i _ key st0.cooldown
      (cooldownOk_runTicks env key st0.cooldown hc later _ hok) ha

/-- C5 at a sample level: a repeatable interactible with cooldown 1 s is activated by the
first interact press; two ticks later the remaining cooldown is 1 - 2*dt, and the interact
press of the third tick after the activation does not activate it. -/
theorem repeatable_cooldown_blocks_witness :
    activatedKey sampleEnv (mkInput true) (mkWorld (interactibleLevel false 1) (mkPlayer 0 0))
      = some 4 ∧
    activatedKey sampleEnv (mkInput true)
      (runTicks sampleEnv [mkInput true, mkInput true]
        (tick sampleEnv (mkInput true)
          (mkWorld (interactibleLevel false 1) (mkPlayer 0 0))).1) ≠ some 4 :=
  ⟨by decide!,
   (repeatable_cooldown_blocks sampleEnv 4 (mkWorld (interactibleLevel false 1) (mkPlayer 0 0))
    (mkInput true) (interactibleRecord false 1) (by decide!) rfl (by decide!)
    [mkInput true, mkInput true] (mkInput true) (by decide!)).2.2.1⟩

/-- C6: in a tick with interact pressed that reaches the dispatch without a trap hit and
without a goal overlap, and in which the portal scan reports source `S` and target `T`:
`S` is an overlapped body of live type portal with a non-zero link id, `T` is the first
body of live type portal with that link id and an id other than `S`'s, the player's new
position is `T.position + S.teleportOffset + (T.width/2 - width/2, T.height/2 - height/2)`,
its velocity is (0, 0), and its last-tick position is the new position. -/
theorem portal_teleport_placement (env : Env Tile) (inp : TickInput) (w : World Tile)
    (S T : PlatformBody)
    (hE : inp.interactKeyPressedThisFrame = true)
    (hT : trapHit (tickFront env inp w) = false)
    (hG : goalOverlap (tickFront env inp w) = false)
    (hP : portalScan (tickFront env inp w).playerBody (tickFront env inp w).bodies
      (tickFront env inp w).bodies = some (S, T)) :
    (S ∈ (tickFront env inp w).bodies ∧ S.type = bodyType.portal ∧
      (tickFront env inp w).playerBody.getAABB.intersects S.getAABB = true ∧
      S.portalID ≠ 0) ∧
    ((T.type = bodyType.portal ∧ T.portalID = S.portalID ∧ T.id ≠ S.id) ∧
      ∃ before after, (tickFront env inp w).bodies = before ++ T :: after ∧
        ∀ a ∈ before, ¬ (a.type = bodyType.portal ∧ a.portalID = S.portalID ∧ a.id ≠ S.id)) ∧
    (tick env inp w).1.playerBody.position =
      ⟨T.position.x + S.teleportOffset.x +
          (T.width / 2 - (tickFront env inp w).playerBody.width / 2),
       T.position.y + S.teleportOffset.y +
          (T.height / 2 - (tickFront env inp w).playerBody.height / 2)⟩ ∧
    (tick env inp w).1.playerBody.velocity = ⟨0, 0⟩ ∧
    (tick env inp w).1.playerBody.lastPosition = (tick env inp w).1.playerBody.position := by
  obtain ⟨hm, hty, hint, hnz, hfind⟩ := portalScan_some _ _ S T _ hP
  have e : (tick env inp w).1 = (fallDeath { tickFront env inp w with
      playerBody := teleportPlayer (tickFront env inp w).playerBody S T }).1 := by
    simp [tick, tickTail, hT, interactionDispatch, hE, hG, hP]
  refine ⟨⟨hm, hty, hint, hnz⟩, findTargetPortal_some _ _ _ T hfind, ?_, ?_, ?_⟩
  · rw [e, fallDeath_playerBody]; rfl
  · rw [e, fallDeath_playerBody]; rfl
  · rw [e, fallDeath_playerBody]; rfl

/-- C6 at a sample level: the player stands at (10, 0) on portal A and presses interact;
it arrives at (300, 0), the place of portal B. -/
theorem portal_teleport_placement_witness :
    (tick sampleEnv (mkInput true) (mkWorld portalLevel (mkPlayer 10 0))).1.playerBody.position
      = ⟨300 + 0 + (32 / 2 - 32 / 2), 0 + 0 + (32 / 2 - 32 / 2)⟩ ∧
    (tick sampleEnv (mkInput true) (mkWorld portalLevel (mkPlayer 10 0))).1.playerBody.velocity
      = ⟨0, 0⟩ :=
  ⟨(portal_teleport_placement sampleEnv (mkInput true) (mkWorld portalLevel (mkPlayer 10 0))
      portalA portalB rfl (by decide!) (by decide!) (by decide!)).2.2.1.trans (by decide!),
   (portal_teleport_placement sampleEnv (mkInput true) (mkWorld portalLevel (mkPlayer 10 0))
      portalA portalB rfl (by decide!) (by decide!) (by decide!)).2.2.2.1⟩

/-- C7, as stated, fails: with portals A at (0, 0) and B at (300, 0) sharing link id 7,
exit offsets zero and all footprints 32 x 32, a player at (10, 0) overlapping A is
teleported to (300, 0) by the first interact tick and to (0, 0) by the second one; the
round trip ends 10 units away from the original position. With the player centred on A at
(0, 0) and B's exit offset (5, 0), the round trip ends at (5, 0), 5 units away. -/
theorem portal_round_trip_counterexample :
    ((mkWorld portalLevel (mkPlayer 10 0)).playerBody.position = ⟨10, 0⟩ ∧
     (tick sampleEnv (mkInput true)
        (mkWorld portalLevel (mkPlayer 10 0))).1.playerBody.position = ⟨300, 0⟩ ∧
     (tick sampleEnv (mkInput true) (tick sampleEnv (mkInput true)
        (mkWorld portalLevel (mkPlayer 10 0))).1).1.playerBody.position = ⟨0, 0⟩ ∧
     (tick sampleEnv (mkInput true) (tick sampleEnv (mkInput true)
        (mkWorld portalLevel (mkPlayer 10 0))).1).1.playerBody.position
      ≠ (mkWorld portalLevel (mkPlayer 10 0)).playerBody.position) ∧
    ((mkWorld portalOffsetLevel (mkPlayer 0 0)).playerBody.position = ⟨0, 0⟩ ∧
     (tick sampleEnv (mkInput true)
        (mkWorld portalOffsetLevel (mkPlayer 0 0))).1.playerBody.position = ⟨300, 0⟩ ∧
     (tick sampleEnv (mkInput true) (tick sampleEnv (mkInput true)
        (mkWorld portalOffsetLevel (mkPlayer 0 0))).1).1.playerBody.position = ⟨5, 0⟩ ∧
     (tick sampleEnv (mkInput true) (tick sampleEnv (mkInput true)
        (mkWorld portalOffsetLevel (mkPlayer 0 0))).1).1.playerBody.position
      ≠ (mkWorld portalOffsetLevel (mkPlayer 0 0)).playerBody.position) := by
  refine ⟨⟨?_, ?_, ?_, ?_⟩, ?_, ?_, ?_, ?_⟩ <;> decide!

/-- C7, amended: for two portals A and B that share a link id used by no other portal, the
target scan from A finds B and the one from B finds A; the teleport through A puts the
player at B's position plus A's exit offset, centred on B, and the teleport back through B
puts it at A's position plus B's exit offset, centred on A, wherever it stood before; the
velocity is zero after each of the two teleports; so the round trip returns the player to
its original position exactly when it started at that place, and a second round trip ends
where the first one ended. -/
theorem portal_round_trip (bodies : List PlatformBody) (A B : PlatformBody) (p : DynamicBody)
    (hA : A ∈ bodies) (hB : B ∈ bodies)
    (hAt : A.type = bodyType.portal) (hBt : B.type = bodyType.portal)
    (hlink : A.portalID = B.portalID) (hid : A.id ≠ B.id)
    (honly : ∀ b ∈ bodies, b.type = bodyType.portal → b.portalID = A.portalID → b = A ∨ b = B) :
    findTargetPortal bodies A.portalID A.id = some B ∧
    findTargetPortal bodies B.portalID B.id = some A ∧
    (teleportPlayer p A B).position = arrival p A B ∧
    (teleportPlayer p A B).velocity = ⟨0, 0⟩ ∧
    (teleportPlayer (teleportPlayer p A B) B A).position = arrival p B A ∧
    (teleportPlayer (teleportPlayer p A B) B A).velocity = ⟨0, 0⟩ ∧
    ((teleportPlayer (teleportPlayer p A B) B A).position = p.position ↔
      p.position = arrival p B A) ∧
    (teleportPlayer (teleportPlayer (teleportPlayer (teleportPlayer p A B) B A) A B) B A).position
      = (teleportPlayer (teleportPlayer p A B) B A).position := by
  refine ⟨findTargetPortal_pair bodies A B hB hBt hlink hid honly,
    findTargetPortal_pair bodies B A hA hAt hlink.symm (Ne.symm hid) ?_, rfl, rfl, rfl, rfl,
    ?_, rfl⟩
  · intro b hb hbt hbl
    rcases honly b hb hbt (hbl.trans hlink.symm) with e | e
    · exact Or.inr e
    · exact Or.inl e
  · constructor
    · intro h; rw [← h]; rfl
    · intro h; rw [h]; rfl

/-- C7, amended, at the sample portal level with the player at (10, 0): the round trip ends
at (0, 0), the place centred on A. -/
theorem portal_round_trip_witness :
    (teleportPlayer (teleportPlayer (mkPlayer 10 0) portalA portalB) portalB portalA).position
      = ⟨0, 0⟩ ∧
    (teleportPlayer (teleportPlayer (mkPlayer 10 0) portalA portalB) portalB portalA).velocity
      = ⟨0, 0⟩ :=
  ⟨(portal_round_trip [portalA, portalB] portalA portalB (mkPlayer 10 0) (by decide!)
      (by decide!) rfl rfl rfl (by decide!) (by decide!)).2.2.2.2.1.trans (by decide!),
   (portal_round_trip [portalA, portalB] portalA portalB (mkPlayer 10 0) (by decide!)
      (by decide!) rfl rfl rfl (by decide!) (by decide!)).2.2.2.2.2.1⟩

/-- C10: take a body whose authored template is `falling`, which has a tile, and whose live
type is `falling` (or one of the two other types such a body can take: `none` after its
fall, `portal` by a cascade). After a tick its live type is again one of these three. If it
was not `none` before the tick and is `none` after it, the tile's fall animation has
completed in this tick (`hasFallen` on the tile after this tick's update). The steps after
the platform update (the interaction dispatch with "changeSelf" and the linked-platform
cascade) do not set it to `none`: a type other than `none` after the platform update is
other than `none` at the end of the tick. -/
theorem falling_none_only_after_fall (env : Env Tile) (inp : TickInput) (w : World Tile)
    (i : Nat) (b templ : PlatformBody)
    (hb : w.bodies[i]? = some b) (ht : i < w.tiles.length)
    (hT : findTemplate w.currentLevelData b.id = some templ)
    (hTy : templ.type = bodyType.falling)
    (hlive : b.type = bodyType.none ∨ b.type = bodyType.falling ∨ b.type = bodyType.portal) :
    ∃ bm tm b', (afterPlatformBlocks env inp w).bodies[i]? = some bm ∧
      (tickFront env inp w).tiles[i]? = some tm ∧
      (tick env inp w).1.bodies[i]? = some b' ∧ b'.id = b.id ∧
      (b'.type = bodyType.none ∨ b'.type = bodyType.falling ∨ b'.type = bodyType.portal) ∧
      (b.type ≠ bodyType.none → b'.type = bodyType.none → env.tile.hasFallen tm = true) ∧
      (bm.type ≠ bodyType.none → b'.type ≠ bodyType.none) := by
  obtain ⟨bm, tm, hbm, htm, hid, hcase⟩ := afterPlatformBlocks_falling env inp w i b templ hb ht hT hTy
  obtain ⟨hfb, hft⟩ := tickFront_bodies_tiles env inp w
  have hbm' : (tickFront env inp w).bodies[i]? = some bm := by rw [hfb]; exact hbm
  have htm' : (tickFront env inp w).tiles[i]? = some tm := by rw [hft]; exact htm
  have hbmty : bm.type = bodyType.none ∨ bm.type = bodyType.falling ∨
      bm.type = bodyType.portal := by
    rcases hcase with h | h
    · exact Or.inl h.1
    · rw [h.1]; exact hlive
  have hfall : b.type ≠ bodyType.none → bm.type = bodyType.none → env.tile.hasFallen tm = true := by
    intro hne hn
    rcases hcase with h | h
    · exact h.2.2.2
    · exact absurd (h.1.symm.trans hn) hne
  have horig : originalLinkedType (tickFront env inp w).currentLevelData bm.id
      = bodyType.falling := by
    rw [tickFront_currentLevelData, hid]
    simp [originalLinkedType, hT, hTy]
  have same : ∀ b', b' = bm → b'.id = b.id ∧
      (b'.type = bodyType.none ∨ b'.type = bodyType.falling ∨ b'.type = bodyType.portal) ∧
      (b.type ≠ bodyType.none → b'.type = bodyType.none → env.tile.hasFallen tm = true) ∧
      (bm.type ≠ bodyType.none → b'.type ≠ bodyType.none) := by
    intro b' e
    subst e
    exact ⟨hid, hbmty, hfall, fun h => h⟩
  rcases tickTail_bodies env inp (tickFront env inp w) with hsame | hdisp
  · exact ⟨bm, tm, bm, hbm, htm', by unfold tick; rw [hsame]; exact hbm', same bm rfl⟩
  · obtain ⟨b', hb', hid', hc⟩ := interactionDispatch_body env inp (tickFront env inp w) i bm hbm'
    refine ⟨bm, tm, b', hbm, htm', by unfold tick; rw [hdisp]; exact hb', ?_⟩
    rcases hc with e | hint | ⟨hsp, _⟩ | ⟨hn, hty⟩ | ⟨hnn, _, _, hty⟩
    · exact same b' e
    · rcases hbmty with h | h | h <;> rw [h] at hint <;> exact absurd hint (by decide)
    · rcases hbmty with h | h | h <;> rw [h] at hsp <;>
        exact absurd hsp (by decide)
    · rw [horig] at hty
      exact ⟨hid'.trans hid, Or.inr (Or.inl hty), fun _ h => absurd (hty.symm.trans h) (by decide),
        fun h => absurd hn h⟩
    · exact ⟨hid'.trans hid, Or.inr (Or.inr hty),
        fun _ h => absurd (hty.symm.trans h) (by decide),
        fun _ h => absurd (hty.symm.trans h) (by decide)⟩

/-- C10 at a sample level: the player activates an interactible whose target type is
`none` and whose linked platform is the live falling platform at index 0; the platform is
still of live type `falling` after the tick. -/
theorem falling_none_only_after_fall_witness :
    activatedKey sampleEnv (mkInput true) (mkWorld fallingLevel (mkPlayer 0 0)) = some 4 ∧
    ((tick sampleEnv (mkInput true) (mkWorld fallingLevel (mkPlayer 0 0))).1.bodies.map
      (fun b => b.type)) = [bodyType.falling, bodyType.none] ∧
    ∃ bm tm b',
      (afterPlatformBlocks sampleEnv (mkInput true)
        (mkWorld fallingLevel (mkPlayer 0 0))).bodies[0]? = some bm ∧
      (tickFront sampleEnv (mkInput true) (mkWorld fallingLevel (mkPlayer 0 0))).tiles[0]?
        = some tm ∧
      (tick sampleEnv (mkInput true) (mkWorld fallingLevel (mkPlayer 0 0))).1.bodies[0]?
        = some b' ∧ b'.id = 1 ∧
      (b'.type = bodyType.none ∨ b'.type = bodyType.falling ∨ b'.type = bodyType.portal) ∧
      (bodyType.falling ≠ bodyType.none → b'.type = bodyType.none →
        sampleEnv.tile.hasFallen tm = true) ∧
      (bm.type ≠ bodyType.none → b'.type ≠ bodyType.none) :=
  ⟨by decide!, by decide!,
   falling_none_only_after_fall sampleEnv (mkInput true) (mkWorld fallingLevel (mkPlayer 0 0)) 0
    (mkBody 1 bodyType.falling 0 32) (mkBody 1 bodyType.falling 0 32)
    (by decide!) (by decide!) (by decide!) rfl (Or.inr (Or.inl rfl))⟩

/-- C14: the tick recognises a new jump iff jump input is held, the player is on ground and
the jump-hold duration is zero at the start of the tick. In such a tick the vertical
velocity after the velocity update is -450 and the hold duration is 1 microsecond. In a
tick where one of the three conditions fails the jump impulse is not applied: the hold
duration after the velocity update is zero or, in a running jump (0 < hold < maximum, jump
held), the old one plus one tick, never the start value; and from a hold duration of zero
the vertical velocity is the one gravity alone gives. -/
theorem new_jump_recognition (env : Env Tile) (inp : TickInput) (w : World Tile) :
    (newJumpPressThisFrame inp w = true ↔
      inp.jumpIntentThisFrame = true ∧ w.playerBody.onGround = true ∧
        w.currentJumpHoldDuration = 0) ∧
    (newJumpPressThisFrame inp w = true →
      (afterVelocityUpdate env inp w).playerBody.velocity.y = -450 ∧
      (afterVelocityUpdate env inp w).currentJumpHoldDuration = 1) ∧
    (newJumpPressThisFrame inp w = false →
      (afterVelocityUpdate env inp w).currentJumpHoldDuration ≠ 1 ∧
      ((afterVelocityUpdate env inp w).currentJumpHoldDuration = 0 ∨
        (inp.jumpIntentThisFrame = true ∧ 0 < w.currentJumpHoldDuration ∧
          w.currentJumpHoldDuration < MAX_JUMP_HOLD_TIME ∧
          (afterVelocityUpdate env inp w).currentJumpHoldDuration
            = w.currentJumpHoldDuration + TIME_PER_FIXED_UPDATE)) ∧
      (w.currentJumpHoldDuration = 0 →
        (afterVelocityUpdate env inp w).currentJumpHoldDuration = 0 ∧
        (afterVelocityUpdate env inp w).playerBody.velocity.y =
          (if (atVelocityUpdate env inp w).playerBody.onGround = false then
            min (w.playerBody.velocity.y + 1200 * fixed_dt_seconds) 700
          else w.playerBody.velocity.y))) := by
  have hh := (atVelocityUpdate_hold env inp w).1
  have hv := (atVelocityUpdate_kinematics env inp w).1
  refine ⟨?_, ?_, ?_⟩
  · simp [newJumpPressThisFrame, and_assoc]
  · intro hn
    simp [afterVelocityUpdate, velocityUpdate, hn, JUMP_INITIAL_VELOCITY]
  · intro hn
    by_cases hext : inp.jumpIntentThisFrame = true ∧
        (atVelocityUpdate env inp w).currentJumpHoldDuration > 0 ∧
        (atVelocityUpdate env inp w).currentJumpHoldDuration < MAX_JUMP_HOLD_TIME
    · have e : (afterVelocityUpdate env inp w).currentJumpHoldDuration
          = w.currentJumpHoldDuration + TIME_PER_FIXED_UPDATE := by
        simp only [afterVelocityUpdate, velocityUpdate, hn, hext]
        simp [hh]
      rw [hh] at hext
      refine ⟨?_, Or.inr ⟨hext.1, hext.2.1, hext.2.2, e⟩, ?_⟩
      · rw [e]; have := hext.2.1; simp only [TIME_PER_FIXED_UPDATE]; omega
      · intro h0; rw [h0] at hext; exact absurd hext.2.1 (by decide)
    · have e : (afterVelocityUpdate env inp w).currentJumpHoldDuration = 0 := by
        simp only [afterVelocityUpdate, velocityUpdate, hn, hext]
        simp
      refine ⟨by rw [e]; decide, Or.inl e, fun _ => ⟨e, ?_⟩⟩
      simp only [afterVelocityUpdate, velocityUpdate, hn, hext]
      simp [hv, GRAVITY_ACCELERATION, MAX_FALL_SPEED]

/-- C18: when the player is not on ground at the velocity update, gravity gives the
vertical velocity min(v_y + 1200*dt, 700); the velocity after the velocity update is this
value or, by a jump impulse or a hold extension, -450, so it is at most 700, and it is the
gravity value in a tick with neither a new jump nor a running hold window. When the player
is on ground at the velocity update gravity is not added: the vertical velocity is the old
one or -450. -/
theorem gravity_clamped_when_airborne (env : Env Tile) (inp : TickInput) (w : World Tile) :
    ((atVelocityUpdate env inp w).playerBody.onGround = false →
      ((afterVelocityUpdate env inp w).playerBody.velocity.y
          = min (w.playerBody.velocity.y + 1200 * fixed_dt_seconds) 700 ∨
        (afterVelocityUpdate env inp w).playerBody.velocity.y = -450) ∧
      (afterVelocityUpdate env inp w).playerBody.velocity.y ≤ 700 ∧
      (newJumpPressThisFrame inp w = false →
        ¬ (inp.jumpIntentThisFrame = true ∧ 0 < w.currentJumpHoldDuration ∧
          w.currentJumpHoldDuration < MAX_JUMP_HOLD_TIME) →
        (afterVelocityUpdate env inp w).playerBody.velocity.y
          = min (w.playerBody.velocity.y + 1200 * fixed_dt_seconds) 700)) ∧
    ((atVelocityUpdate env inp w).playerBody.onGround = true →
      ((afterVelocityUpdate env inp w).playerBody.velocity.y = w.playerBody.velocity.y ∨
        (afterVelocityUpdate env inp w).playerBody.velocity.y = -450) ∧
      (newJumpPressThisFrame inp w = false →
        ¬ (inp.jumpIntentThisFrame = true ∧ 0 < w.currentJumpHoldDuration ∧
          w.currentJumpHoldDuration < MAX_JUMP_HOLD_TIME) →
        (afterVelocityUpdate env inp w).playerBody.velocity.y = w.playerBody.velocity.y)) := by
  have hh := (atVelocityUpdate_hold env inp w).1
  have hv := (atVelocityUpdate_kinematics env inp w).1
  have key : ∀ g : Bool, (atVelocityUpdate env inp w).playerBody.onGround = g →
      ((afterVelocityUpdate env inp w).playerBody.velocity.y
          = (if g = false then min (w.playerBody.velocity.y + 1200 * fixed_dt_seconds) 700
             else w.playerBody.velocity.y) ∨
        (afterVelocityUpdate env inp w).playerBody.velocity.y = -450) ∧
      (newJumpPressThisFrame inp w = false →
        ¬ (inp.jumpIntentThisFrame = true ∧ 0 < w.currentJumpHoldDuration ∧
          w.currentJumpHoldDuration < MAX_JUMP_HOLD_TIME) →
        (afterVelocityUpdate env inp w).playerBody.velocity.y
          = (if g = false then min (w.playerBody.velocity.y + 1200 * fixed_dt_seconds) 700
             else w.playerBody.velocity.y)) := by
    intro g hg
    simp only [afterVelocityUpdate, velocityUpdate, hg, hv, hh, GRAVITY_ACCELERATION,
      MAX_FALL_SPEED, JUMP_INITIAL_VELOCITY]
    constructor
    · split_ifs <;> simp
    · intro hn hext
      simp [hn, hext]
  constructor
  · intro hg
    obtain ⟨h1, h2⟩ := key false hg
    simp only [if_true] at h1 h2
    refine ⟨h1, ?_, h2⟩
    rcases h1 with h | h
    · rw [h]; exact min_le_right _ _
    · rw [h]; norm_num
  · intro hg
    obtain ⟨h1, h2⟩ := key true hg
    simpa using And.intro h1 h2

/-- C17: when collision resolution reports a ceiling hit and the resolved vertical velocity
is upward (< 0), the vertical velocity is 0 and the jump-hold timer is the maximum hold
time (180000 us) at the end of the tick. In the next tick, whatever the input, no new jump
is recognised, the hold-extension branch is not taken (the hold timer is reset to zero by
the velocity update), and the vertical velocity after the velocity update is the one
gravity alone gives from 0, not the jump initial velocity. -/
theorem ceiling_hit_ends_hold (env : Env Tile) (inp : TickInput) (w : World Tile)
    (hc : (afterCollision env inp w).2.hitCeiling = true)
    (hv : (afterCollision env inp w).1.playerBody.velocity.y < 0) :
    (tick env inp w).1.playerBody.velocity.y = 0 ∧
    (tick env inp w).1.currentJumpHoldDuration = 180000 ∧
    ∀ inp' : TickInput,
      newJumpPressThisFrame inp' (tick env inp w).1 = false ∧
      (afterVelocityUpdate env inp' (tick env inp w).1).currentJumpHoldDuration = 0 ∧
      (afterVelocityUpdate env inp' (tick env inp w).1).playerBody.velocity.y =
        (if (atVelocityUpdate env inp' (tick env inp w).1).playerBody.onGround = false then
          min (0 + 1200 * fixed_dt_seconds) 700 else 0) ∧
      (afterVelocityUpdate env inp' (tick env inp w).1).playerBody.velocity.y ≠ -450 := by
  have hpc := postCollision_ceiling (afterCollision env inp w).1 hv
  have hfront : (tickFront env inp w).playerBody.velocity.y = 0 ∧
      (tickFront env inp w).currentJumpHoldDuration = MAX_JUMP_HOLD_TIME := by
    rw [tickFront_eq, hc]; exact hpc
  have hy : (tick env inp w).1.playerBody.velocity.y = 0 := by
    unfold tick
    rcases (tickTail_velocity_ground env inp (tickFront env inp w)).1 with h | h
    · rw [h]; exact hfront.1
    · rw [h]
  have hh : (tick env inp w).1.currentJumpHoldDuration = 180000 := by
    unfold tick
    rw [(tickTail_player env inp _).2, hfront.2]; rfl
  refine ⟨hy, hh, ?_⟩
  intro inp'
  have hn : newJumpPressThisFrame inp' (tick env inp w).1 = false := by
    simp [newJumpPressThisFrame, hh]
  obtain ⟨e1, e2⟩ := new_jump_like env inp' (tick env inp w).1 hn hh
  rw [hy] at e2
  refine ⟨hn, e1, e2, ?_⟩
  rw [e2]
  split_ifs <;> norm_num [fixed_dt_seconds]

/-- C17 at a sample world: a rising player (vertical velocity -450, hold timer running)
under a resolver that reports a ceiling hit; after the tick the vertical velocity is 0 and
the hold timer is at its maximum, and the next tick with jump held does not re-apply the
jump velocity. -/
theorem ceiling_hit_ends_hold_witness :
    (tick (resolverEnv ceilingResolver) (mkKeys true false)
      { mkWorld portalLevel (mkRisingPlayer 0 0) with
        currentJumpHoldDuration := 16667 }).1.playerBody.velocity.y = 0 ∧
    (tick (resolverEnv ceilingResolver) (mkKeys true false)
      { mkWorld portalLevel (mkRisingPlayer 0 0) with
        currentJumpHoldDuration := 16667 }).1.currentJumpHoldDuration = 180000 ∧
    (afterVelocityUpdate (resolverEnv ceilingResolver) (mkKeys true false)
      (tick (resolverEnv ceilingResolver) (mkKeys true false)
        { mkWorld portalLevel (mkRisingPlayer 0 0) with
          currentJumpHoldDuration := 16667 }).1).playerBody.velocity.y ≠ -450 :=
  ⟨(ceiling_hit_ends_hold (resolverEnv ceilingResolver) (mkKeys true false)
      { mkWorld portalLevel (mkRisingPlayer 0 0) with currentJumpHoldDuration := 16667 }
      (by decide!) (by decide!)).1,
   (ceiling_hit_ends_hold (resolverEnv ceilingResolver) (mkKeys true false)
      { mkWorld portalLevel (mkRisingPlayer 0 0) with currentJumpHoldDuration := 16667 }
      (by decide!) (by decide!)).2.1,
   ((ceiling_hit_ends_hold (resolverEnv ceilingResolver) (mkKeys true false)
      { mkWorld portalLevel (mkRisingPlayer 0 0) with currentJumpHoldDuration := 16667 }
      (by decide!) (by decide!)).2.2 (mkKeys true false)).2.2.2⟩

/-- C16, as stated, fails. In the sample level the resolver puts the player on the ground
on the spring at index 0. With interact pressed while the player overlaps portal A, the
dispatch of the same tick teleports the player and zeroes its velocity: at the end of the
tick the vertical velocity is 0, not -900. With a ceiling hit reported in the same tick,
the ceiling block zeroes the launch velocity and puts the hold timer at its maximum:
at the end of the tick the vertical velocity is 0 and the hold timer is 180000, not 0. -/
theorem spring_launch_counterexample :
    ((afterCollision (resolverEnv (landingResolver false)) (mkKeys false true)
        (mkWorld (groundPortalLevel bodyType.spring) (mkPlayer 0 0))).1.playerBody.onGround
        = true ∧
     (groundBody (afterCollision (resolverEnv (landingResolver false)) (mkKeys false true)
        (mkWorld (groundPortalLevel bodyType.spring) (mkPlayer 0 0))).1).map (fun b => b.type)
        = some bodyType.spring ∧
     (tick (resolverEnv (landingResolver false)) (mkKeys false true)
        (mkWorld (groundPortalLevel bodyType.spring) (mkPlayer 0 0))).1.playerBody.velocity
        = ⟨0, 0⟩) ∧
    ((afterCollision (resolverEnv (landingResolver true)) (mkKeys false false)
        (mkWorld (groundPortalLevel bodyType.spring) (mkPlayer 0 0))).1.playerBody.onGround
        = true ∧
     (groundBody (afterCollision (resolverEnv (landingResolver true)) (mkKeys false false)
        (mkWorld (groundPortalLevel bodyType.spring) (mkPlayer 0 0))).1).map (fun b => b.type)
        = some bodyType.spring ∧
     (tick (resolverEnv (landingResolver true)) (mkKeys false false)
        (mkWorld (groundPortalLevel bodyType.spring) (mkPlayer 0 0))).1.playerBody.velocity.y
        = 0 ∧
     (tick (resolverEnv (landingResolver true)) (mkKeys false false)
        (mkWorld (groundPortalLevel bodyType.spring) (mkPlayer 0 0))).1.currentJumpHoldDuration
        = 180000) := by
  refine ⟨⟨?_, ?_, ?_⟩, ?_, ?_, ?_, ?_⟩ <;> decide!

/-- C16, amended: when after collision resolution the player is on ground on a platform of
live type spring, then at the end of the tick the on-ground flag is false and the ground
reference is none. If no ceiling hit was reported, the vertical velocity after the
post-collision block is -900 and the hold timer is zero at the end of the tick, and the
vertical velocity is still -900 at the end of the tick unless the dispatch teleports the
player. If a ceiling hit was reported, the vertical velocity is 0 and the hold timer is the
maximum hold time at the end of the tick. -/
theorem spring_launch (env : Env Tile) (inp : TickInput) (w : World Tile) (pf : PlatformBody)
    (hog : (afterCollision env inp w).1.playerBody.onGround = true)
    (hgb : groundBody (afterCollision env inp w).1 = some pf)
    (hty : pf.type = bodyType.spring) :
    (tick env inp w).1.playerBody.onGround = false ∧
    (tick env inp w).1.playerBody.groundPlatform = none ∧
    ((afterCollision env inp w).2.hitCeiling = false →
      (tickFront env inp w).playerBody.velocity.y = -900 ∧
      (tick env inp w).1.currentJumpHoldDuration = 0 ∧
      ((tick env inp w).1.playerBody.velocity.y = -900 ∨
        ∃ S T, (tick env inp w).1.playerBody
          = teleportPlayer (tickFront env inp w).playerBody S T)) ∧
    ((afterCollision env inp w).2.hitCeiling = true →
      (tick env inp w).1.playerBody.velocity.y = 0 ∧
      (tick env inp w).1.currentJumpHoldDuration = 180000) := by
  have hge := groundEffects_spring (afterCollision env inp w).1 pf hog hgb hty
  have hs : SPRING_BOUNCE_VELOCITY = -900 := by
    norm_num [SPRING_BOUNCE_VELOCITY, JUMP_INITIAL_VELOCITY]
  have hfg : (tickFront env inp w).playerBody.onGround = false ∧
      (tickFront env inp w).playerBody.groundPlatform = none := by
    rw [tickFront_eq, postCollision_eq, hge]
    split_ifs <;> exact ⟨rfl, rfl⟩
  have htail := tickTail_velocity_ground env inp (tickFront env inp w)
  have hhold := (tickTail_player env inp (tickFront env inp w)).2
  have hg := htail.2 hfg
  refine ⟨hg.1, hg.2, ?_, ?_⟩
  · intro hc
    have hf : (tickFront env inp w).playerBody.velocity.y = -900 ∧
        (tickFront env inp w).currentJumpHoldDuration = 0 := by
      rw [tickFront_eq, postCollision_eq, hge, hc]
      simp [hs]
    refine ⟨hf.1, ?_, ?_⟩
    · show (tickTail env inp (tickFront env inp w)).1.currentJumpHoldDuration = 0
      rw [hhold]; exact hf.2
    · show (tickTail env inp (tickFront env inp w)).1.playerBody.velocity.y = -900 ∨ _
      rcases (tickTail_player env inp (tickFront env inp w)).1 with (h | h) | ⟨S, T, h⟩
      · left; rw [h]; exact hf.1
      · left; rw [h]; exact hf.1
      · right; exact ⟨S, T, h⟩
  · intro hc
    have hf : (tickFront env inp w).playerBody.velocity.y = 0 ∧
        (tickFront env inp w).currentJumpHoldDuration = MAX_JUMP_HOLD_TIME := by
      rw [tickFront_eq, postCollision_eq, hge, hc]
      simp [hs]
    constructor
    · show (tickTail env inp (tickFront env inp w)).1.playerBody.velocity.y = 0
      rcases htail.1 with h | h
      · rw [h]; exact hf.1
      · rw [h]
    · show (tickTail env inp (tickFront env inp w)).1.currentJumpHoldDuration = 180000
      rw [hhold]; exact hf.2

/-- C16, amended, at the sample level: the resolver puts the player on the spring, no
ceiling hit, no interact press; at the end of the tick the vertical velocity is -900, the
ground contact is cleared and the hold timer is zero. -/
theorem spring_launch_witness :
    (tick (resolverEnv (landingResolver false)) (mkKeys false false)
      (mkWorld (groundPortalLevel bodyType.spring) (mkPlayer 0 0))).1.playerBody.velocity.y
      = -900 ∧
    (tick (resolverEnv (landingResolver false)) (mkKeys false false)
      (mkWorld (groundPortalLevel bodyType.spring) (mkPlayer 0 0))).1.playerBody.onGround
      = false ∧
    (tick (resolverEnv (landingResolver false)) (mkKeys false false)
      (mkWorld (groundPortalLevel bodyType.spring) (mkPlayer 0 0))).1.currentJumpHoldDuration
      = 0 :=
  ⟨by decide!,
   (spring_launch (resolverEnv (landingResolver false)) (mkKeys false false)
      (mkWorld (groundPortalLevel bodyType.spring) (mkPlayer 0 0))
      (mkBody 1 bodyType.spring 0 32) (by decide!) (by decide!) rfl).1,
   ((spring_launch (resolverEnv (landingResolver false)) (mkKeys false false)
      (mkWorld (groundPortalLevel bodyType.spring) (mkPlayer 0 0))
      (mkBody 1 bodyType.spring 0 32) (by decide!) (by decide!) rfl).2.2.1 (by decide!)).2.1⟩

/-- C15, as stated, fails: the hold extension re-applies the jump velocity only while the
player's vertical velocity is upward. In the sample level the player, on ground on a solid
body and overlapping portal A, starts a jump and presses interact in the first tick (the
resolver takes the rising player off the ground): the jump starts (hold timer 1 us) and the
dispatch teleports the player, which zeroes its velocity. In the second tick jump is still
held, it is not a new-jump tick, the hold timer is inside the window and the ground
reference is none, yet the vertical velocity after the velocity update is the gravity
value 1200*dt = 19.9992, not -450. -/
theorem jump_hold_extension_counterexample :
    newJumpPressThisFrame (mkKeys true true)
      (mkWorld (groundPortalLevel bodyType.solid) (mkGroundedPlayer 0 0 0)) = true ∧
    (tick (resolverEnv liftOffResolver) (mkKeys true true)
      (mkWorld (groundPortalLevel bodyType.solid) (mkGroundedPlayer 0 0 0))).1.currentJumpHoldDuration
      = 1 ∧
    (tick (resolverEnv liftOffResolver) (mkKeys true true)
      (mkWorld (groundPortalLevel bodyType.solid) (mkGroundedPlayer 0 0 0))).1.playerBody.velocity
      = ⟨0, 0⟩ ∧
    (tick (resolverEnv liftOffResolver) (mkKeys true true)
      (mkWorld (groundPortalLevel bodyType.solid)
        (mkGroundedPlayer 0 0 0))).1.playerBody.groundPlatform = none ∧
    newJumpPressThisFrame (mkKeys true false)
      (tick (resolverEnv liftOffResolver) (mkKeys true true)
        (mkWorld (groundPortalLevel bodyType.solid) (mkGroundedPlayer 0 0 0))).1 = false ∧
    (afterVelocityUpdate (resolverEnv liftOffResolver) (mkKeys true false)
      (tick (resolverEnv liftOffResolver) (mkKeys true true)
        (mkWorld (groundPortalLevel bodyType.solid)
          (mkGroundedPlayer 0 0 0))).1).playerBody.velocity.y = 1200 * (16666 / 1000000) ∧
    (afterVelocityUpdate (resolverEnv liftOffResolver) (mkKeys true false)
      (tick (resolverEnv liftOffResolver) (mkKeys true true)
        (mkWorld (groundPortalLevel bodyType.solid)
          (mkGroundedPlayer 0 0 0))).1).playerBody.velocity.y ≠ -450 := by
  refine ⟨?_, ?_, ?_, ?_, ?_, ?_, ?_⟩ <;> decide!

/-- C15, amended: in a tick that is not a new-jump tick, with jump input held and the hold
timer inside the window (0 < hold < 0.18 s), the hold timer advances by one tick. If the
player's vertical velocity is upward (< 0) and the ground reference is not a platform of
live type spring, the vertical velocity after the velocity update is -450. If the ground
reference is a platform of live type spring, or the vertical velocity is not upward, the
jump velocity is not re-applied: the vertical velocity is the one gravity alone gives. -/
theorem jump_hold_extension (env : Env Tile) (inp : TickInput) (w : World Tile)
    (hn : newJumpPressThisFrame inp w = false) (hj : inp.jumpIntentThisFrame = true)
    (h0 : 0 < w.currentJumpHoldDuration) (h1 : w.currentJumpHoldDuration < 180000) :
    (afterVelocityUpdate env inp w).currentJumpHoldDuration
      = w.currentJumpHoldDuration + 16666 ∧
    (w.playerBody.velocity.y < 0 →
      (∀ g, groundBody (atVelocityUpdate env inp w) = some g → g.type ≠ bodyType.spring) →
      (afterVelocityUpdate env inp w).playerBody.velocity.y = -450) ∧
    ((¬ w.playerBody.velocity.y < 0 ∨
        ∃ g, groundBody (atVelocityUpdate env inp w) = some g ∧ g.type = bodyType.spring) →
      (afterVelocityUpdate env inp w).playerBody.velocity.y =
        (if (atVelocityUpdate env inp w).playerBody.onGround = false then
          min (w.playerBody.velocity.y + 1200 * fixed_dt_seconds) 700
        else w.playerBody.velocity.y)) := by
  have hh := (atVelocityUpdate_hold env inp w).1
  have hv := (atVelocityUpdate_kinematics env inp w).1
  have hext : inp.jumpIntentThisFrame = true ∧
      (atVelocityUpdate env inp w).currentJumpHoldDuration > 0 ∧
      (atVelocityUpdate env inp w).currentJumpHoldDuration < MAX_JUMP_HOLD_TIME := by
    rw [hh]; exact ⟨hj, h0, h1⟩
  refine ⟨?_, ?_, ?_⟩
  · simp only [afterVelocityUpdate, velocityUpdate, hn, hext]
    simp [hh, TIME_PER_FIXED_UPDATE]
  · intro hneg hns
    have hsp : (match groundBody (atVelocityUpdate env inp w) with
        | some g => decide (g.type = bodyType.spring)
        | none => false) = false := by
      cases hg : groundBody (atVelocityUpdate env inp w) with
      | none => rfl
      | some g => simpa using hns g hg
    simp only [afterVelocityUpdate, velocityUpdate, hn, hext, hsp, hv]
    simp [hneg, JUMP_INITIAL_VELOCITY]
  · intro hor
    have hcond : ¬ ((atVelocityUpdate env inp w).playerBody.velocity.y < 0 ∧
        (match groundBody (atVelocityUpdate env inp w) with
        | some g => decide (g.type = bodyType.spring)
        | none => false) = false) := by
      rintro ⟨c1, c2⟩
      rcases hor with h | ⟨g, hg, hty⟩
      · rw [hv] at c1; exact h c1
      · rw [hg] at c2; simp [hty] at c2
    simp only [afterVelocityUpdate, velocityUpdate, hn, hext]
    simp only [Bool.false_eq_true, if_false, if_true, true_and, and_self, hcond]
    simp [hv, GRAVITY_ACCELERATION, MAX_FALL_SPEED]

/-- C15, amended, at a sample world: a rising player (vertical velocity -450) with the hold
timer at one tick and jump held; the velocity update re-applies -450 and advances the hold
timer to two ticks. -/
theorem jump_hold_extension_witness :
    (afterVelocityUpdate sampleEnv (mkKeys true false)
      { mkWorld portalLevel (mkRisingPlayer 0 0) with
        currentJumpHoldDuration := 16667 }).currentJumpHoldDuration = 16667 + 16666 ∧
    (afterVelocityUpdate sampleEnv (mkKeys true false)
      { mkWorld portalLevel (mkRisingPlayer 0 0) with
        currentJumpHoldDuration := 16667 }).playerBody.velocity.y = -450 :=
  ⟨(jump_hold_extension sampleEnv (mkKeys true false)
      { mkWorld portalLevel (mkRisingPlayer 0 0) with currentJumpHoldDuration := 16667 }
      (by decide!) rfl (by decide!) (by decide!)).1,
   (jump_hold_extension sampleEnv (mkKeys true false)
      { mkWorld portalLevel (mkRisingPlayer 0 0) with currentJumpHoldDuration := 16667 }
      (by decide!) rfl (by decide!) (by decide!)).2.1 (by decide!) (by decide!)⟩

/-- C11: take a body whose authored template is `falling`, which has a tile and whose live
type is not `none`, in a tick in which its tile reports `hasFallen` after this tick's tile
update. After the platform blocks its live type is `none` and its position is the
off-stage point (-9999, -9999). If the player's ground reference was this body at the start
of the tick, then at the velocity update of the same tick the on-ground flag is false and
the ground reference is none, so the velocity update adds gravity: the vertical velocity
after it is min(v_y + 1200*dt, 700), unless a jump impulse or hold extension overrides it
with -450. -/
theorem fall_completion_removes_platform (env : Env Tile) (inp : TickInput) (w : World Tile)
    (i : Nat) (b templ : PlatformBody) (tm : Tile)
    (hb : w.bodies[i]? = some b) (ht : i < w.tiles.length)
    (hT : findTemplate w.currentLevelData b.id = some templ)
    (hTy : templ.type = bodyType.falling) (hlive : b.type ≠ bodyType.none)
    (htm : (afterPlatformBlocks env inp w).tiles[i]? = some tm)
    (hfallen : env.tile.hasFallen tm = true) :
    (∃ bm, (afterPlatformBlocks env inp w).bodies[i]? = some bm ∧ bm.id = b.id ∧
      bm.type = bodyType.none ∧ bm.position = offStage) ∧
    (w.playerBody.groundPlatform = some i →
      (atVelocityUpdate env inp w).playerBody.onGround = false ∧
      (atVelocityUpdate env inp w).playerBody.groundPlatform = none ∧
      ((afterVelocityUpdate env inp w).playerBody.velocity.y
          = min (w.playerBody.velocity.y + 1200 * fixed_dt_seconds) 700 ∨
        (afterVelocityUpdate env inp w).playerBody.velocity.y = -450)) := by
  constructor
  · obtain ⟨bm, tm', hbm, htm', hid, hcase⟩ :=
      afterPlatformBlocks_falling env inp w i b templ hb ht hT hTy
    have e : tm' = tm := Option.some.inj (htm'.symm.trans htm)
    subst e
    rcases hcase with h | h
    · exact ⟨bm, hbm, hid, h.1, h.2.1⟩
    · exact absurd ⟨hfallen, hlive⟩ h.2
  · intro hg
    have hc := afterPlatformBlocks_falling_clears env inp w i b templ tm hb ht hT hTy hlive
      htm hfallen hg
    have e : (atVelocityUpdate env inp w).playerBody = (afterPlatformBlocks env inp w).playerBody := by
      simp only [atVelocityUpdate, advanceVanishingClock]
      split_ifs <;> rfl
    have hog : (atVelocityUpdate env inp w).playerBody.onGround = false := by rw [e]; exact hc.1
    refine ⟨hog, by rw [e]; exact hc.2, ?_⟩
    have hy := afterVelocityUpdate_y env inp w
    simp only [hog, if_true] at hy
    exact hy

/-- C11 at a sample world: the player stands on the falling platform whose tile completes
its fall in this tick; the platform becomes `none` at (-9999, -9999), the ground contact is
cleared before the velocity update, and the vertical velocity after it is the gravity
value from 0. -/
theorem fall_completion_removes_platform_witness :
    (afterPlatformBlocks sampleEnv (mkInput false) fallingAlmostDone).bodies.map
      (fun b => (b.type, b.position)) =
      [(bodyType.none, offStage), (bodyType.interactible, ⟨0, 0⟩)] ∧
    (atVelocityUpdate sampleEnv (mkInput false) fallingAlmostDone).playerBody.onGround = false ∧
    (afterVelocityUpdate sampleEnv (mkInput false) fallingAlmostDone).playerBody.velocity.y
      = 1200 * (16666 / 1000000) ∧
    ((afterVelocityUpdate sampleEnv (mkInput false) fallingAlmostDone).playerBody.velocity.y
        = min (fallingAlmostDone.playerBody.velocity.y + 1200 * fixed_dt_seconds) 700 ∨
      (afterVelocityUpdate sampleEnv (mkInput false) fallingAlmostDone).playerBody.velocity.y
        = -450) :=
  ⟨by decide!,
   ((fall_completion_removes_platform sampleEnv (mkInput false) fallingAlmostDone 0
      (mkBody 1 bodyType.falling 0 32) (mkBody 1 bodyType.falling 0 32)
      ⟨⟨0, 131 + 100 * (16666 / 1000000)⟩, some 0, 990000 + 16666⟩
      (by decide!) (by decide!) (by decide!) rfl (by decide!) (by decide!) (by decide!)).2
        (by decide!)).1,
   by decide!,
   ((fall_completion_removes_platform sampleEnv (mkInput false) fallingAlmostDone 0
      (mkBody 1 bodyType.falling 0 32) (mkBody 1 bodyType.falling 0 32)
      ⟨⟨0, 131 + 100 * (16666 / 1000000)⟩, some 0, 990000 + 16666⟩
      (by decide!) (by decide!) (by decide!) rfl (by decide!) (by decide!) (by decide!)).2
        (by decide!)).2.2⟩

/-- C19: for a linked platform in its authored state (live type and position are those of
its authored template), authored as solid or one-way platform at a usable position
(x > -9998): one cascade sets its live type to `none` and moves it to the off-stage point
(-10000, -10000); a second cascade with the same linked id restores its live type and its
position from the template; after the two cascades the linked body is what it was. -/
theorem cascade_toggle (env : Env Tile) (st1 st2 : ActiveInteractiblePlatform) (w : World Tile)
    (idx : Nat) (linked templ : PlatformBody)
    (hl1 : st1.linkedID ≠ 0) (hl2 : st2.linkedID = st1.linkedID)
    (hidx : findBodyIdx st1.linkedID w.bodies = some idx)
    (hb : w.bodies[idx]? = some linked)
    (hty : linked.type = bodyType.solid ∨ linked.type = bodyType.platform)
    (hT : findTemplate w.currentLevelData linked.id = some templ)
    (hTt : templ.type = linked.type) (hTp : templ.position = linked.position)
    (hx : templ.position.x > -9998) :
    (cascadeLinked env st1 w).bodies[idx]?
      = some { linked with type := bodyType.none, position := offStageInteract } ∧
    (cascadeLinked env st2 (cascadeLinked env st1 w)).bodies[idx]? = some linked := by
  have hi : idx < w.bodies.length := (List.getElem?_eq_some.mp hb).1
  have e1 : cascadeLinked env st1 w = cascadeOn env st1 idx linked w :=
    cascadeLinked_eq_cascadeOn env st1 w idx linked hl1 hidx hb
  have e1' : cascadeOn env st1 idx linked w =
      { w with
        playerBody := clearGroundIf w.playerBody idx
        bodies := w.bodies.set idx
          { linked with type := bodyType.none, position := offStageInteract }
        tiles := updateAt w.tiles idx (env.tile.setPosition offStageInteract) } := by
    simp [cascadeOn, hty]
  have hb1 : (cascadeLinked env st1 w).bodies[idx]?
      = some { linked with type := bodyType.none, position := offStageInteract } := by
    rw [e1, e1']; exact List.getElem?_set_self hi
  refine ⟨hb1, ?_⟩
  have hidx1 : findBodyIdx st2.linkedID (cascadeLinked env st1 w).bodies = some idx := by
    rw [e1, e1', hl2]
    unfold findBodyIdx at hidx ⊢
    rw [firstIdx_set _ _ _ _ (by
      intro b hb'
      have : b = linked := Option.some.inj (hb'.symm.trans hb)
      subst this; rfl)]
    exact hidx
  have hl2' : st2.linkedID ≠ 0 := by rw [hl2]; exact hl1
  have hld : (cascadeLinked env st1 w).currentLevelData = w.currentLevelData :=
    (cascadeLinked_frame env w st1).1
  have e2 : cascadeLinked env st2 (cascadeLinked env st1 w)
      = cascadeOn env st2 idx { linked with type := bodyType.none, position := offStageInteract }
          (cascadeLinked env st1 w) :=
    cascadeLinked_eq_cascadeOn env st2 _ idx _ hl2' hidx1 hb1
  have hi1 : idx < (cascadeLinked env st1 w).bodies.length :=
    (List.getElem?_eq_some.mp hb1).1
  have hpos : originalLinkedPos w.currentLevelData linked.id = linked.position := by
    simp [originalLinkedPos, hT, hTp]
  have htyp : originalLinkedType w.currentLevelData linked.id = linked.type := by
    simp [originalLinkedType, hT, hTt]
  have hx' : (originalLinkedPos w.currentLevelData linked.id).x > -9998 := by
    rw [hpos, ← hTp]; exact hx
  rw [e2]
  simp only [cascadeOn, hld, hpos, htyp]
  rw [hpos] at hx'
  simp [hx', List.getElem?_set_self hi1]

/-- C19 at the sample level: the solid platform at index 0 is linked to the interactible;
one cascade hides it at (-10000, -10000), the second restores it; on whole ticks, two
activations of the interactible leave the platform solid at its authored position. -/
theorem cascade_toggle_witness :
    (cascadeLinked sampleEnv (linkedRecord bodyType.interactible)
      (mkWorld (linkedLevel bodyType.interactible) (mkPlayer 0 0))).bodies[0]?
      = some { mkBody 1 bodyType.solid 0 32 with
          type := bodyType.none, position := offStageInteract } ∧
    (cascadeLinked sampleEnv (linkedRecord bodyType.interactible)
      (cascadeLinked sampleEnv (linkedRecord bodyType.interactible)
        (mkWorld (linkedLevel bodyType.interactible) (mkPlayer 0 0)))).bodies[0]?
      = some (mkBody 1 bodyType.solid 0 32) ∧
    (tick sampleEnv (mkInput true)
      (mkWorld (linkedLevel bodyType.interactible) (mkPlayer 0 0))).1.bodies[0]?
      = some { mkBody 1 bodyType.solid 0 32 with
          type := bodyType.none, position := offStageInteract } ∧
    (tick sampleEnv (mkInput true) (tick sampleEnv (mkInput true)
      (mkWorld (linkedLevel bodyType.interactible) (mkPlayer 0 0))).1).1.bodies[0]?
      = some (mkBody 1 bodyType.solid 0 32) :=
  ⟨(cascade_toggle sampleEnv (linkedRecord bodyType.interactible)
      (linkedRecord bodyType.interactible)
      (mkWorld (linkedLevel bodyType.interactible) (mkPlayer 0 0)) 0
      (mkBody 1 bodyType.solid 0 32) (mkBody 1 bodyType.solid 0 32)
      (by decide) rfl (by decide!) (by decide!) (Or.inl rfl) (by decide!) rfl rfl
      (by decide!)).1,
   (cascade_toggle sampleEnv (linkedRecord bodyType.interactible)
      (linkedRecord bodyType.interactible)
      (mkWorld (linkedLevel bodyType.interactible) (mkPlayer 0 0)) 0
      (mkBody 1 bodyType.solid 0 32) (mkBody 1 bodyType.solid 0 32)
      (by decide) rfl (by decide!) (by decide!) (Or.inl rfl) (by decide!) rfl rfl
      (by decide!)).2,
   by decide!, by decide!⟩

/-- C20 (counterexample): at the sample level whose repeatable interactible (id 4, cooldown
1/100 s) has the one-way platform type as its target, the first interact press activates
the record and leaves the body with live type platform; in the next tick the record is
still there with remaining cooldown zero, the player overlaps the body and interact is
pressed, and the tick activates nothing. -/
theorem changed_type_reactivation_counterexample :
    activatedKey sampleEnv (mkInput true)
      (mkWorld (linkedLevel bodyType.platform) (mkPlayer 0 0)) = some 4 ∧
    (tickFront sampleEnv (mkInput true) (tick sampleEnv (mkInput true)
      (mkWorld (linkedLevel bodyType.platform) (mkPlayer 0 0))).1).bodies[1]?
      = some (mkBody 4 bodyType.platform 0 0) ∧
    (tickFront sampleEnv (mkInput true) (tick sampleEnv (mkInput true)
      (mkWorld (linkedLevel bodyType.platform) (mkPlayer 0 0))).1).activeInteractibles 4
      = some (linkedRecord bodyType.platform) ∧
    (tickFront sampleEnv (mkInput true) (tick sampleEnv (mkInput true)
      (mkWorld (linkedLevel bodyType.platform) (mkPlayer 0 0))).1).playerBody.getAABB.intersects
        (mkBody 4 bodyType.platform 0 0).getAABB = true ∧
    (mkInput true).interactKeyPressedThisFrame = true ∧
    activatedKey sampleEnv (mkInput true) (tick sampleEnv (mkInput true)
      (mkWorld (linkedLevel bodyType.platform) (mkPlayer 0 0))).1 = none := by
  refine ⟨?_, ?_, ?_, ?_, ?_, ?_⟩ <;> decide!

/-- C20 (amended): an interaction record is kept, with its configuration, through every
run of ticks, whatever happens to the live type of its platform, and the cooldown block of
every tick keeps counting it down. A tick activates the record only through a body with
its id whose live type is interactible at that tick and which the player overlaps. When
the record is repeatable and of kind "changeSelf", a tick with interact pressed that
reaches the interactible loop (no trap hit, no goal overlap, no teleport) does activate it
if a body with its id has live type interactible and overlaps the player, the remaining
cooldown is zero, and no earlier body passes the guard. -/
theorem record_kept_activation_needs_live_type (env : Env Tile) (key : Nat) (w : World Tile)
    (st : ActiveInteractiblePlatform) (hrec : w.activeInteractibles key = some st) :
    (∀ inps : List TickInput, ∃ st1,
      (runTicks env inps w).activeInteractibles key = some st1 ∧ SameConfig st st1) ∧
    (∀ (inps : List TickInput) (inp : TickInput),
      (tickFront env inp (runTicks env inps w)).activeInteractibles key
        = ((runTicks env inps w).activeInteractibles key).map updateCooldown) ∧
    (∀ (inps : List TickInput) (inp : TickInput),
      activatedKey env inp (runTicks env inps w) = some key →
      ∃ (k : Nat) (b : PlatformBody),
        (tickFront env inp (runTicks env inps w)).bodies[k]? = some b ∧ b.id = key ∧
        b.type = bodyType.interactible ∧
        (tickFront env inp (runTicks env inps w)).playerBody.getAABB.intersects b.getAABB
          = true) ∧
    (∀ (inps : List TickInput) (inp : TickInput) (k : Nat) (b : PlatformBody)
        (st1 : ActiveInteractiblePlatform),
      st.oneTime = false → st.interactionType = "changeSelf" →
      trapHit (tickFront env inp (runTicks env inps w)) = false →
      inp.interactKeyPressedThisFrame = true →
      goalOverlap (tickFront env inp (runTicks env inps w)) = false →
      portalScan (tickFront env inp (runTicks env inps w)).playerBody
        (tickFront env inp (runTicks env inps w)).bodies
        (tickFront env inp (runTicks env inps w)).bodies = none →
      (tickFront env inp (runTicks env inps w)).bodies[k]? = some b → b.id = key →
      b.type = bodyType.interactible →
      (tickFront env inp (runTicks env inps w)).playerBody.getAABB.intersects b.getAABB
        = true →
      (tickFront env inp (runTicks env inps w)).activeInteractibles key = some st1 →
      st1.currentCooldownTimer = 0 →
      (∀ j, j < k → activatable (tickFront env inp (runTicks env inps w)) j = none) →
      activatedKey env inp (runTicks env inps w) = some key) := by
  have hfront : ∀ (inps : List TickInput) (inp : TickInput),
      (tickFront env inp (runTicks env inps w)).activeInteractibles key
        = ((runTicks env inps w).activeInteractibles key).map updateCooldown := by
    intro inps inp
    rw [tickFront_activeInteractibles]
  refine ⟨fun inps => sameConfig_runTicks env key inps w st hrec, hfront,
    fun inps inp h => activation_needs_live_interactible env inp _ key h, ?_⟩
  intro inps inp k b st1 hrep hkind htrap hE hgoal hportal hb hid hty hov hst1 hzero hfirst
  obtain ⟨st2, h2, c2⟩ := sameConfig_runTicks env key inps w st hrec
  have e := hfront inps inp
  rw [hst1, h2] at e
  have e1 : st1 = updateCooldown st2 := Option.some.inj e
  have c1 : SameConfig st st1 := by
    rw [e1]; exact sameConfig_trans c2 (sameConfig_updateCooldown st2)
  obtain ⟨_, c12, _, c14, _, _⟩ := c1
  subst hid
  have hact : activatable (tickFront env inp (runTicks env inps w)) k = some st1 :=
    activatable_of _ k b st1 hb hty hov hst1 (by rw [hzero]; simp)
      (by rw [c14, hrep]; simp) (by rw [c12, hkind])
  exact activation_of_first env inp _ k b st1 htrap hE hgoal hportal hb hact hfirst

/-- C20 (amended) at the sample level whose repeatable interactible (id 4, cooldown
1/100 s) has the interactible type as its target: the record exists at level start, and
the second interact press, one tick after the first, activates it again. -/
theorem record_kept_activation_needs_live_type_witness :
    (mkWorld (linkedLevel bodyType.interactible) (mkPlayer 0 0)).activeInteractibles 4
      = some (linkedRecord bodyType.interactible) ∧
    activatedKey sampleEnv (mkInput true) (mkWorld (linkedLevel bodyType.interactible)
      (mkPlayer 0 0)) = some 4 ∧
    activatedKey sampleEnv (mkInput true) (runTicks sampleEnv [mkInput true]
      (mkWorld (linkedLevel bodyType.interactible) (mkPlayer 0 0))) = some 4 :=
  ⟨by decide!, by decide!,
   (record_kept_activation_needs_live_type sampleEnv 4
      (mkWorld (linkedLevel bodyType.interactible) (mkPlayer 0 0))
      (linkedRecord bodyType.interactible) (by decide!)).2.2.2
      [mkInput true] (mkInput true) 1 (mkBody 4 bodyType.interactible 0 0)
      (linkedRecord bodyType.interactible) rfl rfl (by decide!) rfl (by decide!) (by decide!)
      (by decide!) rfl rfl (by decide!) (by decide!) rfl
      (fun j hj => by
        have e : j = 0 := by omega
        subst e
        decide!)⟩

/-- C13: take a tick that starts with a platform `b0` at index `g` which is the only body
with its id, whose authored template (if any) is not a falling or vanishing one, and for
whose id there is a movement record. If after collision resolution the player is on ground
with ground reference `g` and the body `pf` there has live type moving, then `pf` is the
body as this tick's moving-platform update left it, the first record with its id holds as
`lastFrameActualPosition` the position `b0` had just before that update, and the
post-collision block adds exactly `pf.position - b0.position` to the player's position. -/
theorem moving_platform_carry (env : Env Tile) (inp : TickInput) (w : World Tile) (g : Nat)
    (b0 pf : PlatformBody) (hb : w.bodies[g]? = some b0)
    (huniq : ∀ j c, w.bodies[j]? = some c → c.id = b0.id → j = g)
    (hT : ∀ templ, findTemplate w.currentLevelData b0.id = some templ →
      templ.type ≠ bodyType.falling ∧ templ.type ≠ bodyType.vanishing)
    (hrec : ∃ r, r ∈ w.activeMovingPlatforms ∧ r.id = b0.id)
    (hog : (afterCollision env inp w).1.playerBody.onGround = true)
    (href : (afterCollision env inp w).1.playerBody.groundPlatform = some g)
    (hpf : (afterCollision env inp w).1.bodies[g]? = some pf)
    (hty : pf.type = bodyType.moving) :
    (updateMovingPlatforms env (beginTick inp w)).bodies[g]? = some pf ∧
    (∃ r1, (updateMovingPlatforms env (beginTick inp w)).activeMovingPlatforms.find?
        (fun activePlat => decide (activePlat.id = pf.id)) = some r1 ∧
      r1.lastFrameActualPosition = b0.position) ∧
    (tickFront env inp w).playerBody.position
      = (afterCollision env inp w).1.playerBody.position + (pf.position - b0.position) := by
  obtain ⟨⟨b1, h1, e1, e2, _⟩, _⟩ := updateMovingPlatforms_body env (beginTick inp w) g b0 hb
  have hT1 : ∀ templ, findTemplate (updateInteractibleCooldowns
      (updateMovingPlatforms env (beginTick inp w))).currentLevelData b1.id = some templ →
      templ.type ≠ bodyType.falling ∧ templ.type ≠ bodyType.vanishing := by
    rw [e1]; exact hT
  have h4 : (afterPlatformBlocks env inp w).bodies[g]? = some b1 :=
    updatePlatformStates_untouched env _ g b1 h1 hT1
  obtain ⟨s1, s2⟩ := afterCollision_stage env inp w
  have hwc := hpf
  rw [s1, h4] at hpf
  have e : b1 = pf := Option.some.inj hpf
  subst e
  have hty0 : b0.type = bodyType.moving := by rw [← e2]; exact hty
  obtain ⟨r1, hr1, hl1⟩ := updateMovingPlatformsLoop_last env w.activeMovingPlatforms
    w.bodies w.tiles g b0 hb hty0 huniq hrec
  have hr2 : (updateMovingPlatforms env (beginTick inp w)).activeMovingPlatforms.find?
      (fun activePlat => decide (activePlat.id = b1.id)) = some r1 := by
    rw [e1]; exact hr1
  refine ⟨h1, ⟨r1, hr2, hl1⟩, ?_⟩
  have hu : ∀ j c, (afterCollision env inp w).1.bodies[j]? = some c → c.id = b1.id → j = g := by
    rw [e1]
    exact ids_unique_transfer w.bodies _ b0.id g
      (by rw [s1]; exact afterPlatformBlocks_ids env inp w) huniq
  have hcarry := movingCarry_eq (afterCollision env inp w).1 g b1 r1 hwc hty hu
    (by rw [s2]; exact hr2)
  have hgb : groundBody (afterCollision env inp w).1 = some b1 := by
    unfold groundBody; rw [href]; exact hwc
  have hge := groundEffects_moving (afterCollision env inp w).1 b1 hog hgb hty
  rw [tickFront_eq, postCollision_eq]
  split_ifs <;> simp only [hge, hcarry, hl1]

/-- C13 at the sample moving level with a resolver that lands the player on the platform:
in the first tick the platform moves from x = 100 to x = 100.8333 and the player, at
(100, 68) after collision resolution, ends the post-collision block at (100.8333, 68). -/
theorem moving_platform_carry_witness :
    (mkWorld movingLevel (mkPlayer 100 68)).bodies[0]?
      = some (mkBody 3 bodyType.moving 100 100) ∧
    (afterCollision (resolverEnv (landingResolver false)) (mkInput false)
      (mkWorld movingLevel (mkPlayer 100 68))).1.playerBody.position = ⟨100, 68⟩ ∧
    (tickFront (resolverEnv (landingResolver false)) (mkInput false)
      (mkWorld movingLevel (mkPlayer 100 68))).playerBody.position
      = ⟨100 + 8333 / 10000, 68⟩ ∧
    (tickFront (resolverEnv (landingResolver false)) (mkInput false)
      (mkWorld movingLevel (mkPlayer 100 68))).playerBody.position
      = (afterCollision (resolverEnv (landingResolver false)) (mkInput false)
          (mkWorld movingLevel (mkPlayer 100 68))).1.playerBody.position
        + ((mkBody 3 bodyType.moving (100 + 8333 / 10000) 100).position
          - (mkBody 3 bodyType.moving 100 100).position) :=
  ⟨by decide!, by decide!, by decide!,
   (moving_platform_carry (resolverEnv (landingResolver false)) (mkInput false)
      (mkWorld movingLevel (mkPlayer 100 68)) 0 (mkBody 3 bodyType.moving 100 100)
      (mkBody 3 bodyType.moving (100 + 8333 / 10000) 100) (by decide!)
      (fun j c hj _ => by
        have hlt := (List.getElem?_eq_some.mp hj).1
        have hlen : (mkWorld movingLevel (mkPlayer 100 68)).bodies.length = 1 := by decide!
        omega)
      (fun templ ht => by
        have e : mkBody 3 bodyType.moving 100 100 = templ := Option.some.inj ht
        subst e
        decide)
      ⟨movingRecord 0 ⟨100, 100⟩, by decide!, rfl⟩ (by decide!) (by decide!) (by decide!)
      rfl).2.2⟩

/-- C12 (counterexample): on the sample moving level (anchor (100,100), axis 'x', distance
50, cycle duration 2 s, direction +1) with the sample linear easing, 30 ticks from level
start leave the platform at x = 124.999, while anchor.x + ease(0.5, 0, 50, 1.0) = 125: the
30 ticks of 16666 microseconds add up to a cycle time of 0.49998 s. And for a record with
cycle duration 1/100000 s the update uses the phase duration 1/2 (effective duration 1 s),
not duration/2: one update from cycle time 0 puts the platform at x = 101.6666, which is
not anchor.x plus the two-phase offset for phase duration 1/200000. -/
theorem moving_quarter_cycle_counterexample :
    (runTicks sampleEnv (List.replicate 30 (mkInput false))
      (startLevel sampleEnv (mkWorld movingLevel (mkPlayer 0 0)))).bodies
      = [mkBody 3 bodyType.moving (100 + 24999 / 1000) 100] ∧
    (100 : ℚ) + sampleEnv.sineEaseInOut (1 / 2) 0 50 1 = 125 ∧
    (30 : ℚ) * fixed_dt_seconds = 49998 / 100000 ∧
    (updateMovingPlatform sampleEnv
      { movingRecord 0 ⟨100, 100⟩ with cycleDuration := 1 / 100000 }
      [mkBody 3 bodyType.moving 100 100] []).2.1
      = [mkBody 3 bodyType.moving (100 + 16666 / 10000) 100] ∧
    (updateMovingPlatform sampleEnv
      { movingRecord 0 ⟨100, 100⟩ with cycleDuration := 1 / 100000 }
      [mkBody 3 bodyType.moving 100 100] []).1.cycleTime = 16666 / 1000000 ∧
    (100 : ℚ) + phaseOffset sampleEnv
      { movingRecord 0 ⟨100, 100⟩ with cycleDuration := 1 / 100000 }
      (16666 / 1000000) (1 / 100000 / 2) ≠ 100 + 16666 / 10000 := by
  refine ⟨?_, ?_, ?_, ?_, ?_, ?_⟩ <;> decide!

/-- C12 (amended): on the level with the one moving platform of the scenario (anchor
(100,100), axis 'x', distance 50, cycle duration 2 s, direction +1), after `n` ticks from
level start, 1 ≤ n ≤ 60, whatever the inputs, the easing and the resolver, the platform is
at x = anchor.x + ease(n*dt, 0, 50, 1.0) and y = anchor.y, with dt = 0.016666 s; for the 30
ticks of the scenario the cycle time is 0.49998 s. In general, an update that finds the
record's body leaves the wrapped cycle time t = fmod(cycleTime + dt, D) with the effective
duration D (the cycle duration if it is above 1/100000, else 1) and puts the body at the
anchor moved along the axis by the two-phase offset for t and P = D/2 when P is above
1/100000, and at the anchor itself otherwise. -/
theorem moving_platform_position (env : Env Tile) (w0 : World Tile) (inps : List TickInput)
    (hd : w0.currentLevelData = movingLevel) (h1 : 1 ≤ inps.length)
    (h2 : inps.length ≤ 60) :
    (runTicks env inps (startLevel env w0)).bodies
      = [mkBody 3 bodyType.moving
          (100 + env.sineEaseInOut ((inps.length : ℚ) * fixed_dt_seconds) 0 50 1) 100] ∧
    (∀ (a : ActiveMovingPlatform) (bodies : List PlatformBody) (tiles : List Tile)
        (idx : Nat) (mb : PlatformBody),
      findMovingBodyIdx a.id bodies = some idx → bodies[idx]? = some mb →
      (a.cycleDuration > 2 / 100000 →
        (updateMovingPlatform env a bodies tiles).1.cycleTime
          = fmod (a.cycleTime + fixed_dt_seconds) a.cycleDuration ∧
        (updateMovingPlatform env a bodies tiles).2.1[idx]?
          = some { mb with
              position := (axisPosition a.axis a.movementAnchorPosition
                (phaseOffset env a (updateMovingPlatform env a bodies tiles).1.cycleTime
                  (a.cycleDuration / 2))) }) ∧
      (a.cycleDuration ≤ 1 / 100000 →
        (updateMovingPlatform env a bodies tiles).1.cycleTime
          = fmod (a.cycleTime + fixed_dt_seconds) 1 ∧
        (updateMovingPlatform env a bodies tiles).2.1[idx]?
          = some { mb with
              position := (axisPosition a.axis a.movementAnchorPosition
                (phaseOffset env a (updateMovingPlatform env a bodies tiles).1.cycleTime
                  (1 / 2))) }) ∧
      (1 / 100000 < a.cycleDuration → a.cycleDuration ≤ 2 / 100000 →
        (updateMovingPlatform env a bodies tiles).1.cycleTime
          = fmod (a.cycleTime + fixed_dt_seconds) a.cycleDuration ∧
        (updateMovingPlatform env a bodies tiles).2.1[idx]?
          = some { mb with
              position := (axisPosition a.axis a.movementAnchorPosition 0) })) := by
  constructor
  · have hrun := onMovingLevel_run env inps 0 (startLevel env w0)
      (onMovingLevel_start env w0 hd) (by omega)
    obtain ⟨_, ⟨x, y, hbod, hpos⟩, _⟩ := hrun
    rw [Nat.zero_add] at hpos
    obtain ⟨ex, ey⟩ := hpos h1
    rw [hbod, ex, ey]
  · intro a bodies tiles idx mb hidx hb
    obtain ⟨m1, m2⟩ := updateMovingPlatform_found env a bodies tiles idx mb hidx hb
    have hi : idx < bodies.length := (List.getElem?_eq_some.mp hb).1
    refine ⟨fun hdur => ?_, fun hdur => ?_, fun hlo hhi => ?_⟩
    · have hD : (if a.cycleDuration > 1 / 100000 then a.cycleDuration else 1)
          = a.cycleDuration := if_pos (by linarith)
      rw [hD] at m1 m2
      rw [m1, m2, List.getElem?_set_self hi]
      refine ⟨rfl, ?_⟩
      simp only [movingOffset, phaseOffset]
      rw [if_pos (by linarith)]
    · have hD : (if a.cycleDuration > 1 / 100000 then a.cycleDuration else 1) = 1 :=
        if_neg (by linarith)
      rw [hD] at m1 m2
      rw [m1, m2, List.getElem?_set_self hi]
      refine ⟨rfl, ?_⟩
      simp only [movingOffset, phaseOffset]
      rw [if_pos (by norm_num)]
    · have hD : (if a.cycleDuration > 1 / 100000 then a.cycleDuration else 1)
          = a.cycleDuration := if_pos hlo
      rw [hD] at m1 m2
      rw [m1, m2, List.getElem?_set_self hi]
      refine ⟨rfl, ?_⟩
      simp only [movingOffset]
      rw [if_neg (by linarith)]

/-- C12 (amended) at the sample environment: 30 ticks from level start, a cycle time of
0.49998 s, leave the platform at x = 100 + ease(30*dt, 0, 50, 1) = 124.999 and y = 100; and
one update of the scenario's record from cycle time 0 leaves the wrapped cycle time dt and
the platform at the anchor moved along 'x' by the two-phase offset for phase duration 1. -/
theorem moving_platform_position_witness :
    (mkWorld movingLevel (mkPlayer 0 0)).currentLevelData = movingLevel ∧
    ((List.replicate 30 (mkInput false)).length : ℚ) * fixed_dt_seconds = 49998 / 100000 ∧
    sampleEnv.sineEaseInOut (49998 / 100000) 0 50 1 = 24999 / 1000 ∧
    (runTicks sampleEnv (List.replicate 30 (mkInput false))
      (startLevel sampleEnv (mkWorld movingLevel (mkPlayer 0 0)))).bodies
      = [mkBody 3 bodyType.moving
          (100 + sampleEnv.sineEaseInOut
            (((List.replicate 30 (mkInput false)).length : ℚ) * fixed_dt_seconds) 0 50 1)
          100] ∧
    ((updateMovingPlatform sampleEnv (movingRecord 0 ⟨100, 100⟩)
        [mkBody 3 bodyType.moving 100 100] []).1.cycleTime
        = fmod ((movingRecord 0 ⟨100, 100⟩).cycleTime + fixed_dt_seconds)
            (movingRecord 0 ⟨100, 100⟩).cycleDuration ∧
      (updateMovingPlatform sampleEnv (movingRecord 0 ⟨100, 100⟩)
        [mkBody 3 bodyType.moving 100 100] []).2.1[0]?
        = some { mkBody 3 bodyType.moving 100 100 with
            position := (axisPosition (movingRecord 0 ⟨100, 100⟩).axis
              (movingRecord 0 ⟨100, 100⟩).movementAnchorPosition
              (phaseOffset sampleEnv (movingRecord 0 ⟨100, 100⟩)
                (updateMovingPlatform sampleEnv (movingRecord 0 ⟨100, 100⟩)
                  [mkBody 3 bodyType.moving 100 100] []).1.cycleTime
                ((movingRecord 0 ⟨100, 100⟩).cycleDuration / 2))) }) :=
  ⟨rfl, by decide!, by decide!,
   (moving_platform_position sampleEnv (mkWorld movingLevel (mkPlayer 0 0))
      (List.replicate 30 (mkInput false)) rfl (by decide) (by decide)).1,
   ((moving_platform_position sampleEnv (mkWorld movingLevel (mkPlayer 0 0))
      (List.replicate 30 (mkInput false)) rfl (by decide) (by decide)).2
      (movingRecord 0 ⟨100, 100⟩) [mkBody 3 bodyType.moving 100 100] [] 0
      (mkBody 3 bodyType.moving 100 100) (by decide!) rfl).1 (by decide!)⟩

/-- C26: after level setup the vanishing clock is zero and the parity is +1. In every world
in which a tick starts (after setup and any number of ticks) the clock lies in [0, 1 s).
A tick whose advanced clock `clock + TIME_PER_FIXED_UPDATE` stays below 1 s stores that
value and leaves the parity; a tick whose advanced clock reaches 1 s stores it minus 1 s
and flips the parity; so the parity changes in exactly the ticks that wrap, and after the
tick the clock lies in [0, 1 s) again. -/
theorem vanishing_clock_wraps (env : Env Tile) (w : World Tile) (h : Reachable env w) :
    (∀ w0 : World Tile, (startLevel env w0).vanishingPlatformCycleTimer = 0 ∧
      (startLevel env w0).oddEvenVanishing = 1) ∧
    (0 ≤ w.vanishingPlatformCycleTimer ∧ w.vanishingPlatformCycleTimer < 1000000) ∧
    (∀ inp : TickInput,
      (w.vanishingPlatformCycleTimer + TIME_PER_FIXED_UPDATE < 1000000 →
        (tick env inp w).1.vanishingPlatformCycleTimer
          = w.vanishingPlatformCycleTimer + TIME_PER_FIXED_UPDATE ∧
        (tick env inp w).1.oddEvenVanishing = w.oddEvenVanishing) ∧
      (w.vanishingPlatformCycleTimer + TIME_PER_FIXED_UPDATE ≥ 1000000 →
        (tick env inp w).1.vanishingPlatformCycleTimer
          = w.vanishingPlatformCycleTimer + TIME_PER_FIXED_UPDATE - 1000000 ∧
        (tick env inp w).1.oddEvenVanishing = -w.oddEvenVanishing) ∧
      ((tick env inp w).1.oddEvenVanishing ≠ w.oddEvenVanishing ↔
        w.vanishingPlatformCycleTimer + TIME_PER_FIXED_UPDATE ≥ 1000000) ∧
      0 ≤ (tick env inp w).1.vanishingPlatformCycleTimer ∧
      (tick env inp w).1.vanishingPlatformCycleTimer < 1000000) := by
  have hdt : TIME_PER_FIXED_UPDATE = 16666 := rfl
  have hinv : (0 ≤ w.vanishingPlatformCycleTimer ∧ w.vanishingPlatformCycleTimer < 1000000) ∧
      (w.oddEvenVanishing = 1 ∨ w.oddEvenVanishing = -1) := by
    induction h with
    | setup w0 =>
      have e : (startLevel env w0).vanishingPlatformCycleTimer = 0 := rfl
      exact ⟨⟨by rw [e], by rw [e]; decide⟩, Or.inl rfl⟩
    | tick inp w0 _ ih =>
      obtain ⟨⟨i1, i2⟩, ip⟩ := ih
      rw [(tick_clock env inp w0).1, (tick_clock env inp w0).2]
      simp only [advanceVanishingClock, hdt]
      split_ifs with hc
      · refine ⟨⟨by simp only; omega, by simp only; omega⟩, ?_⟩
        rcases ip with ip | ip <;> simp [ip]
      · exact ⟨⟨by simp only; omega, by simp only; omega⟩, ip⟩
  obtain ⟨⟨h0, h1⟩, hp⟩ := hinv
  refine ⟨fun w0 => ⟨rfl, rfl⟩, ⟨h0, h1⟩, fun inp => ?_⟩
  rw [(tick_clock env inp w).1, (tick_clock env inp w).2]
  simp only [advanceVanishingClock, hdt]
  split_ifs with hc
  · refine ⟨fun hlt => absurd hc (by omega), fun _ => ⟨rfl, by simp⟩, ?_, ?_, ?_⟩
    · constructor
      · intro _; exact hc
      · intro _
        rcases hp with hp | hp <;> simp [hp]
    · simp only; omega
    · simp only; omega
  · refine ⟨fun _ => ⟨rfl, rfl⟩, fun hge => absurd hge hc, ?_, ?_, ?_⟩
    · constructor
      · intro hne; exact absurd rfl hne
      · intro hge; exact absurd hge hc
    · simp only; omega
    · simp only; omega

/-- C26 at the sample vanishing level: after setup the clock is 0 and the parity +1, and the
first tick stores the clock 16666 us and leaves the parity; the 60th tick stores 999960 us
with parity +1, and the 61st tick wraps to 16626 us and flips the parity to -1. -/
theorem vanishing_clock_wraps_witness :
    ((tick sampleEnv (mkInput false)
        (startLevel sampleEnv (mkWorld vanishingLevel (mkPlayer 0 0)))).1.vanishingPlatformCycleTimer
        = (startLevel sampleEnv
            (mkWorld vanishingLevel (mkPlayer 0 0))).vanishingPlatformCycleTimer
          + TIME_PER_FIXED_UPDATE ∧
      (tick sampleEnv (mkInput false)
        (startLevel sampleEnv (mkWorld vanishingLevel (mkPlayer 0 0)))).1.oddEvenVanishing
        = (startLevel sampleEnv (mkWorld vanishingLevel (mkPlayer 0 0))).oddEvenVanishing) ∧
    (runTicks sampleEnv (List.replicate 60 (mkInput false))
      (startLevel sampleEnv (mkWorld vanishingLevel (mkPlayer 0 0)))).vanishingPlatformCycleTimer
      = 999960 ∧
    (runTicks sampleEnv (List.replicate 60 (mkInput false))
      (startLevel sampleEnv (mkWorld vanishingLevel (mkPlayer 0 0)))).oddEvenVanishing = 1 ∧
    (runTicks sampleEnv (List.replicate 61 (mkInput false))
      (startLevel sampleEnv (mkWorld vanishingLevel (mkPlayer 0 0)))).vanishingPlatformCycleTimer
      = 16626 ∧
    (runTicks sampleEnv (List.replicate 61 (mkInput false))
      (startLevel sampleEnv (mkWorld vanishingLevel (mkPlayer 0 0)))).oddEvenVanishing = -1 :=
  ⟨((vanishing_clock_wraps sampleEnv _
      (Reachable.setup (mkWorld vanishingLevel (mkPlayer 0 0)))).2.2 (mkInput false)).1
      (by decide),
   by decide!, by decide!, by decide!, by decide!⟩

/-- C30: with times in integer microseconds, a new-jump tick leaves the hold timer of its
velocity update at 1 us. If the `n` ticks that follow it all take the jump-hold extension
branch, then `n ≤ 11`, and after them the hold timer is `1 + 16666 * n` us, zero or the
maximum. After 11 such ticks no tick takes the extension branch, and a tick that starts
with the player airborne is not a new-jump tick either: its velocity update resets the
hold timer to zero. The jump velocity is re-applied in the extension branch only, so in at
most 11 ticks per jump. -/
theorem jump_hold_at_most_eleven (env : Env Tile) (inp0 : TickInput) (w0 : World Tile)
    (inps : List TickInput) (hnew : newJumpPressThisFrame inp0 w0 = true)
    (hall : allExtension env inps (tick env inp0 w0).1 = true) :
    (afterVelocityUpdate env inp0 w0).currentJumpHoldDuration = 1 ∧
    inps.length ≤ 11 ∧
    ((runTicks env inps (tick env inp0 w0).1).currentJumpHoldDuration
        = 1 + TIME_PER_FIXED_UPDATE * (inps.length : Int) ∨
      (runTicks env inps (tick env inp0 w0).1).currentJumpHoldDuration = 0 ∨
      (runTicks env inps (tick env inp0 w0).1).currentJumpHoldDuration
        = MAX_JUMP_HOLD_TIME) ∧
    (inps.length = 11 → ∀ inp : TickInput,
      extensionTaken inp (runTicks env inps (tick env inp0 w0).1) = false ∧
      ((runTicks env inps (tick env inp0 w0).1).playerBody.onGround = false →
        newJumpPressThisFrame inp (runTicks env inps (tick env inp0 w0).1) = false ∧
        (afterVelocityUpdate env inp
          (runTicks env inps (tick env inp0 w0).1)).currentJumpHoldDuration = 0)) := by
  have h1 := (afterVelocityUpdate_hold env inp0 w0).1 hnew
  have hstart : (tick env inp0 w0).1.currentJumpHoldDuration = 1 + 16666 * ((0 : Nat) : Int) ∨
      (tick env inp0 w0).1.currentJumpHoldDuration = 0 ∨
      (tick env inp0 w0).1.currentJumpHoldDuration = 180000 := by
    rcases tick_hold env inp0 w0 with t | t | t
    · left; rw [t, h1]; rfl
    · exact Or.inr (Or.inl t)
    · exact Or.inr (Or.inr t)
  obtain ⟨hlen, hhold⟩ := extension_chain env inps (tick env inp0 w0).1 0 hstart (by omega) hall
  rw [Nat.zero_add] at hlen hhold
  refine ⟨h1, hlen, hhold, ?_⟩
  intro h11 inp
  rw [h11] at hhold
  have hext : extensionTaken inp (runTicks env inps (tick env inp0 w0).1) = false := by
    simp only [extensionTaken, MAX_JUMP_HOLD_TIME]
    rcases hhold with h | h | h <;> rw [h] <;> simp
  refine ⟨hext, fun hair => ?_⟩
  have hn : newJumpPressThisFrame inp (runTicks env inps (tick env inp0 w0).1) = false := by
    simp [newJumpPressThisFrame, hair]
  exact ⟨hn, (afterVelocityUpdate_hold env inp _).2.2 hn hext⟩

/-- C30 at a sample world: the player, on ground, starts a jump and keeps the jump key
held; the resolver takes it off the ground. The 11 following ticks all take the extension
branch and leave the hold timer at 183327 us; a 12th does not, so 12 following ticks do not
all take it; the velocity update of the 12th tick resets the hold timer to zero. -/
theorem jump_hold_at_most_eleven_witness :
    newJumpPressThisFrame (mkKeys true false)
      (mkWorld (groundPortalLevel bodyType.solid) (mkGroundedPlayer 0 0 0)) = true ∧
    allExtension (resolverEnv liftOffResolver) (List.replicate 11 (mkKeys true false))
      (tick (resolverEnv liftOffResolver) (mkKeys true false)
        (mkWorld (groundPortalLevel bodyType.solid) (mkGroundedPlayer 0 0 0))).1 = true ∧
    (List.replicate 11 (mkKeys true false)).length ≤ 11 ∧
    (runTicks (resolverEnv liftOffResolver) (List.replicate 11 (mkKeys true false))
      (tick (resolverEnv liftOffResolver) (mkKeys true false)
        (mkWorld (groundPortalLevel bodyType.solid)
          (mkGroundedPlayer 0 0 0))).1).currentJumpHoldDuration = 183327 ∧
    allExtension (resolverEnv liftOffResolver) (List.replicate 12 (mkKeys true false))
      (tick (resolverEnv liftOffResolver) (mkKeys true false)
        (mkWorld (groundPortalLevel bodyType.solid) (mkGroundedPlayer 0 0 0))).1 = false ∧
    (afterVelocityUpdate (resolverEnv liftOffResolver) (mkKeys true false)
      (runTicks (resolverEnv liftOffResolver) (List.replicate 11 (mkKeys true false))
        (tick (resolverEnv liftOffResolver) (mkKeys true false)
          (mkWorld (groundPortalLevel bodyType.solid)
            (mkGroundedPlayer 0 0 0))).1)).currentJumpHoldDuration = 0 :=
  ⟨by decide!, by decide!,
   (jump_hold_at_most_eleven (resolverEnv liftOffResolver) (mkKeys true false)
      (mkWorld (groundPortalLevel bodyType.solid) (mkGroundedPlayer 0 0 0))
      (List.replicate 11 (mkKeys true false)) (by decide!) (by decide!)).2.1,
   by decide!, by decide!, by decide!⟩

/-- C21: take a tick with interact pressed that reaches the dispatch without a trap hit and
without a goal overlap. The portal loop passes over a portal whose link id is zero or is
shared by no portal with another id: the scan of the candidates from that portal on is the
scan of the candidates after it, and when all bodies before it are no overlapped portals
or cannot teleport either, the whole scan is the scan of the candidates after it. When no
overlapped portal can teleport, the tick is the interactible loop followed by the
fall-death check, and the player's position, velocity and last-tick position are those
the dispatch found. -/
theorem dead_portal_is_skipped (env : Env Tile) (inp : TickInput) (w : World Tile)
    (hT : trapHit (tickFront env inp w) = false)
    (hE : inp.interactKeyPressedThisFrame = true)
    (hG : goalOverlap (tickFront env inp w) = false) :
    (∀ (cur : PlatformBody) (rest : List PlatformBody),
      DeadPortal (tickFront env inp w).bodies cur →
      portalScan (tickFront env inp w).playerBody (tickFront env inp w).bodies (cur :: rest)
        = portalScan (tickFront env inp w).playerBody (tickFront env inp w).bodies rest) ∧
    (∀ (pre : List PlatformBody) (cur : PlatformBody) (rest : List PlatformBody),
      (tickFront env inp w).bodies = pre ++ cur :: rest →
      (∀ c ∈ pre, c.type = bodyType.portal →
        (tickFront env inp w).playerBody.getAABB.intersects c.getAABB = true →
        DeadPortal (tickFront env inp w).bodies c) →
      DeadPortal (tickFront env inp w).bodies cur →
      (tick env inp w).1
        = (fallDeath
            (match portalScan (tickFront env inp w).playerBody (tickFront env inp w).bodies
                rest with
              | some (source, target) =>
                { tickFront env inp w with
                  playerBody := teleportPlayer (tickFront env inp w).playerBody source target }
              | none => interactibleDispatch env (tickFront env inp w))).1) ∧
    ((∀ cur ∈ (tickFront env inp w).bodies, cur.type = bodyType.portal →
        (tickFront env inp w).playerBody.getAABB.intersects cur.getAABB = true →
        DeadPortal (tickFront env inp w).bodies cur) →
      (tick env inp w).1 = (fallDeath (interactibleDispatch env (tickFront env inp w))).1 ∧
      (tick env inp w).1.playerBody.position = (tickFront env inp w).playerBody.position ∧
      (tick env inp w).1.playerBody.velocity = (tickFront env inp w).playerBody.velocity ∧
      (tick env inp w).1.playerBody.lastPosition
        = (tickFront env inp w).playerBody.lastPosition) := by
  have htick : (tick env inp w).1
      = (fallDeath
          (match portalScan (tickFront env inp w).playerBody (tickFront env inp w).bodies
              (tickFront env inp w).bodies with
            | some (source, target) =>
              { tickFront env inp w with
                playerBody := teleportPlayer (tickFront env inp w).playerBody source target }
            | none => interactibleDispatch env (tickFront env inp w))).1 := by
    simp only [tick, tickTail, hT, interactionDispatch, hE, hG, if_true, if_false,
      Bool.false_eq_true]
  refine ⟨fun cur rest h => portalScan_dead _ _ cur rest h, ?_, ?_⟩
  · intro pre cur rest hsplit hpre hcur
    have hscan : portalScan (tickFront env inp w).playerBody (tickFront env inp w).bodies
        (tickFront env inp w).bodies
        = portalScan (tickFront env inp w).playerBody (tickFront env inp w).bodies rest := by
      have hgen : ∀ l : List PlatformBody, l = pre ++ cur :: rest →
          portalScan (tickFront env inp w).playerBody (tickFront env inp w).bodies l
            = portalScan (tickFront env inp w).playerBody (tickFront env inp w).bodies
                rest := by
        intro l hl
        rw [hl, portalScan_append _ _ pre (cur :: rest) hpre]
        exact portalScan_dead _ _ cur rest hcur
      exact hgen _ hsplit
    rw [htick, hscan]
  · intro hall
    have hscan : portalScan (tickFront env inp w).playerBody (tickFront env inp w).bodies
        (tickFront env inp w).bodies = none := by
      have h0 := portalScan_append (tickFront env inp w).playerBody
        (tickFront env inp w).bodies (tickFront env inp w).bodies [] hall
      rw [List.append_nil] at h0
      rw [h0]; rfl
    rw [htick, hscan]
    obtain ⟨k1, k2, k3, _⟩ := interactibleDispatch_kinematics env (tickFront env inp w)
    refine ⟨rfl, ?_, ?_, ?_⟩
    · rw [fallDeath_playerBody]; exact k1
    · rw [fallDeath_playerBody]; exact k2
    · rw [fallDeath_playerBody]; exact k3

/-- C21 at two sample levels. With two overlapped portals without partner and an
interactible at the player's place, the interact tick leaves the player's position as the
dispatch found it and activates the interactible. With a portal without partner followed by
the linked portals A and B, the interact tick teleports the player through A to B. -/
theorem dead_portal_is_skipped_witness :
    trapHit (tickFront sampleEnv (mkInput true)
      (mkWorld deadPortalLevel (mkPlayer 0 0))) = false ∧
    goalOverlap (tickFront sampleEnv (mkInput true)
      (mkWorld deadPortalLevel (mkPlayer 0 0))) = false ∧
    (tick sampleEnv (mkInput true) (mkWorld deadPortalLevel (mkPlayer 0 0))).1.playerBody.position
      = (tickFront sampleEnv (mkInput true)
          (mkWorld deadPortalLevel (mkPlayer 0 0))).playerBody.position ∧
    activatedKey sampleEnv (mkInput true) (mkWorld deadPortalLevel (mkPlayer 0 0)) = some 4 ∧
    (tick sampleEnv (mkInput true)
      (mkWorld deadThenLiveLevel (mkPlayer 0 0))).1.playerBody.position = ⟨300, 0⟩ :=
  ⟨by decide!, by decide!,
   ((dead_portal_is_skipped sampleEnv (mkInput true) (mkWorld deadPortalLevel (mkPlayer 0 0))
      (by decide!) rfl (by decide!)).2.2 (by decide!)).2.1,
   by decide!, by decide!⟩

/-- C25: the goal outcome does not end the frame's drain of ticks. At the sample goal level
with interact pressed and two ticks pending, the first tick reaches the goal (the level
manager loads the next level, the state becomes TRANSITIONING) without leaving the tick
loop; the second tick is simulated and reaches the goal again, so that the level manager
has loaded twice after the frame. And at the sample level whose goal lies below the
fall-death limit, one tick raises the goal outcome (the level manager loads) and then the
fall death (final state GAME_OVER_LOSE_FALL). -/
theorem goal_does_not_end_frame :
    ((tick sampleEnv mkGoalInput (mkWorld goalLevel (mkPlayer 0 0))).2 = false ∧
      (tick sampleEnv mkGoalInput (mkWorld goalLevel (mkPlayer 0 0))).1.currentState
        = GameState.TRANSITIONING ∧
      (tick sampleEnv mkGoalInput
        (mkWorld goalLevel (mkPlayer 0 0))).1.currentLevelData.playerStartPosition
        = ⟨1, 0⟩ ∧
      goalOverlap (tickFront sampleEnv mkGoalInput
        (tick sampleEnv mkGoalInput (mkWorld goalLevel (mkPlayer 0 0))).1) = true ∧
      (drainFrame sampleEnv [mkGoalInput, mkGoalInput]
        (mkWorld goalLevel (mkPlayer 0 0))).currentLevelData.playerStartPosition
        = ⟨2, 0⟩) ∧
    ((mkWorld lowGoalLevel (mkPlayer 0 2001)).currentLevelData.playerStartPosition
        = ⟨0, 2001⟩ ∧
      (tick sampleEnv mkGoalInput
        (mkWorld lowGoalLevel (mkPlayer 0 2001))).1.currentLevelData.playerStartPosition
        = ⟨1, 2001⟩ ∧
      (tick sampleEnv mkGoalInput (mkWorld lowGoalLevel (mkPlayer 0 2001))).1.currentState
        = GameState.GAME_OVER_LOSE_FALL ∧
      (tick sampleEnv mkGoalInput (mkWorld lowGoalLevel (mkPlayer 0 2001))).2 = true) := by
  refine ⟨⟨?_, ?_, ?_, ?_, ?_⟩, ?_, ?_, ?_, ?_⟩ <;> decide!

/-- C23 (counterexample): the sample level authors platform 3 as moving and platform 4 as
interactible (ids unique) and holds no detail record; after level setup there is no
movement record and no interaction record under key 4. -/
theorem records_iff_authored_counterexample :
    noDetailLevel.platforms.map (fun t => (t.id, t.type))
      = [(3, bodyType.moving), (4, bodyType.interactible)] ∧
    (startLevel sampleEnv (mkWorld noDetailLevel (mkPlayer 0 0))).activeMovingPlatforms = [] ∧
    (startLevel sampleEnv (mkWorld noDetailLevel (mkPlayer 0 0))).activeInteractibles 4
      = none := by
  refine ⟨?_, ?_, ?_⟩ <;> decide!

/-- C23 (amended): after level setup a movement record with id `i` exists iff the level
authors a platform with id `i` as moving and holds a movement detail with id `i`; an
interaction record under key `i` exists iff the level authors a platform with id `i` as
interactible and holds an interaction detail with id `i`. For a platform `T` that is the
only one with its id: a movement record with its id exists iff `T` is authored as moving
and a movement detail with its id exists, and an interaction record under its id exists
iff `T` is authored as interactible and an interaction detail with its id exists. -/
theorem records_iff_authored_with_detail (env : Env Tile) (w : World Tile) (i : Nat) :
    ((∃ r ∈ (startLevel env w).activeMovingPlatforms, r.id = i) ↔
      ∃ t ∈ w.currentLevelData.platforms, t.type = bodyType.moving ∧ t.id = i ∧
        ∃ d ∈ w.currentLevelData.movingPlatformDetails, d.id = i) ∧
    (((startLevel env w).activeInteractibles i).isSome = true ↔
      ∃ t ∈ w.currentLevelData.platforms, t.type = bodyType.interactible ∧ t.id = i ∧
        ∃ d ∈ w.currentLevelData.interactiblePlatformDetails, d.id = i) ∧
    (∀ T ∈ w.currentLevelData.platforms,
      (∀ t ∈ w.currentLevelData.platforms, t.id = T.id → t = T) →
      ((∃ r ∈ (startLevel env w).activeMovingPlatforms, r.id = T.id) ↔
        (T.type = bodyType.moving ∧
          ∃ d ∈ w.currentLevelData.movingPlatformDetails, d.id = T.id)) ∧
      (((startLevel env w).activeInteractibles T.id).isSome = true ↔
        (T.type = bodyType.interactible ∧
          ∃ d ∈ w.currentLevelData.interactiblePlatformDetails, d.id = T.id))) := by
  have hm : ∀ k, (∃ r ∈ (startLevel env w).activeMovingPlatforms, r.id = k) ↔
      ∃ t ∈ w.currentLevelData.platforms, t.type = bodyType.moving ∧ t.id = k ∧
        ∃ d ∈ w.currentLevelData.movingPlatformDetails, d.id = k := by
    intro k
    have h := setupFold_records_iff env w.currentLevelData w.currentLevelData.platforms
      (([] : List PlatformBody), ([] : List ActiveMovingPlatform),
        (fun _ => (none : Option ActiveInteractiblePlatform))) k
    simp only [List.not_mem_nil, false_and, exists_false, false_or] at h
    exact h
  have hi : ∀ k, ((startLevel env w).activeInteractibles k).isSome = true ↔
      ∃ t ∈ w.currentLevelData.platforms, t.type = bodyType.interactible ∧ t.id = k ∧
        ∃ d ∈ w.currentLevelData.interactiblePlatformDetails, d.id = k := by
    intro k
    have h := setupFold_interactibles_iff env w.currentLevelData w.currentLevelData.platforms
      (([] : List PlatformBody), ([] : List ActiveMovingPlatform),
        (fun _ => (none : Option ActiveInteractiblePlatform))) k
    simp only [Option.isSome_none, Bool.false_eq_true, false_or] at h
    exact h
  refine ⟨hm i, hi i, ?_⟩
  intro T hT huniq
  rw [hm T.id, hi T.id]
  constructor
  · constructor
    · rintro ⟨t, ht, hty, hid, hd⟩
      rw [huniq t ht hid] at hty
      exact ⟨hty, hd⟩
    · rintro ⟨hty, hd⟩
      exact ⟨T, hT, hty, rfl, hd⟩
  · constructor
    · rintro ⟨t, ht, hty, hid, hd⟩
      rw [huniq t ht hid] at hty
      exact ⟨hty, hd⟩
    · rintro ⟨hty, hd⟩
      exact ⟨T, hT, hty, rfl, hd⟩

/-- C23 (amended) at two sample levels: the level whose moving platform 3 has a movement
detail gets a movement record with id 3, and the level whose interactible 4 has an
interaction detail gets an interaction record under key 4. -/
theorem records_iff_authored_with_detail_witness :
    (∃ r ∈ (startLevel sampleEnv (mkWorld movingLevel (mkPlayer 0 0))).activeMovingPlatforms,
      r.id = 3) ∧
    ((startLevel sampleEnv
      (mkWorld (interactibleLevel false 1) (mkPlayer 0 0))).activeInteractibles 4).isSome
        = true :=
  ⟨(records_iff_authored_with_detail sampleEnv (mkWorld movingLevel (mkPlayer 0 0)) 3).1.mpr
      ⟨mkBody 3 bodyType.moving 100 100, List.mem_singleton.mpr rfl, rfl, rfl,
        ⟨{ id := 3, startPosition := ⟨100, 100⟩, axis := 'x', distance := 50,
           cycleDuration := 2, initialDirection := 1 }, List.mem_singleton.mpr rfl, rfl⟩⟩,
    (records_iff_authored_with_detail sampleEnv
      (mkWorld (interactibleLevel false 1) (mkPlayer 0 0)) 4).2.1.mpr
      ⟨mkBody 4 bodyType.interactible 0 0, List.mem_singleton.mpr rfl, rfl, rfl,
        ⟨{ id := 4, interactionType := "changeSelf", targetBodyType := bodyType.interactible,
           oneTime := false, cooldown := 1, linkedID := 0 }, List.mem_singleton.mpr rfl, rfl⟩⟩⟩

/-- C22: let the level author the platform `T` at index `g` as moving and hold no movement
detail with its id. Level setup leaves the body at index `g` as authored and creates no
movement record with its id. After any run of ticks there still is no movement record
with its id; the moving-platform update of a tick leaves every body with its id as it is;
and a player that is on ground after collision resolution on a body with its id of live
type moving keeps its position in the post-collision block (no carry). When `T` is the
first template with its id, then after every run of ticks none of which reaches the goal
the body at index `g` still has `T`'s id and is at `T`'s authored position. -/
theorem moving_without_detail_is_static (env : Env Tile) (w0 : World Tile) (g : Nat)
    (T : PlatformBody) (hT : w0.currentLevelData.platforms[g]? = some T)
    (hty : T.type = bodyType.moving)
    (hnd : ∀ d ∈ w0.currentLevelData.movingPlatformDetails, d.id ≠ T.id) :
    (startLevel env w0).bodies[g]? = some T ∧
    (∀ r ∈ (startLevel env w0).activeMovingPlatforms, r.id ≠ T.id) ∧
    (∀ inps : List TickInput,
      (∀ r ∈ (runTicks env inps (startLevel env w0)).activeMovingPlatforms, r.id ≠ T.id) ∧
      (∀ (inp : TickInput) (i : Nat) (b : PlatformBody),
        (runTicks env inps (startLevel env w0)).bodies[i]? = some b → b.id = T.id →
        (updateMovingPlatforms env
          (beginTick inp (runTicks env inps (startLevel env w0)))).bodies[i]? = some b) ∧
      (∀ (inp : TickInput) (k : Nat) (pf : PlatformBody),
        (afterCollision env inp (runTicks env inps (startLevel env w0))).1.playerBody.onGround
          = true →
        (afterCollision env inp
          (runTicks env inps (startLevel env w0))).1.playerBody.groundPlatform = some k →
        (afterCollision env inp (runTicks env inps (startLevel env w0))).1.bodies[k]?
          = some pf →
        pf.id = T.id → pf.type = bodyType.moving →
        (tickFront env inp (runTicks env inps (startLevel env w0))).playerBody.position
          = (afterCollision env inp
              (runTicks env inps (startLevel env w0))).1.playerBody.position) ∧
      (findTemplate w0.currentLevelData T.id = some T →
        noGoalTick env inps (startLevel env w0) = true →
        ∃ b, (runTicks env inps (startLevel env w0)).bodies[g]? = some b ∧ b.id = T.id ∧
          b.position = T.position)) := by
  have hfn : w0.currentLevelData.movingPlatformDetails.find?
      (fun detail => decide (detail.id = T.id)) = none := by
    rw [List.find?_eq_none]
    intro d hd
    simp [hnd d hd]
  have hbody : (startLevel env w0).bodies[g]? = some T := by
    obtain ⟨_, _, hb3⟩ := setupFold_bodies env w0.currentLevelData
      w0.currentLevelData.platforms
      (([] : List PlatformBody), ([] : List ActiveMovingPlatform),
        (fun _ => (none : Option ActiveInteractiblePlatform)))
    obtain ⟨b, hb, _, _, hbe⟩ := hb3 g T hT
    rw [hbe (fun _ => hfn)] at hb
    simp only [List.length_nil, Nat.zero_add] at hb
    exact hb
  have hno : ∀ r ∈ (startLevel env w0).activeMovingPlatforms, r.id ≠ T.id := by
    intro r hr hid
    have h := (setupFold_records_iff env w0.currentLevelData w0.currentLevelData.platforms
      (([] : List PlatformBody), ([] : List ActiveMovingPlatform),
        (fun _ => (none : Option ActiveInteractiblePlatform))) T.id).mp ⟨r, hr, hid⟩
    rcases h with ⟨r0, hr0, _⟩ | ⟨_, _, _, _, d, hd, hdi⟩
    · simp at hr0
    · exact hnd d hd hdi
  refine ⟨hbody, hno, fun inps => ?_⟩
  have hnoR := noRecord_runTicks env T.id inps (startLevel env w0) hno
  refine ⟨hnoR, ?_, ?_, ?_⟩
  · intro inp i b hb hid
    exact updateMovingPlatformsLoop_norecord env _ _ _ i b hb (by rw [hid]; exact hnoR)
  · intro inp k pf hog href hpf hid hpty
    exact tickFront_no_carry env inp _ k pf (by rw [hid]; exact hnoR) hog href hpf hpty
  · intro hfirst hng
    exact static_body_runTicks env w0.currentLevelData g T hfirst hty inps
      (startLevel env w0) T rfl hno hbody rfl rfl (Or.inl hty) hng

/-- C22 at the sample level whose moving platform (id 3, authored at (100, 100)) has no
movement detail: it is the template at index 0; after 30 ticks with the player landed on
it by the resolver the body is as authored and the player is where collision resolution
put it. -/
theorem moving_without_detail_is_static_witness :
    (mkWorld noDetailLevel (mkPlayer 100 68)).currentLevelData.platforms[0]?
      = some (mkBody 3 bodyType.moving 100 100) ∧
    (startLevel (resolverEnv (landingResolver false))
      (mkWorld noDetailLevel (mkPlayer 100 68))).bodies[0]?
      = some (mkBody 3 bodyType.moving 100 100) ∧
    (runTicks (resolverEnv (landingResolver false)) (List.replicate 30 (mkInput true))
      (startLevel (resolverEnv (landingResolver false))
        (mkWorld noDetailLevel (mkPlayer 100 68)))).bodies[0]?
      = some (mkBody 3 bodyType.moving 100 100) ∧
    (runTicks (resolverEnv (landingResolver false)) (List.replicate 30 (mkInput true))
      (startLevel (resolverEnv (landingResolver false))
        (mkWorld noDetailLevel (mkPlayer 100 68)))).playerBody.position = ⟨100, 68⟩ ∧
    ∃ b, (runTicks (resolverEnv (landingResolver false)) (List.replicate 30 (mkInput true))
      (startLevel (resolverEnv (landingResolver false))
        (mkWorld noDetailLevel (mkPlayer 100 68)))).bodies[0]? = some b ∧
      b.id = (mkBody 3 bodyType.moving 100 100).id ∧
      b.position = (mkBody 3 bodyType.moving 100 100).position :=
  ⟨by decide!,
   (moving_without_detail_is_static (resolverEnv (landingResolver false))
      (mkWorld noDetailLevel (mkPlayer 100 68)) 0 (mkBody 3 bodyType.moving 100 100)
      (by decide!) rfl (fun d hd => absurd hd (List.not_mem_nil d))).1,
   by decide!, by decide!,
   ((moving_without_detail_is_static (resolverEnv (landingResolver false))
      (mkWorld noDetailLevel (mkPlayer 100 68)) 0 (mkBody 3 bodyType.moving 100 100)
      (by decide!) rfl (fun d hd => absurd hd (List.not_mem_nil d))).2.2
      (List.replicate 30 (mkInput true))).2.2.2 (by decide!) (by decide!)⟩

/-- C24: take a platform at index `i` that has a tile and whose authored template is of
type vanishing with an authored position that is not usable (x ≤ -9998). In every tick of
the level, that is after any run of ticks none of which reaches the goal, the platform
update leaves it with live type none at the off-stage point, and it has live type none at
the off-stage point at the end of the tick: it is never restored to vanishing. -/
theorem vanishing_without_position_stays_none (env : Env Tile) (w : World Tile) (i : Nat)
    (b templ : PlatformBody) (hb : w.bodies[i]? = some b) (ht : i < w.tiles.length)
    (hT : findTemplate w.currentLevelData b.id = some templ)
    (hTy : templ.type = bodyType.vanishing) (hx : templ.position.x ≤ -9998)
    (inps : List TickInput) (hng : noGoalTick env inps w = true) (inp : TickInput) :
    (∃ b1, (afterPlatformBlocks env inp (runTicks env inps w)).bodies[i]? = some b1 ∧
      b1.id = b.id ∧ b1.type = bodyType.none ∧ b1.position = offStage) ∧
    (∃ b2, (tick env inp (runTicks env inps w)).1.bodies[i]? = some b2 ∧
      b2.id = b.id ∧ b2.type = bodyType.none ∧ b2.position = offStage) := by
  obtain ⟨hd, htl, bv, hbv, hid⟩ := level_runTicks env i inps w b hb hng
  have hT1 : findTemplate (runTicks env inps w).currentLevelData bv.id = some templ := by
    rw [hd, hid]; exact hT
  obtain ⟨⟨b1, h1, i1, t1, p1⟩, ⟨b2, h2, i2, t2, p2⟩⟩ :=
    retired_tick env inp (runTicks env inps w) i bv templ hbv (by rw [htl]; exact ht) hT1 hTy
      (not_lt.mpr hx)
  exact ⟨⟨b1, h1, i1.trans hid, t1, p1⟩, ⟨b2, h2, i2.trans hid, t2, p2⟩⟩

/-- C24 at the sample level whose vanishing platform (id 2) is authored at x = -9999: it is
authored with live type vanishing; in the first tick and in the tick after 70 ticks (more
than one cycle of the vanishing clock) it ends with live type none at the off-stage point. -/
theorem vanishing_without_position_stays_none_witness :
    (mkWorld retiredVanishingLevel (mkPlayer 0 0)).bodies[0]?
      = some (mkBody 2 bodyType.vanishing (-9999) 100) ∧
    (∃ b2, (tick sampleEnv (mkInput true)
        (runTicks sampleEnv [] (mkWorld retiredVanishingLevel (mkPlayer 0 0)))).1.bodies[0]?
        = some b2 ∧
      b2.id = (mkBody 2 bodyType.vanishing (-9999) 100).id ∧ b2.type = bodyType.none ∧
      b2.position = offStage) ∧
    (∃ b2, (tick sampleEnv (mkInput true)
        (runTicks sampleEnv (List.replicate 70 (mkInput true))
          (mkWorld retiredVanishingLevel (mkPlayer 0 0)))).1.bodies[0]? = some b2 ∧
      b2.id = (mkBody 2 bodyType.vanishing (-9999) 100).id ∧ b2.type = bodyType.none ∧
      b2.position = offStage) ∧
    (runTicks sampleEnv (List.replicate 71 (mkInput true))
      (mkWorld retiredVanishingLevel (mkPlayer 0 0))).bodies[0]?
      = some { mkBody 2 bodyType.vanishing (-9999) 100 with
               type := bodyType.none, position := offStage } :=
  ⟨by decide!,
   (vanishing_without_position_stays_none sampleEnv
      (mkWorld retiredVanishingLevel (mkPlayer 0 0)) 0
      (mkBody 2 bodyType.vanishing (-9999) 100) (mkBody 2 bodyType.vanishing (-9999) 100)
      (by decide!) (by decide!) (by decide!) rfl (by decide!) [] rfl (mkInput true)).2,
   (vanishing_without_position_stays_none sampleEnv
      (mkWorld retiredVanishingLevel (mkPlayer 0 0)) 0
      (mkBody 2 bodyType.vanishing (-9999) 100) (mkBody 2 bodyType.vanishing (-9999) 100)
      (by decide!) (by decide!) (by decide!) rfl (by decide!)
      (List.replicate 70 (mkInput true)) (by decide!) (mkInput true)).2,
   by decide!⟩

/-- C28: in a moving-platform update the modulus of the wrap is the cycle duration when that
exceeds 1/100000 and 1 otherwise, hence positive; for a record whose platform is found the new
cycle time is the old one plus the tick length, wrapped by that modulus, and in every world in
which a tick starts, and after the update loop of the tick, every record has
`0 ≤ cycleTime < modulus`; the offset is 0 when the phase duration is not above 1/100000; and
neither the update nor level setup depends on the values of the easing function at phase
durations that are not above 1/100000. -/
theorem moving_cycle_guards (env : Env Tile) (w : World Tile) (h : Reachable env w) :
    (∀ a : ActiveMovingPlatform,
      0 < effectiveDuration a ∧
      (a.cycleDuration > 1 / 100000 → effectiveDuration a = a.cycleDuration) ∧
      (¬ a.cycleDuration > 1 / 100000 → effectiveDuration a = 1)) ∧
    (∀ (a : ActiveMovingPlatform) (bodies : List PlatformBody) (tiles : List Tile)
        (idx : Nat) (mb : PlatformBody),
      findMovingBodyIdx a.id bodies = some idx → bodies[idx]? = some mb →
      (updateMovingPlatform env a bodies tiles).1.cycleTime
        = fmod (a.cycleTime + fixed_dt_seconds) (effectiveDuration a)) ∧
    (∀ r ∈ w.activeMovingPlatforms, 0 ≤ r.cycleTime ∧ r.cycleTime < effectiveDuration r) ∧
    (∀ r ∈ (updateMovingPlatformsLoop env w.activeMovingPlatforms w.bodies w.tiles).1,
      0 ≤ r.cycleTime ∧ r.cycleTime < effectiveDuration r) ∧
    (∀ (a : ActiveMovingPlatform) (t D : ℚ), ¬ D / 2 > 1 / 100000 →
      movingOffset env a t D = 0) ∧
    (∀ ease : ℚ → ℚ → ℚ → ℚ → ℚ,
      (∀ t b c d, d > 1 / 100000 → ease t b c d = env.sineEaseInOut t b c d) →
      (∀ (a : ActiveMovingPlatform) (bodies : List PlatformBody) (tiles : List Tile),
        updateMovingPlatform (withEasing env ease) a bodies tiles
          = updateMovingPlatform env a bodies tiles) ∧
      (∀ (data : LevelData)
          (acc : List PlatformBody × List ActiveMovingPlatform ×
            (Nat → Option ActiveInteractiblePlatform)) (t : PlatformBody),
        setupBody (withEasing env ease) data acc t = setupBody env data acc t)) := by
  refine ⟨?_, ?_, reachable_cycle env w h, ?_, ?_, ?_⟩
  · intro a
    refine ⟨effectiveDuration_pos a, ?_, ?_⟩
    · intro hc
      unfold effectiveDuration
      rw [if_pos hc]
    · intro hc
      unfold effectiveDuration
      rw [if_neg hc]
  · intro a bodies tiles idx mb hf hb
    simp only [updateMovingPlatform, hf, hb, effectiveDuration]
  · exact updateMovingPlatformsLoop_cycle env _ _ _ (reachable_cycle env w h)
  · intro a t D hD
    simp only [movingOffset, if_neg hD]
  · intro ease hag
    exact ⟨updateMovingPlatform_easing env ease hag, setupBody_easing env ease hag⟩

/-- Witness for C28 on the sample level with one moving platform, after setup and one tick:
the record has cycle time 16666/1000000 there, and 33332/1000000 after the next update. -/
theorem moving_cycle_guards_witness :
    (∀ r ∈ (tick sampleEnv (mkInput false)
        (startLevel sampleEnv (mkWorld movingLevel (mkPlayer 0 0)))).1.activeMovingPlatforms,
      0 ≤ r.cycleTime ∧ r.cycleTime < effectiveDuration r) ∧
    ((tick sampleEnv (mkInput false)
        (startLevel sampleEnv (mkWorld movingLevel (mkPlayer 0 0)))).1.activeMovingPlatforms.map
      (fun r => (r.cycleTime, effectiveDuration r)) = [(16666 / 1000000, 2)]) ∧
    ((tick sampleEnv (mkInput false) (tick sampleEnv (mkInput false)
        (startLevel sampleEnv (mkWorld movingLevel (mkPlayer 0 0)))).1).1.activeMovingPlatforms.map
      (fun r => (r.cycleTime, effectiveDuration r)) = [(33332 / 1000000, 2)]) :=
  ⟨(moving_cycle_guards sampleEnv _
      (Reachable.tick (mkInput false) _ (Reachable.setup _))).2.2.1,
    by decide!, by decide!⟩

/-- C29: in every world in which a tick starts, an interaction record whose configured
cooldown is not negative has `0 ≤ timer ≤ cooldown`. The timer is 0 after level setup; in a
tick the cooldown block lowers a positive timer by the tick length, clamped at 0, and keeps
any other timer; a tick that activates the record of a repeatable interactible leaves the
timer at the configured cooldown, and every tick leaves the configured cooldown as it was. -/
theorem cooldown_timer_within_bounds (env : Env Tile) (w : World Tile) (h : Reachable env w) :
    (∀ key st, w.activeInteractibles key = some st → 0 ≤ st.cooldown →
      0 ≤ st.currentCooldownTimer ∧ st.currentCooldownTimer ≤ st.cooldown) ∧
    (∀ (w0 : World Tile) key st, (startLevel env w0).activeInteractibles key = some st →
      st.currentCooldownTimer = 0) ∧
    (∀ st : ActiveInteractiblePlatform,
      (updateCooldown st).currentCooldownTimer
        = if st.currentCooldownTimer > 0 then
            max 0 (st.currentCooldownTimer - fixed_dt_seconds)
          else st.currentCooldownTimer) ∧
    (∀ (inp : TickInput) (key : Nat),
      (tick env inp w).1.activeInteractibles key
        = (w.activeInteractibles key).map (fun st =>
            if activatedKey env inp w = some key then markActivated (updateCooldown st)
            else updateCooldown st)) ∧
    (∀ st : ActiveInteractiblePlatform,
      (st.oneTime = false → (markActivated st).currentCooldownTimer = st.cooldown) ∧
      (st.oneTime = true → (markActivated st).currentCooldownTimer = st.currentCooldownTimer) ∧
      (markActivated st).cooldown = st.cooldown ∧
      (updateCooldown st).cooldown = st.cooldown) := by
  refine ⟨reachable_cooldown env w h, startLevel_timer env, updateCooldown_value,
    fun inp key => tick_record env inp w key, ?_⟩
  intro st
  refine ⟨?_, ?_, markActivated_cooldown st, (updateCooldown_keeps st).2.2⟩
  · intro ho
    simp [markActivated, ho]
  · intro ho
    simp [markActivated, ho]

/-- Witness for C29 on the sample level with one repeatable interactible (cooldown 1 s):
the timer is 0 after setup, 1 after the activating tick, 983334/1000000 one tick later, and
0 again after 61 further ticks. -/
theorem cooldown_timer_within_bounds_witness :
    (∀ key st, (tick sampleEnv (mkInput true) (startLevel sampleEnv
        (mkWorld (interactibleLevel false 1) (mkPlayer 0 0)))).1.activeInteractibles key
          = some st → 0 ≤ st.cooldown →
      0 ≤ st.currentCooldownTimer ∧ st.currentCooldownTimer ≤ st.cooldown) ∧
    ((startLevel sampleEnv (mkWorld (interactibleLevel false 1)
        (mkPlayer 0 0))).activeInteractibles 4).map (fun st => st.currentCooldownTimer)
      = some 0 ∧
    ((tick sampleEnv (mkInput true) (startLevel sampleEnv
        (mkWorld (interactibleLevel false 1) (mkPlayer 0 0)))).1.activeInteractibles 4).map
      (fun st => (st.currentCooldownTimer, st.cooldown)) = some (1, 1) ∧
    ((runTicks sampleEnv [mkInput true, mkInput false] (startLevel sampleEnv
        (mkWorld (interactibleLevel false 1) (mkPlayer 0 0)))).activeInteractibles 4).map
      (fun st => st.currentCooldownTimer) = some (983334 / 1000000) ∧
    ((runTicks sampleEnv (mkInput true :: List.replicate 61 (mkInput false))
        (startLevel sampleEnv
          (mkWorld (interactibleLevel false 1) (mkPlayer 0 0)))).activeInteractibles 4).map
      (fun st => st.currentCooldownTimer) = some 0 :=
  ⟨(cooldown_timer_within_bounds sampleEnv _
      (Reachable.tick (mkInput true) _ (Reachable.setup _))).1,
    by decide!, by decide!, by decide!, by decide!⟩

end ProjectT
